import Mathlib

/-!
# Car-wash sales management front end: a verification development

A shallow embedding of the client code of the repository (the pages under
`src/pages`, the session holder `src/context/AuthContext.js` and the API
client `src/services/api.js`) together with theorems about it.

Modelling conventions.

* A `useState` cell is a field of the page's state record; an event handler
  is a function from the state before the event to the state after it.
* An `async` handler that awaits one request is a function of the state
  before the call and of the settled outcome of the request
  (`Except JsError (ApiResponse α)`): the result is the state once the
  handler has run to completion.
* `toast.error`, `toast.success` and `console.error` append to the `toasts`
  and `console` logs carried by the state.
* A money amount is a natural number of units. The unit is the franc in the
  examples; read in the unit `2 ^ (-s)` franc the same definitions hold
  amounts with a fraction part, and every finite non-negative JavaScript
  number is a whole number of units of `2 ^ (-1074)`. JavaScript addition
  rounds the exact sum to a significand of 53 binary digits, ties to even
  (`jsAdd`), whatever the unit (`round53_mul_two_pow`); overflow to
  `Infinity`, from `2 ^ 1024` on, is not modelled.
* A property that may be missing on a JavaScript object is an `Option`.
-/

namespace CarWash

/-! ## Data model -/

/-- Car document, as listed by `carAPI.getAll` and as embedded in a populated
service record. -/
structure Car where
  _id : String
  plateNumber : Option String
  driverName : Option String
  carType : Option String
  carSize : Option String
  phoneNumber : Option String
  deriving DecidableEq, Repr

/-- Package document, as listed by `packageAPI.getAll` and as embedded in a
populated service record. -/
structure Package where
  _id : String
  packageName : Option String
  packageDescription : Option String
  packagePrice : Option Nat
  deriving DecidableEq, Repr

/-- Service record as returned by `servicePackageAPI.getAll`. -/
structure ServiceRecord where
  _id : String
  recordNumber : Option String
  car : Option Car
  package : Option Package
  serviceDate : String
  status : String
  deriving DecidableEq, Repr

/-- Payment as returned by `paymentAPI.getAll`; `servicePackage` is the
populated service record, absent when the reference does not resolve. -/
structure Payment where
  _id : String
  paymentNumber : Option String
  servicePackage : Option ServiceRecord
  amountPaid : Option Nat
  paymentMethod : String
  paymentDate : String
  deriving DecidableEq, Repr

/-! ## Requests, errors and notifications -/

/-- Body of an error response: `error.response.data`. -/
structure ErrorBody where
  message : Option String
  deriving DecidableEq, Repr

/-- The `error.response` of a rejected request. -/
structure ErrorResponse where
  status : Nat
  data : Option ErrorBody
  deriving DecidableEq, Repr

/-- A thrown JavaScript error. Only a request rejected with a server reply
has a `response`; a network error or a `TypeError` has none. -/
structure JsError where
  response : Option ErrorResponse
  deriving DecidableEq, Repr

/-- A fulfilled response; `data` is `response.data.data`. -/
structure ApiResponse (α : Type) where
  data : Option α
  deriving DecidableEq, Repr

/-- A notification shown by `react-toastify`. -/
inductive Toast where
  | error (msg : String)
  | success (msg : String)
  deriving DecidableEq, Repr

/-- One `console.error(label, error)` call. -/
structure ConsoleEntry where
  label : String
  error : JsError
  deriving DecidableEq, Repr

/-- JavaScript `xs || []` on an array that may be missing. -/
def orEmpty {α : Type} (xs : Option (List α)) : List α :=
  match xs with
  | some l => l
  | none => []

/-- JavaScript `n || 0` on a number that may be missing: `0` and a missing
value are both falsy. -/
def orZero (n : Option Nat) : Nat :=
  match n with
  | some (k + 1) => k + 1
  | _ => 0

/-- JavaScript `s || fallback` on a string that may be missing: the empty
string and a missing value are both falsy. -/
def orString (s : Option String) (fallback : String) : String :=
  match s with
  | some m => if m = "" then fallback else m
  | none => fallback

/-- JavaScript `Array.prototype.includes`. -/
def includes {α : Type} [DecidableEq α] (xs : List α) (x : α) : Bool :=
  xs.any (fun y => decide (y = x))

/-! ## JavaScript number addition -/

/-- Number of low binary digits of `n` that do not fit in a significand of 53
binary digits: the least `e` with `n / 2 ^ e < 2 ^ 53`, found by halving at
most `fuel` times. -/
def excessBits : Nat → Nat → Nat
  | 0, _ => 0
  | fuel + 1, n => if n < 2 ^ 53 then 0 else excessBits fuel (n / 2) + 1

/-- Rounding of a natural number to the nearest number with a significand of
53 binary digits, ties to the even significand: the rounding of IEEE 754
binary64 arithmetic. -/
def round53 (n : Nat) : Nat :=
  let e := excessBits n n
  let q := n / 2 ^ e
  let r := n % 2 ^ e
  if 2 * r < 2 ^ e then q * 2 ^ e
  else if 2 ^ e < 2 * r then (q + 1) * 2 ^ e
  else if q % 2 = 0 then q * 2 ^ e
  else (q + 1) * 2 ^ e

/-- JavaScript `a + b` on two non-negative numbers: the exact sum, rounded.
The operands are meant to be JavaScript numbers themselves, that is, fixed
by `round53`. -/
def jsAdd (a b : Nat) : Nat :=
  round53 (a + b)

/-- The left-to-right JavaScript sum of a list of numbers, from 0. -/
def jsSum (l : List Nat) : Nat :=
  l.foldl jsAdd 0

/-! ## Payments page (`src/pages/Payments.jsx`) -/

namespace Payments

/-- The `formData` cell of the payment form. -/
structure FormData where
  servicePackageId : String
  amountPaid : String
  paymentMethod : String
  paymentDate : String
  deriving DecidableEq, Repr

/-- State cells of the `Payments` component. -/
structure State where
  payments : List Payment
  unpaidServices : List ServiceRecord
  loading : Bool
  searchTerm : String
  isModalOpen : Bool
  formData : FormData
  formLoading : Bool
  selectedService : Option ServiceRecord
  toasts : List Toast
  console : List ConsoleEntry
  deriving DecidableEq, Repr

/-- The ids collected at line 40:
`payments.map(p => p.servicePackage?._id)`. -/
def paidServiceIds (payments : List Payment) : List (Option String) :=
  payments.map (fun p => p.servicePackage.map (fun sp => sp._id))

/-- The filter of line 41:
`services.filter(s => !paidServiceIds.includes(s._id) && s.status !== 'paid')`. -/
def unpaid (services : List ServiceRecord) (ids : List (Option String)) :
    List ServiceRecord :=
  services.filter (fun s => !(includes ids (some s._id)) && s.status != "paid")

/-- Run of `fetchData` (lines 28-49) once `Promise.all` has settled.
`Promise.all` rejects as soon as one of the two requests rejects, with the
error of that request; when both reject, the error of the payments request is
the one logged here. -/
def fetchData (st : State)
    (paymentsRes : Except JsError (ApiResponse (List Payment)))
    (servicesRes : Except JsError (ApiResponse (List ServiceRecord))) : State :=
  let st1 := { st with loading := true }
  match paymentsRes, servicesRes with
  | .ok pr, .ok sr =>
    let st2 := { st1 with payments := orEmpty pr.data }
    let services := orEmpty sr.data
    let ids := paidServiceIds (orEmpty pr.data)
    { st2 with unpaidServices := unpaid services ids, loading := false }
  | .error e, _ =>
    { st1 with
      console := st1.console ++ [⟨"Fetch data error:", e⟩]
      toasts := st1.toasts ++ [Toast.error "Failed to load data"]
      loading := false }
  | .ok _, .error e =>
    { st1 with
      console := st1.console ++ [⟨"Fetch data error:", e⟩]
      toasts := st1.toasts ++ [Toast.error "Failed to load data"]
      loading := false }

/-- The unpaid set as the specification words it: every service record whose
id is not the id of a service record referenced by a payment and whose status
is not `paid`. -/
def specUnpaid (services : List ServiceRecord) (payments : List Payment) :
    List ServiceRecord :=
  services.filter (fun s =>
    decide ((∀ p ∈ payments, ∀ sp, p.servicePackage = some sp → sp._id ≠ s._id)
      ∧ s.status ≠ "paid"))

end Payments

/-! ## Reports page (`src/pages/Reports.jsx`) -/

namespace Reports

/-- One row of the daily report as the page reads it. -/
structure DailyRow where
  plateNumber : Option String
  packageName : Option String
  packageDescription : Option String
  amountPaid : Option Nat
  paymentDate : Option String
  deriving DecidableEq, Repr

/-- One entry of `summary.revenueByPackage`. -/
structure RevenueItem where
  _id : Option String
  totalRevenue : Option Nat
  count : Option Nat
  deriving DecidableEq, Repr

/-- The summary report as the page reads it. -/
structure Summary where
  totalPayments : Option Nat
  totalServices : Option Nat
  totalCars : Option Nat
  totalRevenue : Option Nat
  revenueByPackage : Option (List RevenueItem)
  deriving DecidableEq, Repr

/-- State cells of the `Reports` component. -/
structure State where
  dailyReport : List DailyRow
  summary : Option Summary
  selectedDate : String
  loading : Bool
  reportLoading : Bool
  toasts : List Toast
  console : List ConsoleEntry
  deriving DecidableEq, Repr

/-- Run of `fetchSummary` (lines 19-28) on the settled outcome of
`reportAPI.getSummary()`. -/
def fetchSummary (st : State) (res : Except JsError (ApiResponse Summary)) : State :=
  match res with
  | .ok response => { st with summary := response.data, loading := false }
  | .error e =>
    { st with
      console := st.console ++ [⟨"Fetch summary error:", e⟩]
      loading := false }

/-- Run of `fetchDailyReport` (lines 30-41). `getDaily` is
`reportAPI.getDaily`: the settled outcome of the request for each date. -/
def fetchDailyReport (st : State)
    (getDaily : String → Except JsError (ApiResponse (List DailyRow)))
    (date : String) : State :=
  let st1 := { st with reportLoading := true }
  match getDaily date with
  | .ok response =>
    { st1 with dailyReport := orEmpty response.data, reportLoading := false }
  | .error e =>
    { st1 with
      console := st1.console ++ [⟨"Fetch daily report error:", e⟩]
      toasts := st1.toasts ++ [Toast.error "Failed to load daily report"]
      reportLoading := false }

/-- Run of `handleDateChange` (lines 43-47) for the date typed in the
date input. -/
def handleDateChange (st : State)
    (getDaily : String → Except JsError (ApiResponse (List DailyRow)))
    (date : String) : State :=
  fetchDailyReport { st with selectedDate := date } getDaily date

/-- Line 68:
`dailyReport.reduce((sum, item) => sum + (item.amountPaid || 0), 0)`. -/
def totalDailyAmount (st : State) : Nat :=
  st.dailyReport.foldl (fun sum item => jsAdd sum (orZero item.amountPaid)) 0

/-- Row that the daily report shows for a payment: the payment enriched with
car plate, package name and description, amount and date. -/
def toRow (p : Payment) : DailyRow :=
  { plateNumber := (p.servicePackage.bind (fun s => s.car)).bind (fun c => c.plateNumber)
    packageName := (p.servicePackage.bind (fun s => s.package)).bind (fun k => k.packageName)
    packageDescription :=
      (p.servicePackage.bind (fun s => s.package)).bind (fun k => k.packageDescription)
    amountPaid := p.amountPaid
    paymentDate := some p.paymentDate }

/-- Modelled from the spec: the backend route behind `GET /reports/daily`,
which is not among the sources. Section 4.5: input a calendar date; output
every Payment made on that date, each enriched with car plate, package
name/description, amount, date. -/
def dailyReportBackend (store : List Payment) (date : String) : List DailyRow :=
  (store.filter (fun p => decide (p.paymentDate = date))).map toRow

/-- Modelled from the spec: `reportAPI.getDaily` against a backend that holds
the payments `store` and answers every request. -/
def getDailyFrom (store : List Payment) (date : String) :
    Except JsError (ApiResponse (List DailyRow)) :=
  .ok ⟨some (dailyReportBackend store date)⟩

end Reports

/-! ## Browser environment and API client (`src/services/api.js`) -/

/-- The part of the browser that the client code touches: `localStorage`
as a list of key/value entries and `window.location.href`. -/
structure Env where
  storage : List (String × String)
  location : String
  deriving DecidableEq, Repr

/-- The call `localStorage.getItem(key)`. -/
def getItem (storage : List (String × String)) (key : String) : Option String :=
  (storage.find? (fun kv => decide (kv.1 = key))).map (fun kv => kv.2)

/-- The call `localStorage.removeItem(key)`. -/
def removeItem (storage : List (String × String)) (key : String) :
    List (String × String) :=
  storage.filter (fun kv => !decide (kv.1 = key))

/-- The call `localStorage.setItem(key, value)`. -/
def setItem (storage : List (String × String)) (key value : String) :
    List (String × String) :=
  (key, value) :: removeItem storage key

namespace Api

/-- Rejection handler of the response interceptor (lines 31-38): returns the
environment after the handler and the error the returned promise rejects
with. -/
def responseRejected (env : Env) (error : JsError) : Env × JsError :=
  if error.response.map (fun r => r.status) = some 401 then
    ({ storage := removeItem (removeItem env.storage "token") "user"
       location := "/login" }, error)
  else
    (env, error)

/-- Fulfilment handler of the response interceptor (line 30). -/
def responseFulfilled {α : Type} (response : ApiResponse α) : ApiResponse α :=
  response

/-- A request made through the `api` instance: the raw outcome of the
transport passes through the response interceptor before the caller sees
it. -/
def request {α : Type} (env : Env) (raw : Except JsError (ApiResponse α)) :
    Env × Except JsError (ApiResponse α) :=
  match raw with
  | .ok response => (env, .ok (responseFulfilled response))
  | .error e => ((responseRejected env e).1, .error (responseRejected env e).2)

end Api

/-! ## Session holder (`src/context/AuthContext.js`) -/

/-- A JSON scalar. -/
inductive JVal where
  | str (s : String)
  | num (n : Int)
  | bool (b : Bool)
  | null
  deriving DecidableEq, Repr

/-- A flat JSON object: its own properties in order. -/
abbrev JObj := List (String × JVal)

/-- Property read `obj[key]`; `none` is `undefined`. -/
def JObj.get (obj : JObj) (key : String) : Option JVal :=
  (obj.find? (fun kv => decide (kv.1 = key))).map (fun kv => kv.2)

/-- Rest of an object after destructuring one property away:
`const { key, ...rest } = obj`. -/
def JObj.rest (obj : JObj) (key : String) : JObj :=
  obj.filter (fun kv => !decide (kv.1 = key))

/-- String conversion that `localStorage.setItem` applies to its value. -/
def storageString (v : Option JVal) : String :=
  match v with
  | some (JVal.str s) => s
  | some (JVal.num n) => toString n
  | some (JVal.bool b) => if b then "true" else "false"
  | some JVal.null => "null"
  | none => "undefined"

/-- The optional chain `error.response?.data?.message`. -/
def serverMessage (error : JsError) : Option String :=
  (error.response.bind (fun r => r.data)).bind (fun d => d.message)

/-- Truthiness of a string that may be missing. -/
def truthy (s : Option String) : Bool :=
  match s with
  | some v => !decide (v = "")
  | none => false

namespace AuthContext

/-- Body of a login request. -/
structure Credentials where
  username : String
  password : String
  deriving DecidableEq, Repr

/-- State cells of `AuthProvider`. -/
structure State where
  user : Option JObj
  loading : Bool
  isAuthenticated : Bool
  console : List ConsoleEntry
  deriving DecidableEq, Repr

/-- Value returned by `login` and `register`: `\x7b success: true, data \x7d`
or `\x7b success: false, error \x7d`. -/
inductive Result where
  | success (data : JObj)
  | failure (error : String)
  deriving DecidableEq, Repr

/-- Run of `checkAuth` (lines 15-33); `getMe` is the raw outcome of
`authAPI.getMe()`, consulted only when the request is sent. -/
def checkAuth (env : Env) (st : State) (getMe : Except JsError (ApiResponse JObj)) :
    Env × State :=
  let token := getItem env.storage "token"
  let storedUser := getItem env.storage "user"
  if truthy token && truthy storedUser then
    match Api.request env getMe with
    | (env1, .ok response) =>
      (env1, { st with user := response.data, isAuthenticated := true, loading := false })
    | (env1, .error e) =>
      ({ env1 with storage := removeItem (removeItem env1.storage "token") "user" },
       { st with
         console := st.console ++ [⟨"Auth check failed:", e⟩]
         user := none
         isAuthenticated := false
         loading := false })
  else
    (env, { st with loading := false })

/-- Run of `login` (lines 35-53). `authLogin` is the raw outcome of the
`POST /auth/login` request for each credentials; `stringify` is
`JSON.stringify`. Destructuring a missing `response.data.data` throws a
`TypeError` inside the `try`, which the `catch` handles like any error. -/
def login (stringify : JObj → String) (env : Env) (st : State)
    (authLogin : Credentials → Except JsError (ApiResponse JObj))
    (credentials : Credentials) : Env × State × Result :=
  match Api.request env (authLogin credentials) with
  | (env1, .ok response) =>
    match response.data with
    | some d =>
      let token := d.get "token"
      let userData := d.rest "token"
      let storage1 := setItem env1.storage "token" (storageString token)
      let storage2 := setItem storage1 "user" (stringify userData)
      ({ env1 with storage := storage2 },
       { st with user := some userData, isAuthenticated := true },
       Result.success userData)
    | none =>
      (env1, st,
       Result.failure (orString (serverMessage ⟨none⟩) "Login failed. Please try again."))
  | (env1, .error error) =>
    (env1, st,
     Result.failure (orString (serverMessage error) "Login failed. Please try again."))

/-- Run of `register` (lines 55-73), shaped like `login`. -/
def register (stringify : JObj → String) (env : Env) (st : State)
    (authRegister : JObj → Except JsError (ApiResponse JObj))
    (userData : JObj) : Env × State × Result :=
  match Api.request env (authRegister userData) with
  | (env1, .ok response) =>
    match response.data with
    | some d =>
      let token := d.get "token"
      let user := d.rest "token"
      let storage1 := setItem env1.storage "token" (storageString token)
      let storage2 := setItem storage1 "user" (stringify user)
      ({ env1 with storage := storage2 },
       { st with user := some user, isAuthenticated := true },
       Result.success user)
    | none =>
      (env1, st,
       Result.failure
         (orString (serverMessage ⟨none⟩) "Registration failed. Please try again."))
  | (env1, .error error) =>
    (env1, st,
     Result.failure
       (orString (serverMessage error) "Registration failed. Please try again."))

/-- Run of `logout` (lines 75-86); `authLogout` is the raw outcome of the
`POST /auth/logout` request. The `finally` block runs on both paths. -/
def logout (env : Env) (st : State) (authLogout : Except JsError (ApiResponse JObj)) :
    Env × State :=
  match Api.request env authLogout with
  | (env1, .ok _) =>
    ({ env1 with storage := removeItem (removeItem env1.storage "token") "user" },
     { st with user := none, isAuthenticated := false })
  | (env1, .error e) =>
    ({ env1 with storage := removeItem (removeItem env1.storage "token") "user" },
     { st with
       console := st.console ++ [⟨"Logout error:", e⟩]
       user := none
       isAuthenticated := false })

end AuthContext

/-! ## Request interceptor (`src/services/api.js`, lines 15-26) -/

namespace Api

/-- An axios request config, as far as the client fills it. -/
structure Config where
  url : String
  method : String
  headers : List (String × String)
  params : List (String × String)
  data : Option String
  withCredentials : Bool
  deriving DecidableEq, Repr

/-- Property assignment `obj[key] = value` on an object held as a list of
entries: an existing entry is overwritten in place, a new one is added. -/
def setProp : List (String × String) → String → String → List (String × String)
  | [], key, value => [(key, value)]
  | (k, v) :: rest, key, value =>
    if k = key then (key, value) :: rest else (k, v) :: setProp rest key value

/-- Fulfilment handler of the request interceptor (lines 16-22). The test
`if (token)` fails for a missing token and for the empty string. -/
def requestFulfilled (env : Env) (config : Config) : Config :=
  match getItem env.storage "token" with
  | some token =>
    if truthy (some token) then
      { config with headers := setProp config.headers "Authorization" ("Bearer " ++ token) }
    else config
  | none => config

end Api

namespace Payments

/-- Line 132: `payments.reduce((sum, p) => sum + (p.amountPaid || 0), 0)`. -/
def totalRevenue (st : State) : Nat :=
  st.payments.foldl (fun sum p => jsAdd sum (orZero p.amountPaid)) 0

end Payments

/-! ## JavaScript strings and regular expressions -/

/-- JavaScript `s.length`: the number of UTF-16 code units, two for a
character outside the basic multilingual plane. -/
def jsLength (s : String) : Nat :=
  s.toList.foldl (fun n c => n + (if c.toNat < 65536 then 1 else 2)) 0

/-- The class `\s` of JavaScript regular expressions. -/
def isJsSpace (c : Char) : Bool :=
  let n := c.toNat
  n = 9 || n = 10 || n = 11 || n = 12 || n = 13 || n = 32 || n = 160 || n = 5760
    || (8192 ≤ n && n ≤ 8202) || n = 8232 || n = 8233 || n = 8239 || n = 8287
    || n = 12288 || n = 65279

/-- Regular expressions over characters, with character classes. -/
inductive Regex where
  | nothing
  | eps
  | cls (p : Char → Bool)
  | seq (r s : Regex)
  | alt (r s : Regex)
  | star (r : Regex)

namespace Regex

/-- The quantifier `+`. -/
def plus (r : Regex) : Regex :=
  seq r (star r)

/-- A literal character. -/
def chr (c : Char) : Regex :=
  cls (fun d => decide (d = c))

/-- Whether the expression matches the empty string. -/
def nullable : Regex → Bool
  | nothing => false
  | eps => true
  | cls _ => false
  | seq r s => nullable r && nullable s
  | alt r s => nullable r || nullable s
  | star _ => true

/-- Derivative of the expression by one character. -/
def deriv : Regex → Char → Regex
  | nothing, _ => nothing
  | eps, _ => nothing
  | cls p, c => if p c then eps else nothing
  | seq r s, c =>
    if nullable r then alt (seq (deriv r c) s) (deriv s c) else seq (deriv r c) s
  | alt r s, c => alt (deriv r c) (deriv s c)
  | star r, c => seq (deriv r c) (star r)

/-- Whether the expression matches the whole input. -/
def fullMatch (r : Regex) (input : List Char) : Bool :=
  nullable (input.foldl deriv r)

/-- The method `test` of an expression anchored with `^` and `$`. -/
def test (r : Regex) (s : String) : Bool :=
  fullMatch r s.toList

end Regex

/-! ## Registration page (`src/pages/Register.jsx`) -/

namespace Register

/-- The `formData` cell of the registration form. -/
structure FormData where
  username : String
  email : String
  password : String
  confirmPassword : String
  deriving DecidableEq, Repr

/-- State cells of the `Register` component, with the log of `navigate`
calls. -/
structure State where
  formData : FormData
  loading : Bool
  error : String
  toasts : List Toast
  navigations : List String
  deriving DecidableEq, Repr

/-- The class `[^\s@]`. -/
def notSpaceNorAt (c : Char) : Bool :=
  !(isJsSpace c || decide (c = '@'))

/-- Line 37: the body of `/^[^\s@]+@[^\s@]+\.[^\s@]+$/`. -/
def emailRegex : Regex :=
  Regex.seq (Regex.plus (Regex.cls notSpaceNorAt))
    (Regex.seq (Regex.chr '@')
      (Regex.seq (Regex.plus (Regex.cls notSpaceNorAt))
        (Regex.seq (Regex.chr '.') (Regex.plus (Regex.cls notSpaceNorAt)))))

/-- Run of `validateForm` (lines 26-54): the state after the `setError`
call, if any, and the returned flag. -/
def validateForm (st : State) : State × Bool :=
  if st.formData.username = "" ∨ st.formData.email = "" ∨ st.formData.password = ""
      ∨ st.formData.confirmPassword = "" then
    ({ st with error := "Please fill in all fields" }, false)
  else if jsLength st.formData.username < 3 then
    ({ st with error := "Username must be at least 3 characters" }, false)
  else if !(emailRegex.test st.formData.email) then
    ({ st with error := "Please enter a valid email address" }, false)
  else if jsLength st.formData.password < 6 then
    ({ st with error := "Password must be at least 6 characters" }, false)
  else if st.formData.password ≠ st.formData.confirmPassword then
    ({ st with error := "Passwords do not match" }, false)
  else
    (st, true)

/-- The object left by `const \x7b confirmPassword, ...userData \x7d = formData`. -/
def userData (form : FormData) : JObj :=
  [("username", JVal.str form.username), ("email", JVal.str form.email),
    ("password", JVal.str form.password)]

/-- Run of `handleSubmit` (lines 56-76). `register` is the function of the
session holder, which sends its argument to the server; the second component
lists the arguments `register` was called with. -/
def handleSubmit (st : State) (register : JObj → AuthContext.Result) :
    State × List JObj :=
  match validateForm st with
  | (st1, false) => (st1, [])
  | (st1, true) =>
    let st2 := { st1 with loading := true, error := "" }
    match register (userData st.formData) with
    | AuthContext.Result.success _ =>
      ({ st2 with
         toasts := st2.toasts ++
           [Toast.success "Account created successfully! Welcome to SmartPark."]
         navigations := st2.navigations ++ ["/dashboard"]
         loading := false },
       [userData st.formData])
    | AuthContext.Result.failure error =>
      ({ st2 with
         error := error
         toasts := st2.toasts ++ [Toast.error error]
         loading := false },
       [userData st.formData])

end Register

/-! ## Bill page (`src/pages/Bill.jsx`) -/

namespace Bill

/-- The `car` of a bill. -/
structure BillCar where
  plateNumber : Option String
  carType : Option String
  driverName : Option String
  phoneNumber : Option String
  carSize : Option String
  deriving DecidableEq, Repr

/-- The `package` of a bill. -/
structure BillPackage where
  name : Option String
  description : Option String
  price : Option Nat
  deriving DecidableEq, Repr

/-- The `service` of a bill. -/
structure BillService where
  recordNumber : Option String
  serviceDate : Option String
  deriving DecidableEq, Repr

/-- The `payment` of a bill, with every property the page reads from it. -/
structure BillPayment where
  status : Option String
  paymentNumber : Option String
  amountPaid : Option Nat
  paymentMethod : Option String
  paymentDate : Option String
  amountDue : Option Nat
  deriving DecidableEq, Repr

/-- The bill read-model returned by `paymentAPI.getBill`. -/
structure BillData where
  car : Option BillCar
  package : Option BillPackage
  service : Option BillService
  payment : Option BillPayment
  companyLocation : Option String
  billDate : Option String
  deriving DecidableEq, Repr

/-- State cells of the `Bill` component. -/
structure State where
  bill : Option BillData
  loading : Bool
  toasts : List Toast
  console : List ConsoleEntry
  deriving DecidableEq, Repr

/-- Run of `fetchBill` (lines 16-28); `getBill` is the settled outcome of
`paymentAPI.getBill` for each service id. -/
def fetchBill (st : State) (getBill : String → Except JsError (ApiResponse BillData))
    (servicePackageId : String) : State :=
  let st1 := { st with loading := true }
  match getBill servicePackageId with
  | .ok response => { st1 with bill := response.data, loading := false }
  | .error e =>
    { st1 with
      console := st1.console ++ [⟨"Fetch bill error:", e⟩]
      toasts := st1.toasts ++ [Toast.error "Failed to load bill"]
      loading := false }

/-- Line 67: `bill.payment?.status === 'Paid'`. -/
def isPaid (bill : BillData) : Bool :=
  decide (bill.payment.bind (fun p => p.status) = some "Paid")

/-- JavaScript `s.replace(old, new)` with one-character strings: only the
first occurrence is replaced. -/
def replaceFirst (old new : Char) : List Char → List Char
  | [] => []
  | c :: rest => if c = old then new :: rest else c :: replaceFirst old new rest

/-- The payment information block (lines 172-217). Amounts and dates are the
values handed to `formatCurrency` and `formatDate`. -/
inductive PaymentView where
  | paid (paymentNumber : Option String) (amountPaid : Option Nat)
      (paymentMethod : Option String) (paymentDate : Option String)
  | pending (amountDue : Option Nat)
  deriving DecidableEq, Repr

/-- What the component renders. -/
inductive View where
  | spinner
  | notFound
  | invoice (bill : BillData) (totalAmount : Option Nat) (payment : PaymentView)
  deriving DecidableEq, Repr

/-- The branch of lines 172-217 taken for a bill. -/
def paymentInformation (bill : BillData) : PaymentView :=
  if isPaid bill then
    PaymentView.paid
      (bill.payment.bind (fun p => p.paymentNumber))
      (bill.payment.bind (fun p => p.amountPaid))
      ((bill.payment.bind (fun p => p.paymentMethod)).map
        (fun m => String.mk (replaceFirst '_' ' ' m.toList)))
      (bill.payment.bind (fun p => p.paymentDate))
  else
    PaymentView.pending (bill.payment.bind (fun p => p.amountDue))

/-- The render of the component (lines 51-234): spinner while loading, the
not-found block when there is no bill, the invoice otherwise. -/
def render (st : State) : View :=
  if st.loading then View.spinner
  else
    match st.bill with
    | none => View.notFound
    | some bill =>
      View.invoice bill (bill.package.bind (fun k => k.price)) (paymentInformation bill)

end Bill

/-! ## Responses with a null body -/

/-- A fulfilled axios response as received: `data` is `response.data`, the
parsed reply body, `none` when the reply body is `null`. -/
structure AxiosResponse (α : Type) where
  data : Option (ApiResponse α)
  deriving DecidableEq, Repr

/-- The `TypeError` thrown by reading a property of `null`. -/
def typeError : JsError :=
  ⟨none⟩

/-! ## Payments page: full load and payment form -/

namespace Payments

/-- The `catch` and `finally` blocks of `fetchData` (lines 43-48). -/
def fetchDataCatch (st : State) (e : JsError) : State :=
  { st with
    console := st.console ++ [⟨"Fetch data error:", e⟩]
    toasts := st.toasts ++ [Toast.error "Failed to load data"]
    loading := false }

/-- Run of `fetchData` (lines 28-49) on responses whose body may be `null`.
The statements of the `try` block run in order, each `set` call taking effect
when reached; reading `.data` of a null body throws a `TypeError` at that
point, which the `catch` block handles. On well-formed bodies this is
`fetchData`. -/
def fetchDataAxios (st : State)
    (paymentsRes : Except JsError (AxiosResponse (List Payment)))
    (servicesRes : Except JsError (AxiosResponse (List ServiceRecord))) : State :=
  let st1 := { st with loading := true }
  match paymentsRes, servicesRes with
  | .ok pr, .ok sr =>
    match pr.data with
    | none => fetchDataCatch st1 typeError
    | some paymentsBody =>
      let st2 := { st1 with payments := orEmpty paymentsBody.data }
      match sr.data with
      | none => fetchDataCatch st2 typeError
      | some servicesBody =>
        let services := orEmpty servicesBody.data
        let ids := paidServiceIds (orEmpty paymentsBody.data)
        { st2 with unpaidServices := unpaid services ids, loading := false }
  | .error e, _ => fetchDataCatch st1 e
  | .ok _, .error e => fetchDataCatch st1 e

/-- Run of `resetForm` (lines 69-77); `today` is
`new Date().toISOString().split('T')[0]`. -/
def resetForm (today : String) (st : State) : State :=
  { st with
    formData := ⟨"", "", "cash", today⟩
    selectedService := none }

/-- Run of `openModal` (lines 79-82). -/
def openModal (today : String) (st : State) : State :=
  { resetForm today st with isModalOpen := true }

/-- Run of `closeModal` (lines 84-87). -/
def closeModal (today : String) (st : State) : State :=
  resetForm today { st with isModalOpen := false }

/-- Body of the payment-creation request (lines 94-97); `amountPaid` is the
result of `parseFloat`, `none` for `NaN`. -/
structure PaymentData where
  servicePackageId : String
  amountPaid : Option Nat
  paymentMethod : String
  paymentDate : String
  deriving DecidableEq, Repr

/-- A request issued by the page. -/
inductive Request where
  | create (data : PaymentData)
  | getPayments
  | getServicePackages
  deriving DecidableEq, Repr

/-- Run of `handleSubmit` (lines 89-109) with the requests it issues, in
order. `createRes` is the settled outcome of `paymentAPI.create`;
`paymentsRes` and `servicesRes` are the outcomes of the refetch, which is
started only after a successful creation and settles after the handler has
finished. -/
def handleSubmit (parseFloat : String → Option Nat) (today : String) (st : State)
    (createRes : Except JsError (AxiosResponse Payment))
    (paymentsRes : Except JsError (AxiosResponse (List Payment)))
    (servicesRes : Except JsError (AxiosResponse (List ServiceRecord))) :
    State × List Request :=
  let st1 := { st with formLoading := true }
  let data : PaymentData :=
    { servicePackageId := st.formData.servicePackageId
      amountPaid := parseFloat st.formData.amountPaid
      paymentMethod := st.formData.paymentMethod
      paymentDate := st.formData.paymentDate }
  match createRes with
  | .ok _ =>
    let st2 := { st1 with
      toasts := st1.toasts ++ [Toast.success "Payment recorded successfully"] }
    let st3 := closeModal today st2
    let st4 := { st3 with formLoading := false }
    (fetchDataAxios st4 paymentsRes servicesRes,
      [Request.create data, Request.getPayments, Request.getServicePackages])
  | .error e =>
    ({ st1 with
       console := st1.console ++ [⟨"Submit error:", e⟩]
       toasts := st1.toasts ++
         [Toast.error (orString (serverMessage e) "Failed to record payment")]
       formLoading := false },
      [Request.create data])

end Payments

/-! ## Service records page (`src/pages/ServicePackages.jsx`) -/

namespace ServicePackages

/-- The `formData` cell of the service form. -/
structure FormData where
  carId : String
  packageId : String
  serviceDate : String
  status : String
  deriving DecidableEq, Repr

/-- State cells of the `ServicePackages` component. -/
structure State where
  servicePackages : List ServiceRecord
  cars : List Car
  packages : List Package
  loading : Bool
  searchTerm : String
  isModalOpen : Bool
  editingService : Option ServiceRecord
  formData : FormData
  formLoading : Bool
  toasts : List Toast
  console : List ConsoleEntry
  deriving DecidableEq, Repr

/-- The `catch` and `finally` blocks of `fetchData` (lines 40-45). -/
def fetchDataCatch (st : State) (e : JsError) : State :=
  { st with
    console := st.console ++ [⟨"Fetch data error:", e⟩]
    toasts := st.toasts ++ [Toast.error "Failed to load data"]
    loading := false }

/-- Run of `fetchData` (lines 29-46) once `Promise.all` has settled, on
responses whose body may be `null`; when several requests reject, the error
of the first in the list is the one logged here. -/
def fetchData (st : State)
    (servicesRes : Except JsError (AxiosResponse (List ServiceRecord)))
    (carsRes : Except JsError (AxiosResponse (List Car)))
    (packagesRes : Except JsError (AxiosResponse (List Package))) : State :=
  let st1 := { st with loading := true }
  match servicesRes, carsRes, packagesRes with
  | .ok sr, .ok cr, .ok pr =>
    match sr.data with
    | none => fetchDataCatch st1 typeError
    | some servicesBody =>
      let st2 := { st1 with servicePackages := orEmpty servicesBody.data }
      match cr.data with
      | none => fetchDataCatch st2 typeError
      | some carsBody =>
        let st3 := { st2 with cars := orEmpty carsBody.data }
        match pr.data with
        | none => fetchDataCatch st3 typeError
        | some packagesBody =>
          { st3 with packages := orEmpty packagesBody.data, loading := false }
  | .error e, _, _ => fetchDataCatch st1 e
  | .ok _, .error e, _ => fetchDataCatch st1 e
  | .ok _, .ok _, .error e => fetchDataCatch st1 e

/-- Run of `handleChange` (lines 48-51) for the form control `name`. -/
def handleChange (st : State) (name value : String) : State :=
  if name = "carId" then { st with formData := { st.formData with carId := value } }
  else if name = "packageId" then
    { st with formData := { st.formData with packageId := value } }
  else if name = "serviceDate" then
    { st with formData := { st.formData with serviceDate := value } }
  else if name = "status" then { st with formData := { st.formData with status := value } }
  else st

/-- Run of `resetForm` (lines 53-61); `today` is
`new Date().toISOString().split('T')[0]`. -/
def resetForm (today : String) (st : State) : State :=
  { st with
    formData := ⟨"", "", today, "pending"⟩
    editingService := none }

/-- Run of `openModal` (lines 63-76); `isoDay d` is
`new Date(d).toISOString().split('T')[0]`, and is `none` when `new Date(d)`
is an invalid date: `toISOString` then throws a `RangeError`, after
`setEditingService` at line 65 and before `setFormData` at line 66 and
`setIsModalOpen` at line 75, which are not reached. -/
def openModal (isoDay : String → Option String) (today : String) (st : State)
    (service : Option ServiceRecord) : State :=
  match service with
  | some s =>
    let st1 := { st with editingService := some s }
    match isoDay s.serviceDate with
    | some day =>
      { st1 with
        formData :=
          { carId := orString (s.car.map (fun c => c._id)) ""
            packageId := orString (s.package.map (fun k => k._id)) ""
            serviceDate := day
            status := s.status }
        isModalOpen := true }
    | none => st1
  | none => { resetForm today st with isModalOpen := true }

/-- Run of `closeModal` (lines 78-81). -/
def closeModal (today : String) (st : State) : State :=
  resetForm today { st with isModalOpen := false }

/-- Whether the form control `name` is rendered in the modal (lines 278-341):
the status select is rendered only while editing. -/
def controlRendered (st : State) (name : String) : Bool :=
  if name = "status" then st.editingService.isSome else true

/-- A change made by the user in the modal: a control that is not rendered
receives no change. -/
def userEdit (st : State) (edit : String × String) : State :=
  if controlRendered st edit.1 then handleChange st edit.1 edit.2 else st

/-- A request issued by the page. -/
inductive Request where
  | create (data : FormData)
  | update (id : String) (data : FormData)
  | getServicePackages
  | getCars
  | getPackages
  deriving DecidableEq, Repr

/-- Run of `handleSubmit` (lines 83-103) with the requests it issues, in
order. `writeRes` is the settled outcome of the update or create request; the
other three are the outcomes of the refetch that follows a success. -/
def handleSubmit (today : String) (st : State)
    (writeRes : Except JsError (AxiosResponse ServiceRecord))
    (servicesRes : Except JsError (AxiosResponse (List ServiceRecord)))
    (carsRes : Except JsError (AxiosResponse (List Car)))
    (packagesRes : Except JsError (AxiosResponse (List Package))) :
    State × List Request :=
  let st1 := { st with formLoading := true }
  let write : Request :=
    match st.editingService with
    | some s => Request.update s._id st.formData
    | none => Request.create st.formData
  match writeRes with
  | .ok _ =>
    let st2 := { st1 with
      toasts := st1.toasts ++
        [Toast.success
          (match st.editingService with
           | some _ => "Service record updated successfully"
           | none => "Service record created successfully")] }
    let st3 := closeModal today st2
    let st4 := { st3 with formLoading := false }
    (fetchData st4 servicesRes carsRes packagesRes,
      [write, Request.getServicePackages, Request.getCars, Request.getPackages])
  | .error e =>
    ({ st1 with
       console := st1.console ++ [⟨"Submit error:", e⟩]
       toasts := st1.toasts ++ [Toast.error (orString (serverMessage e) "Operation failed")]
       formLoading := false },
      [write])

end ServicePackages

/-! ## Cars page (`src/pages/Cars.jsx`) -/

namespace Cars

/-- The `formData` cell of the car form. Opening the form on a car copies the
properties of the car, so a cell is missing when the property is. -/
structure FormData where
  plateNumber : Option String
  carType : Option String
  carSize : Option String
  driverName : Option String
  phoneNumber : Option String
  deriving DecidableEq, Repr

/-- State cells of the `Cars` component. -/
structure State where
  cars : List Car
  loading : Bool
  searchTerm : String
  isModalOpen : Bool
  editingCar : Option Car
  formData : FormData
  formLoading : Bool
  toasts : List Toast
  console : List ConsoleEntry
  deriving DecidableEq, Repr

/-- Run of `fetchCars` (lines 27-38) on a response whose body may be
`null`. -/
def fetchCars (st : State) (res : Except JsError (AxiosResponse (List Car))) : State :=
  let st1 := { st with loading := true }
  match res with
  | .ok response =>
    match response.data with
    | some body => { st1 with cars := orEmpty body.data, loading := false }
    | none =>
      { st1 with
        console := st1.console ++ [⟨"Fetch cars error:", typeError⟩]
        toasts := st1.toasts ++ [Toast.error "Failed to load cars"]
        loading := false }
  | .error e =>
    { st1 with
      console := st1.console ++ [⟨"Fetch cars error:", e⟩]
      toasts := st1.toasts ++ [Toast.error "Failed to load cars"]
      loading := false }

/-- Run of `handleChange` (lines 40-43) for the form control `name`. -/
def handleChange (st : State) (name value : String) : State :=
  if name = "plateNumber" then
    { st with formData := { st.formData with plateNumber := some value } }
  else if name = "carType" then
    { st with formData := { st.formData with carType := some value } }
  else if name = "carSize" then
    { st with formData := { st.formData with carSize := some value } }
  else if name = "driverName" then
    { st with formData := { st.formData with driverName := some value } }
  else if name = "phoneNumber" then
    { st with formData := { st.formData with phoneNumber := some value } }
  else st

/-- Run of `resetForm` (lines 45-54). -/
def resetForm (st : State) : State :=
  { st with
    formData := ⟨some "", some "", some "Medium", some "", some ""⟩
    editingCar := none }

/-- Run of `openModal` (lines 56-70). -/
def openModal (st : State) (car : Option Car) : State :=
  match car with
  | some c =>
    { st with
      editingCar := some c
      formData :=
        { plateNumber := c.plateNumber
          carType := c.carType
          carSize := c.carSize
          driverName := c.driverName
          phoneNumber := c.phoneNumber }
      isModalOpen := true }
  | none => { resetForm st with isModalOpen := true }

/-- Run of `closeModal` (lines 72-75). -/
def closeModal (st : State) : State :=
  resetForm { st with isModalOpen := false }

/-- Whether the form control `name` is disabled (line 235): the plate-number
input carries `disabled=\x7beditingCar\x7d`. -/
def controlDisabled (st : State) (name : String) : Bool :=
  if name = "plateNumber" then st.editingCar.isSome else false

/-- A change made by the user in the modal: a disabled control receives no
change. -/
def userEdit (st : State) (edit : String × String) : State :=
  if controlDisabled st edit.1 then st else handleChange st edit.1 edit.2

/-- A request issued by the page. -/
inductive Request where
  | create (data : FormData)
  | update (id : String) (data : FormData)
  | getCars
  deriving DecidableEq, Repr

/-- Run of `handleSubmit` (lines 77-97) with the requests it issues, in
order. `writeRes` is the settled outcome of the update or create request,
`carsRes` the outcome of the refetch that follows a success. -/
def handleSubmit (st : State)
    (writeRes : Except JsError (AxiosResponse Car))
    (carsRes : Except JsError (AxiosResponse (List Car))) : State × List Request :=
  let st1 := { st with formLoading := true }
  let write : Request :=
    match st.editingCar with
    | some c => Request.update c._id st.formData
    | none => Request.create st.formData
  match writeRes with
  | .ok _ =>
    let st2 := { st1 with
      toasts := st1.toasts ++
        [Toast.success
          (match st.editingCar with
           | some _ => "Car updated successfully"
           | none => "Car registered successfully")] }
    let st3 := closeModal st2
    let st4 := { st3 with formLoading := false }
    (fetchCars st4 carsRes, [write, Request.getCars])
  | .error e =>
    ({ st1 with
       console := st1.console ++ [⟨"Submit error:", e⟩]
       toasts := st1.toasts ++ [Toast.error (orString (serverMessage e) "Operation failed")]
       formLoading := false },
      [write])

end Cars

/-! ## Client-side search (`Cars.jsx` lines 112-116, `Payments.jsx` lines 126-130) -/

/-- JavaScript `s.includes(term)` on strings: `term` occurs in `s` as a
contiguous run of characters. -/
def jsIncludes (s term : String) : Bool :=
  decide (term.toList <:+: s.toList)

/-- JavaScript `xs.filter(callback)` with a callback that may throw: the
elements are visited in order and the first throw ends the filter. -/
def filterThrowing {α : Type} (callback : α → Except JsError Bool) :
    List α → Except JsError (List α)
  | [] => .ok []
  | a :: rest =>
    match callback a with
    | .error e => .error e
    | .ok keep =>
      match filterThrowing callback rest with
      | .error e => .error e
      | .ok kept => .ok (if keep then a :: kept else kept)

namespace Cars

/-- The callback of lines 112-116 on one car. `toLowerCase` is
`String.prototype.toLowerCase`. The three properties are read without `?.`,
so calling `toLowerCase` on a missing one throws a `TypeError`; `||` stops
at the first operand that holds. -/
def matchesSearch (toLowerCase : String → String) (searchTerm : String) (car : Car) :
    Except JsError Bool :=
  match car.plateNumber with
  | none => .error typeError
  | some plate =>
    if jsIncludes (toLowerCase plate) (toLowerCase searchTerm) then .ok true
    else
      match car.driverName with
      | none => .error typeError
      | some driver =>
        if jsIncludes (toLowerCase driver) (toLowerCase searchTerm) then .ok true
        else
          match car.carType with
          | none => .error typeError
          | some kind => .ok (jsIncludes (toLowerCase kind) (toLowerCase searchTerm))

/-- Lines 112-116: `filteredCars`, computed at every render. -/
def filteredCars (toLowerCase : String → String) (st : State) : Except JsError (List Car) :=
  filterThrowing (matchesSearch toLowerCase st.searchTerm) st.cars

end Cars

namespace Payments

/-- One operand of the filter of lines 127-129:
`field?.toLowerCase().includes(searchTerm.toLowerCase())`, which is
`undefined`, hence falsy, when the field is missing. -/
def searchHit (toLowerCase : String → String) (searchTerm : String)
    (field : Option String) : Bool :=
  match field with
  | some v => jsIncludes (toLowerCase v) (toLowerCase searchTerm)
  | none => false

/-- Lines 126-130: `filteredPayments`, computed at every render. -/
def filteredPayments (toLowerCase : String → String) (st : State) : List Payment :=
  st.payments.filter (fun payment =>
    searchHit toLowerCase st.searchTerm payment.paymentNumber
      || searchHit toLowerCase st.searchTerm
          ((payment.servicePackage.bind (fun s => s.car)).bind (fun c => c.plateNumber))
      || searchHit toLowerCase st.searchTerm
          ((payment.servicePackage.bind (fun s => s.package)).bind (fun k => k.packageName)))

/-- The empty state of the payments table (lines 210-217): the text under
`No payments found`, or `none` when the table is shown. -/
def emptyState (toLowerCase : String → String) (st : State) : Option String :=
  if (filteredPayments toLowerCase st).length = 0 then
    some (if truthy (some st.searchTerm) then "Try adjusting your search"
      else "No payment records yet")
  else none

end Payments

/-! ## Dashboard (`src/pages/Dashboard.jsx`) -/

namespace Dashboard

/-- Body of a list reply: `response.data` with its `data` and `count`. -/
structure ListReply (α : Type) where
  data : Option (List α)
  count : Option Nat
  deriving DecidableEq, Repr

/-- The `stats` cell. `setStats` at line 44 stores an object without
`todayRevenue`. -/
structure Stats where
  totalCars : Nat
  totalPackages : Nat
  totalServices : Nat
  totalPayments : Nat
  todayRevenue : Option Nat
  totalRevenue : Nat
  deriving DecidableEq, Repr

/-- State cells of the `Dashboard` component. -/
structure State where
  stats : Stats
  recentPayments : List Payment
  loading : Bool
  toasts : List Toast
  console : List ConsoleEntry
  deriving DecidableEq, Repr

/-- The `catch` and `finally` blocks of `fetchDashboardData` (lines 56-61). -/
def fetchCatch (st : State) (e : JsError) : State :=
  { st with
    console := st.console ++ [⟨"Dashboard fetch error:", e⟩]
    toasts := st.toasts ++ [Toast.error "Failed to load dashboard data"]
    loading := false }

/-- Run of `fetchDashboardData` (lines 32-62) once `Promise.all` has settled;
a reply body is `none` when it is `null`, and reading a property of it then
throws while the argument of `setStats` is being built. When several requests
reject, the error of the first in the list is the one logged here. -/
def fetchDashboardData (st : State)
    (carsRes : Except JsError (Option (ListReply Car)))
    (packagesRes : Except JsError (Option (ListReply Package)))
    (servicesRes : Except JsError (Option (ListReply ServiceRecord)))
    (paymentsRes : Except JsError (Option (ListReply Payment)))
    (summaryRes : Except JsError (AxiosResponse Reports.Summary)) : State :=
  let st1 := { st with loading := true }
  match carsRes, packagesRes, servicesRes, paymentsRes, summaryRes with
  | .ok cars, .ok packages, .ok services, .ok paymentsReply, .ok summary =>
    match cars, packages, services, paymentsReply, summary.data with
    | some c, some k, some s, some p, some sm =>
      let st2 := { st1 with
        stats :=
          { totalCars := orZero c.count
            totalPackages := orZero k.count
            totalServices := orZero s.count
            totalPayments := orZero p.count
            todayRevenue := none
            totalRevenue := orZero (sm.data.bind (fun d => d.totalRevenue)) } }
      let payments := orEmpty p.data
      { st2 with recentPayments := payments.take 5, loading := false }
    | _, _, _, _, _ => fetchCatch st1 typeError
  | .error e, _, _, _, _ => fetchCatch st1 e
  | .ok _, .error e, _, _, _ => fetchCatch st1 e
  | .ok _, .ok _, .error e, _, _ => fetchCatch st1 e
  | .ok _, .ok _, .ok _, .error e, _ => fetchCatch st1 e
  | .ok _, .ok _, .ok _, .ok _, .error e => fetchCatch st1 e

end Dashboard

/-! ## Summary report backend -/

namespace Reports

/-- What the backend store holds. -/
structure Store where
  cars : List Car
  packages : List Package
  services : List ServiceRecord
  payments : List Payment
  deriving DecidableEq, Repr

/-- Package name under which a payment is grouped. -/
def packageNameOf (p : Payment) : Option String :=
  (p.servicePackage.bind (fun s => s.package)).bind (fun k => k.packageName)

/-- Modelled from the spec: one step of the grouping of revenue by package
name (sum and count per package), of the backend route behind
`GET /reports/summary`, which is not among the sources: the amount joins the
group of its package name, or opens a new group. -/
def addRevenue : List RevenueItem → Option String → Nat → List RevenueItem
  | [], name, amount => [⟨name, some amount, some 1⟩]
  | g :: rest, name, amount =>
    if g._id = name then
      { g with
        totalRevenue := some (orZero g.totalRevenue + amount)
        count := some (orZero g.count + 1) } :: rest
    else g :: addRevenue rest name amount

/-- Modelled from the spec: the backend route behind `GET /reports/summary`,
which is not among the sources. Section 4.5: total counts of
cars/packages/services/payments, total revenue (sum of all Payment amounts),
and revenue grouped by package name (sum + count per package). -/
def summaryBackend (store : Store) : Summary :=
  { totalPayments := some store.payments.length
    totalServices := some store.services.length
    totalCars := some store.cars.length
    totalRevenue := some ((store.payments.map (fun p => orZero p.amountPaid)).sum)
    revenueByPackage :=
      some (store.payments.foldl
        (fun groups p => addRevenue groups (packageNameOf p) (orZero p.amountPaid)) []) }

/-- The figure of the Total Revenue card (line 130):
`summary?.totalRevenue || 0`. -/
def shownTotalRevenue (st : State) : Nat :=
  orZero (st.summary.bind (fun s => s.totalRevenue))

/-- The figures of the Revenue by Package cards (lines 139-157), one per
entry of `summary.revenueByPackage`; no card is rendered when the list is
missing or empty. -/
def shownPackageRevenues (st : State) : List (Option Nat) :=
  (orEmpty (st.summary.bind (fun s => s.revenueByPackage))).map (fun item => item.totalRevenue)

end Reports

namespace Cars

/-- The search result as the specification words it: the cars, in their
order, one of whose plate number, driver name or car type contains the search
term, both lower-cased. -/
def specFilteredCars (toLowerCase : String → String) (cars : List Car)
    (searchTerm : String) : List Car :=
  cars.filter (fun car =>
    decide ((∃ v ∈ car.plateNumber,
        (toLowerCase searchTerm).toList <:+: (toLowerCase v).toList)
      ∨ (∃ v ∈ car.driverName, (toLowerCase searchTerm).toList <:+: (toLowerCase v).toList)
      ∨ (∃ v ∈ car.carType, (toLowerCase searchTerm).toList <:+: (toLowerCase v).toList)))

end Cars

/-! ## Payment form changes (`Payments.jsx` lines 51-67) -/

namespace Payments

/-- The update `(\x7b ...prev, [name]: value \x7d)` of line 53 on the cells of
the form. -/
def setField (form : FormData) (name value : String) : FormData :=
  if name = "servicePackageId" then { form with servicePackageId := value }
  else if name = "amountPaid" then { form with amountPaid := value }
  else if name = "paymentMethod" then { form with paymentMethod := value }
  else if name = "paymentDate" then { form with paymentDate := value }
  else form

/-- Run of `handleChange` (lines 51-67) for the form control `name`. The
test `if (service?.package?.packagePrice)` fails for a missing price and for
the price 0; `toString` on a whole number gives its decimal digits. -/
def handleChange (st : State) (name value : String) : State :=
  let st1 := { st with formData := setField st.formData name value }
  if name = "servicePackageId" ∧ value ≠ "" then
    match st.unpaidServices.find? (fun s => decide (s._id = value)) with
    | some service =>
      match service.package.bind (fun k => k.packagePrice) with
      | some (n + 1) =>
        { st1 with
          formData :=
            { st1.formData with servicePackageId := value, amountPaid := toString (n + 1) }
          selectedService := some service }
      | _ => st1
    | none => st1
  else st1

/-- An event of the payment form. -/
inductive FormEvent where
  | change (name value : String)
  | openModal (today : String)
  | closeModal (today : String)
  deriving DecidableEq, Repr

/-- The handler run by a form event. -/
def formStep (st : State) : FormEvent → State
  | FormEvent.change name value => handleChange st name value
  | FormEvent.openModal today => openModal today st
  | FormEvent.closeModal today => closeModal today st

end Payments

/-! ## Service form events (`ServicePackages.jsx` lines 48-103) -/

namespace ServicePackages

/-- An event of the service records page that touches the form. -/
inductive Event where
  | openModal (today : String) (service : Option ServiceRecord)
  | closeModal (today : String)
  | edit (name value : String)
  | submit (today : String)
      (writeRes : Except JsError (AxiosResponse ServiceRecord))
      (servicesRes : Except JsError (AxiosResponse (List ServiceRecord)))
      (carsRes : Except JsError (AxiosResponse (List Car)))
      (packagesRes : Except JsError (AxiosResponse (List Package)))

/-- The handler run by an event, with the requests it issues. -/
def step (isoDay : String → Option String) (st : State) : Event → State × List Request
  | Event.openModal today service => (openModal isoDay today st service, [])
  | Event.closeModal today => (closeModal today st, [])
  | Event.edit name value => (userEdit st (name, value), [])
  | Event.submit today writeRes servicesRes carsRes packagesRes =>
    handleSubmit today st writeRes servicesRes carsRes packagesRes

/-- A sequence of events, with all the requests issued, in order. -/
def run (isoDay : String → Option String) : State → List Event → State × List Request
  | st, [] => (st, [])
  | st, e :: rest =>
    ((run isoDay (step isoDay st e).1 rest).1,
      (step isoDay st e).2 ++ (run isoDay (step isoDay st e).1 rest).2)

/-- The component as first rendered (lines 10-23); `today` is
`new Date().toISOString().split('T')[0]`. -/
def init (today : String) : State :=
  { servicePackages := []
    cars := []
    packages := []
    loading := true
    searchTerm := ""
    isModalOpen := false
    editingService := none
    formData := ⟨"", "", today, "pending"⟩
    formLoading := false
    toasts := []
    console := [] }

end ServicePackages

namespace Regex

/-- The strings an expression denotes. -/
inductive Matches : Regex → List Char → Prop where
  | eps : Matches Regex.eps []
  | cls (p : Char → Bool) (c : Char) (h : p c = true) : Matches (Regex.cls p) [c]
  | seq (r s : Regex) (u v : List Char) (hu : Matches r u) (hv : Matches s v) :
      Matches (Regex.seq r s) (u ++ v)
  | altLeft (r s : Regex) (u : List Char) (hu : Matches r u) : Matches (Regex.alt r s) u
  | altRight (r s : Regex) (u : List Char) (hu : Matches s u) : Matches (Regex.alt r s) u
  | starNil (r : Regex) : Matches (Regex.star r) []
  | starCons (r : Regex) (u v : List Char) (hu : Matches r u) (hv : Matches (Regex.star r) v) :
      Matches (Regex.star r) (u ++ v)

end Regex

/-! ### Concrete data used by the witnesses -/

/-- A pending service record for a package of 10000 francs. -/
def demoService : ServiceRecord :=
  { _id := "svc-1"
    recordNumber := some "SR-001"
    car := some ⟨"car-1", some "RAB123A", some "Alice", some "Sedan", some "Medium",
      some "0788123456"⟩
    package := some ⟨"pkg-1", some "Premium Wash", some "Full wash", some 10000⟩
    serviceDate := "2025-01-10T00:00:00.000Z"
    status := "pending" }

/-- A second, completed service record. -/
def demoService2 : ServiceRecord :=
  { _id := "svc-2"
    recordNumber := some "SR-002"
    car := some ⟨"car-2", some "RAC456B", some "Bob", some "SUV", some "SUV",
      some "0788654321"⟩
    package := some ⟨"pkg-2", some "Basic Wash", none, some 5000⟩
    serviceDate := "2025-01-09T00:00:00.000Z"
    status := "completed" }

/-- A cash payment of 10000 francs against `demoService`. -/
def demoPayment : Payment :=
  { _id := "pay-1"
    paymentNumber := some "PAY-001"
    servicePackage := some demoService
    amountPaid := some 10000
    paymentMethod := "cash"
    paymentDate := "2025-01-10" }

/-- The `Payments` page as first rendered. -/
def demoPaymentsState : Payments.State :=
  { payments := []
    unpaidServices := []
    loading := true
    searchTerm := ""
    isModalOpen := false
    formData := ⟨"", "", "cash", "2025-01-10"⟩
    formLoading := false
    selectedService := none
    toasts := []
    console := [] }

/-- A payment that references no service record. -/
def demoOrphanPayment : Payment :=
  { _id := "pay-0"
    paymentNumber := some "PAY-000"
    servicePackage := none
    amountPaid := some 3000
    paymentMethod := "card"
    paymentDate := "2025-01-09" }

/-- The `Reports` page before any report has arrived. -/
def demoReportsState : Reports.State :=
  { dailyReport := []
    summary := none
    selectedDate := "2025-01-10"
    loading := false
    reportLoading := false
    toasts := []
    console := [] }

/-- A server failure with a message. -/
def demoServerError : JsError :=
  ⟨some ⟨500, some ⟨some "Server error"⟩⟩⟩

/-- The rejection of a request with bad credentials. -/
def demoUnauthorized : JsError :=
  ⟨some ⟨401, some ⟨some "Invalid credentials"⟩⟩⟩

/-- A browser that holds a session. -/
def demoEnv : Env :=
  { storage := [("theme", "dark"), ("token", "abc"), ("user", "\x7b\x7d")]
    location := "/dashboard" }

/-- The session holder before anyone has logged in. -/
def demoAuthState : AuthContext.State :=
  { user := none, loading := false, isAuthenticated := false, console := [] }

/-- A serializer standing for `JSON.stringify` in the witnesses: it lists
the property names. -/
def demoStringify (obj : JObj) : String :=
  String.intercalate "," (obj.map (fun kv => kv.1))

/-- A request config for the payments list, with the default headers of the
`api` instance. -/
def demoConfig : Api.Config :=
  { url := "/payments"
    method := "get"
    headers := [("Content-Type", "application/json")]
    params := []
    data := none
    withCredentials := true }

/-- A registration form that passes validation. -/
def demoRegisterState : Register.State :=
  { formData := ⟨"alice", "alice@example.com", "secret1", "secret1"⟩
    loading := false
    error := ""
    toasts := []
    navigations := [] }

/-- A bill for a service of 10000 francs that has no payment. -/
def demoBillUnpaid : Bill.BillData :=
  { car := some ⟨some "RAB123A", some "Sedan", some "Alice", some "0788123456", some "Medium"⟩
    package := some ⟨some "Premium Wash", some "Full wash", some 10000⟩
    service := some ⟨some "SR-001", some "2025-01-10"⟩
    payment := none
    companyLocation := some "Rubavu District"
    billDate := some "2025-01-10" }

/-- The same bill once a mobile-money payment has been recorded. -/
def demoBillPaid : Bill.BillData :=
  { demoBillUnpaid with
    payment := some ⟨some "Paid", some "PAY-001", some 10000, some "mobile_money",
      some "2025-01-10", none⟩ }

/-- The `Bill` page as first rendered. -/
def demoBillState : Bill.State :=
  { bill := none, loading := true, toasts := [], console := [] }

/-- A backend that knows the bill of `svc-1` only. -/
def demoGetBill (servicePackageId : String) : Except JsError (ApiResponse Bill.BillData) :=
  if servicePackageId = "svc-1" then .ok ⟨some demoBillPaid⟩
  else .error ⟨some ⟨404, some ⟨some "Service not found"⟩⟩⟩

/-- The car of `demoService`. -/
def demoCar : Car :=
  ⟨"car-1", some "RAB123A", some "Alice", some "Sedan", some "Medium", some "0788123456"⟩

/-- The car of `demoService2`. -/
def demoCar2 : Car :=
  ⟨"car-2", some "RAC456B", some "Bob", some "SUV", some "SUV", some "0788654321"⟩

/-- The service records page after a load, with no modal open. -/
def demoServicesState : ServicePackages.State :=
  { servicePackages := [demoService, demoService2]
    cars := [demoCar, demoCar2]
    packages :=
      [⟨"pkg-1", some "Premium Wash", some "Full wash", some 10000⟩,
        ⟨"pkg-2", some "Basic Wash", none, some 5000⟩]
    loading := false
    searchTerm := ""
    isModalOpen := false
    editingService := none
    formData := ⟨"", "", "2025-01-12", "pending"⟩
    formLoading := false
    toasts := []
    console := [] }

/-- The cars page after a load, with no modal open. -/
def demoCarsState : Cars.State :=
  { cars := [demoCar, demoCar2]
    loading := false
    searchTerm := ""
    isModalOpen := false
    editingCar := none
    formData := ⟨some "", some "", some "Medium", some "", some ""⟩
    formLoading := false
    toasts := []
    console := [] }

/-- The day part of an ISO timestamp, its first ten characters; a string
with fewer characters stands for an invalid date. -/
def demoIsoDay (d : String) : Option String :=
  if d.toList.length < 10 then none else some (String.mk (d.toList.take 10))

/-- A number parser standing for `parseFloat` in the witnesses: the decimal
value of a string of digits. -/
def demoParseFloat (s : String) : Option Nat :=
  s.toNat?

/-- ASCII lower-casing, standing for `toLowerCase` in the witnesses. -/
def demoToLowerCase (s : String) : String :=
  String.mk (s.toList.map Char.toLower)

/-- Six payments in the order of a payments reply. -/
def demoSixPayments : List Payment :=
  [{ demoPayment with _id := "pay-1" }, { demoPayment with _id := "pay-2" },
    { demoPayment with _id := "pay-3" }, { demoPayment with _id := "pay-4" },
    { demoPayment with _id := "pay-5" }, { demoPayment with _id := "pay-6" }]

/-- The dashboard as first rendered. -/
def demoDashboardState : Dashboard.State :=
  { stats := ⟨0, 0, 0, 0, some 0, 0⟩
    recentPayments := []
    loading := true
    toasts := []
    console := [] }

/-- A store with two payments for `Premium Wash` and one without a service
record. -/
def demoStore : Reports.Store :=
  { cars := [demoCar, demoCar2]
    packages := []
    services := [demoService, demoService2]
    payments := [demoPayment, demoOrphanPayment, { demoPayment with _id := "pay-2" }] }

/-- An unpaid service whose package is free of charge. -/
def demoFreeService : ServiceRecord :=
  { _id := "svc-free"
    recordNumber := some "SR-003"
    car := some demoCar
    package := some ⟨"pkg-0", some "Loyalty Wash", none, some 0⟩
    serviceDate := "2025-01-11T00:00:00.000Z"
    status := "pending" }

/-- The payments page after a load that found three unpaid services. -/
def demoLoadedPayments : Payments.State :=
  { demoPaymentsState with
    unpaidServices := [demoService, demoService2, demoFreeService]
    loading := false }

/-- A daily-report row with the given amount. -/
def demoRow (amount : Nat) : Reports.DailyRow :=
  { plateNumber := some "RAB123A"
    packageName := some "Premium Wash"
    packageDescription := none
    amountPaid := some amount
    paymentDate := some "2025-01-10" }

/-! ## Theorems -/

section Lemmas

/-- Membership form of `includes`. -/
theorem includes_iff {α : Type} [DecidableEq α] (xs : List α) (x : α) :
    includes xs x = true ↔ x ∈ xs := by
  unfold includes
  simp [List.any_eq_true]

/-- Non-membership form of `includes`. -/
theorem includes_eq_false_iff {α : Type} [DecidableEq α] (xs : List α) (x : α) :
    includes xs x = false ↔ x ∉ xs := by
  rw [← Bool.not_eq_true, includes_iff]

/-- An id is among the collected ids exactly when some payment references a
service record with that id. -/
theorem mem_paidServiceIds (P : List Payment) (i : String) :
    some i ∈ Payments.paidServiceIds P ↔
      ∃ p ∈ P, ∃ sp, p.servicePackage = some sp ∧ sp._id = i := by
  unfold Payments.paidServiceIds
  simp only [List.mem_map, Option.map_eq_some']

/-- The unpaid set that a successful `fetchData` stores. -/
theorem fetchData_ok_unpaidServices (st : Payments.State)
    (pr : ApiResponse (List Payment)) (sr : ApiResponse (List ServiceRecord)) :
    (Payments.fetchData st (.ok pr) (.ok sr)).unpaidServices =
      Payments.unpaid (orEmpty sr.data) (Payments.paidServiceIds (orEmpty pr.data)) := by
  rfl

/-- Membership in the filter of line 41. -/
theorem mem_unpaid (S : List ServiceRecord) (ids : List (Option String))
    (s : ServiceRecord) :
    s ∈ Payments.unpaid S ids ↔ s ∈ S ∧ some s._id ∉ ids ∧ s.status ≠ "paid" := by
  unfold Payments.unpaid
  simp only [List.mem_filter, Bool.and_eq_true, Bool.not_eq_true', bne_iff_ne, ne_eq]
  rw [← Bool.not_eq_true, includes_iff]

/-- A left fold that adds a summand per element is the sum of the
summands. -/
theorem foldl_add_eq_sum {α : Type} (g : α → Nat) (l : List α) (acc : Nat) :
    l.foldl (fun sum item => sum + g item) acc = acc + (l.map g).sum := by
  induction l generalizing acc with
  | nil => simp
  | cons a t ih => simp [ih, Nat.add_assoc]

/-- A number with a significand below `2 ^ 53` and `s` trailing zero digits has
at most `s` excess digits. -/
theorem excessBits_le (fuel n s k : Nat) (hn : n = k * 2 ^ s) (hk : k < 2 ^ 53) :
    excessBits fuel n ≤ s := by
  induction fuel generalizing n s with
  | zero => exact Nat.zero_le s
  | succ fuel ih =>
    unfold excessBits
    by_cases h : n < 2 ^ 53
    · rw [if_pos h]
      exact Nat.zero_le s
    · rw [if_neg h]
      cases s with
      | zero =>
        rw [hn] at h
        simp at h
        omega
      | succ s2 =>
        have h2 : n / 2 = k * 2 ^ s2 := by
          rw [hn, Nat.pow_succ, ← Nat.mul_assoc]
          exact Nat.mul_div_cancel _ (by decide)
        have := ih (n / 2) s2 h2
        omega

/-- With enough fuel, dropping the excess digits leaves fewer than 53
digits. -/
theorem excessBits_spec (fuel n : Nat) (hfuel : n ≤ fuel) :
    n / 2 ^ excessBits fuel n < 2 ^ 53 := by
  induction fuel generalizing n with
  | zero =>
    have h0 : n = 0 := by omega
    subst h0
    simp [excessBits]
  | succ fuel ih =>
    unfold excessBits
    by_cases h : n < 2 ^ 53
    · rw [if_pos h]
      simpa using h
    · rw [if_neg h]
      have hpos : 2 ^ 53 ≤ n := by omega
      have hhalf : n / 2 ≤ fuel := by
        have : 0 < n := lt_of_lt_of_le (by positivity) hpos
        omega
      have := ih (n / 2) hhalf
      rw [Nat.pow_succ, Nat.mul_comm, ← Nat.div_div_eq_div_mul]
      exact this

/-- A number with a significand below `2 ^ 53` is its own rounding. -/
theorem round53_of_dvd (s k : Nat) (hk : k < 2 ^ 53) : round53 (k * 2 ^ s) = k * 2 ^ s := by
  have he : excessBits (k * 2 ^ s) (k * 2 ^ s) ≤ s := excessBits_le _ _ s k rfl hk
  have hdvd : 2 ^ excessBits (k * 2 ^ s) (k * 2 ^ s) ∣ k * 2 ^ s :=
    Dvd.dvd.mul_left (Nat.pow_dvd_pow 2 he) k
  have hr : k * 2 ^ s % 2 ^ excessBits (k * 2 ^ s) (k * 2 ^ s) = 0 :=
    Nat.mod_eq_zero_of_dvd hdvd
  have hpos : 0 < 2 ^ excessBits (k * 2 ^ s) (k * 2 ^ s) := by positivity
  unfold round53
  simp only [hr, Nat.mul_zero, hpos, if_true]
  exact Nat.div_mul_cancel hdvd


/-- The count of excess digits does not depend on the fuel, once there is
enough. -/
theorem excessBits_fuel (fuel1 fuel2 n : Nat) (h1 : n ≤ fuel1) (h2 : n ≤ fuel2) :
    excessBits fuel1 n = excessBits fuel2 n := by
  induction fuel1 generalizing fuel2 n with
  | zero =>
    have h0 : n = 0 := by omega
    subst h0
    cases fuel2 <;> simp [excessBits]
  | succ f1 ih =>
    cases fuel2 with
    | zero =>
      have h0 : n = 0 := by omega
      subst h0
      simp [excessBits]
    | succ f2 =>
      unfold excessBits
      by_cases h : n < 2 ^ 53
      · rw [if_pos h, if_pos h]
      · rw [if_neg h, if_neg h]
        have hpos : 0 < n := by
          have : 2 ^ 53 ≤ n := by omega
          exact lt_of_lt_of_le (by positivity) this
        rw [ih f2 (n / 2) (by omega) (by omega)]

/-- Doubling a number of more than 53 digits adds one excess digit. -/
theorem excessBits_double (n : Nat) (h : 2 ^ 53 ≤ n) :
    excessBits (2 * n) (2 * n) = excessBits n n + 1 := by
  have hpos : 0 < n := lt_of_lt_of_le (by positivity) h
  obtain ⟨f, hf⟩ : ∃ f, 2 * n = f + 1 := ⟨2 * n - 1, by omega⟩
  rw [hf]
  have hbig : ¬ f + 1 < 2 ^ 53 := by omega
  have hstep : excessBits (f + 1) (f + 1) = excessBits f ((f + 1) / 2) + 1 := by
    simp only [excessBits, if_neg hbig]
  have hhalf : (f + 1) / 2 = n := by omega
  rw [hstep, hhalf, excessBits_fuel f n n (by omega) (le_refl n)]

/-- Rounding commutes with doubling. -/
theorem round53_double (n : Nat) : round53 (2 * n) = 2 * round53 n := by
  by_cases h : n < 2 ^ 53
  · have h1 := round53_of_dvd 0 n h
    have h2 := round53_of_dvd 1 n h
    simp only [pow_zero, mul_one, pow_one] at h1 h2
    rw [h1, Nat.mul_comm, h2]
  · have hbig : 2 ^ 53 ≤ n := by omega
    have he := excessBits_double n hbig
    unfold round53
    simp only [he]
    have hq : 2 * n / 2 ^ (excessBits n n + 1) = n / 2 ^ excessBits n n := by
      rw [Nat.pow_succ, Nat.mul_comm (2 ^ excessBits n n) 2,
        Nat.mul_div_mul_left _ _ (by decide : 0 < 2)]
    have hr : 2 * n % 2 ^ (excessBits n n + 1) = 2 * (n % 2 ^ excessBits n n) := by
      rw [Nat.pow_succ, Nat.mul_comm (2 ^ excessBits n n) 2, Nat.mul_mod_mul_left]
    rw [hq, hr]
    have hp : 2 ^ (excessBits n n + 1) = 2 * 2 ^ excessBits n n := by
      rw [Nat.pow_succ, Nat.mul_comm]
    rw [hp]
    by_cases c1 : 2 * (n % 2 ^ excessBits n n) < 2 ^ excessBits n n
    · have c1b : 2 * (2 * (n % 2 ^ excessBits n n)) < 2 * 2 ^ excessBits n n := by omega
      rw [if_pos c1, if_pos c1b]
      ring
    · have c1b : ¬ 2 * (2 * (n % 2 ^ excessBits n n)) < 2 * 2 ^ excessBits n n := by omega
      rw [if_neg c1, if_neg c1b]
      by_cases c2 : 2 ^ excessBits n n < 2 * (n % 2 ^ excessBits n n)
      · have c2b : 2 * 2 ^ excessBits n n < 2 * (2 * (n % 2 ^ excessBits n n)) := by omega
        rw [if_pos c2, if_pos c2b]
        ring
      · have c2b : ¬ 2 * 2 ^ excessBits n n < 2 * (2 * (n % 2 ^ excessBits n n)) := by omega
        rw [if_neg c2, if_neg c2b]
        by_cases c3 : n / 2 ^ excessBits n n % 2 = 0
        · rw [if_pos c3, if_pos c3]
          ring
        · rw [if_neg c3, if_neg c3]
          ring

/-- Rounding does not depend on the unit: it commutes with multiplication by
a power of two. -/
theorem round53_mul_two_pow (n k : Nat) : round53 (n * 2 ^ k) = round53 n * 2 ^ k := by
  induction k with
  | zero => simp
  | succ k ih =>
    have h : n * 2 ^ (k + 1) = 2 * (n * 2 ^ k) := by
      rw [Nat.pow_succ]
      ring
    rw [h, round53_double, ih, Nat.pow_succ]
    ring

/-- A JavaScript sum is exact while the summands are whole multiples of
`2 ^ s` and the exact sum stays below `2 ^ 53 * 2 ^ s`. -/
theorem foldl_jsAdd_exact (s : Nat) (l : List Nat) (acc : Nat)
    (hacc : 2 ^ s ∣ acc) (hl : ∀ a ∈ l, 2 ^ s ∣ a)
    (hbound : acc + l.sum < 2 ^ 53 * 2 ^ s) :
    l.foldl jsAdd acc = acc + l.sum := by
  induction l generalizing acc with
  | nil => simp
  | cons a t ih =>
    have ha := hl a (List.mem_cons_self a t)
    have hdvd : 2 ^ s ∣ acc + a := Nat.dvd_add hacc ha
    obtain ⟨k, hk⟩ := hdvd
    have hsum : acc + (a :: t).sum = acc + a + t.sum := by
      rw [List.sum_cons, Nat.add_assoc]
    rw [hsum] at hbound
    have hklt : k < 2 ^ 53 := by
      have h1 : 2 ^ s * k < 2 ^ 53 * 2 ^ s := by
        rw [← hk]
        omega
      rw [Nat.mul_comm (2 ^ s) k] at h1
      exact Nat.lt_of_mul_lt_mul_right h1
    have hexact : jsAdd acc a = acc + a := by
      unfold jsAdd
      rw [hk, Nat.mul_comm (2 ^ s) k]
      exact round53_of_dvd s k hklt
    rw [List.foldl_cons, hexact, hsum]
    exact ih (acc + a) ⟨k, hk⟩ (fun x hx => hl x (List.mem_cons_of_mem a hx)) hbound

/-- On a present number `n || 0` is the number. -/
theorem orZero_some (n : Nat) : orZero (some n) = n := by
  cases n <;> rfl

/-- The value `a || 0` as a case distinction on the presence of `a`. -/
theorem orZero_eq (a : Option Nat) :
    orZero a = (match a with
      | some v => v
      | none => 0) := by
  cases a with
  | none => rfl
  | some v => exact orZero_some v

/-- A `reduce` that adds a summand per element is the JavaScript sum of the
summands. -/
theorem foldl_jsAdd_map {α : Type} (g : α → Nat) (l : List α) (acc : Nat) :
    l.foldl (fun sum item => jsAdd sum (g item)) acc = (l.map g).foldl jsAdd acc := by
  rw [List.foldl_map]

/-- Reading a key after removing a key: the removed key is gone, every other
key reads as before. -/
theorem getItem_removeItem (storage : List (String × String)) (k key : String) :
    getItem (removeItem storage k) key = if key = k then none else getItem storage key := by
  unfold getItem removeItem
  induction storage with
  | nil => simp
  | cons kv t ih =>
    by_cases h1 : kv.1 = k
    · by_cases h2 : kv.1 = key
      · have h3 : key = k := h2 ▸ h1
        simp only [List.filter_cons, h1, decide_True, Bool.not_true, Bool.false_eq_true,
          if_false, h3, if_true] at ih ⊢
        exact ih
      · have h3 : ¬ kv.1 = key := h2
        simp only [List.filter_cons, h1, decide_True, Bool.not_true, Bool.false_eq_true,
          if_false] at ih ⊢
        rw [ih]
        have h4 : ¬ k = key := h1 ▸ h3
        simp [List.find?_cons, h1, h4]
    · by_cases h2 : kv.1 = key
      · have h3 : ¬ key = k := h2 ▸ h1
        simp [List.filter_cons, h1, List.find?_cons, h2, h3]
      · simp only [List.filter_cons, h1, decide_False, Bool.not_false, if_true,
          List.find?_cons, h2] at ih ⊢
        exact ih

/-- Storage after the session teardown: `token` and `user` are absent and
every other key reads as before. -/
theorem getItem_teardown (storage : List (String × String)) (key : String) :
    getItem (removeItem (removeItem storage "token") "user") key
      = if key = "user" ∨ key = "token" then none else getItem storage key := by
  rw [getItem_removeItem, getItem_removeItem]
  by_cases h1 : key = "user" <;> by_cases h2 : key = "token" <;> simp [h1, h2]

/-- The response interceptor never changes the error it rejects with. -/
theorem request_error_snd {α : Type} (env : Env) (e : JsError) :
    (Api.request env (.error e : Except JsError (ApiResponse α))).2 = .error e := by
  unfold Api.request Api.responseRejected
  by_cases h : e.response.map (fun r => r.status) = some 401 <;> simp [h]

/-- Storage after a rejected request: unchanged, or torn down. -/
theorem request_error_fst {α : Type} (env : Env) (e : JsError) :
    (Api.request env (.error e : Except JsError (ApiResponse α))).1
      = if e.response.map (fun r => r.status) = some 401 then
          { storage := removeItem (removeItem env.storage "token") "user"
            location := "/login" }
        else env := by
  unfold Api.request Api.responseRejected
  by_cases h : e.response.map (fun r => r.status) = some 401 <;> simp [h]

end Lemmas

/-- C1: for every list of service records `S` and every list of payments `P`,
the unpaid set stored by `Payments.fetchData` is exactly the records `s` of
`S`, in the order and multiplicity of `S`, such that no payment of `P`
references a service record with id `s._id` and `s.status` is not `paid`. -/
theorem fetchData_unpaid_exact (st : Payments.State) (S : List ServiceRecord)
    (P : List Payment) :
    (Payments.fetchData st (.ok ⟨some P⟩) (.ok ⟨some S⟩)).unpaidServices
        = Payments.specUnpaid S P
      ∧ ∀ s, s ∈ (Payments.fetchData st (.ok ⟨some P⟩) (.ok ⟨some S⟩)).unpaidServices ↔
          s ∈ S ∧ (∀ p ∈ P, ∀ sp, p.servicePackage = some sp → sp._id ≠ s._id)
            ∧ s.status ≠ "paid" := by
  have key : ∀ s : ServiceRecord, some s._id ∉ Payments.paidServiceIds P ↔
      ∀ p ∈ P, ∀ sp, p.servicePackage = some sp → sp._id ≠ s._id := by
    intro s
    rw [mem_paidServiceIds]
    constructor
    · intro h p hp sp hsp heq
      exact h ⟨p, hp, sp, hsp, heq⟩
    · rintro h ⟨p, hp, sp, hsp, heq⟩
      exact h p hp sp hsp heq
  rw [fetchData_ok_unpaidServices]
  simp only [orEmpty]
  constructor
  · unfold Payments.unpaid Payments.specUnpaid
    apply List.filter_congr
    intro s _
    rw [Bool.eq_iff_iff]
    simp only [Bool.and_eq_true, Bool.not_eq_true', bne_iff_ne, ne_eq, decide_eq_true_eq]
    rw [← Bool.not_eq_true, includes_iff, key s]
  · intro s
    rw [mem_unpaid, key s]

/-- C2: let `s` be in the unpaid set derived from `(S, P)` and let `p` be a
payment whose `servicePackage._id` equals `s._id`. Once `p` is added to `P`
(at any position), the re-derived unpaid set does not contain `s`, offers no
record with the id of `s`, and is exactly the earlier unpaid set without the
records whose `_id` equals `s._id`. -/
theorem unpaid_after_payment (st st2 : Payments.State) (S : List ServiceRecord)
    (P₁ P₂ : List Payment) (p : Payment) (s : ServiceRecord)
    (_hs : s ∈ (Payments.fetchData st (.ok ⟨some (P₁ ++ P₂)⟩) (.ok ⟨some S⟩)).unpaidServices)
    (hp : p.servicePackage.map (fun sp => sp._id) = some s._id) :
    s ∉ (Payments.fetchData st2 (.ok ⟨some (P₁ ++ p :: P₂)⟩) (.ok ⟨some S⟩)).unpaidServices
      ∧ (∀ t ∈ (Payments.fetchData st2 (.ok ⟨some (P₁ ++ p :: P₂)⟩)
            (.ok ⟨some S⟩)).unpaidServices, t._id ≠ s._id)
      ∧ (Payments.fetchData st2 (.ok ⟨some (P₁ ++ p :: P₂)⟩) (.ok ⟨some S⟩)).unpaidServices
          = ((Payments.fetchData st (.ok ⟨some (P₁ ++ P₂)⟩) (.ok ⟨some S⟩)).unpaidServices).filter
              (fun t => decide (t._id ≠ s._id)) := by
  simp only [fetchData_ok_unpaidServices, orEmpty]
  have hmem : ∀ t : ServiceRecord,
      (some t._id ∈ Payments.paidServiceIds (P₁ ++ p :: P₂)) ↔
        (some t._id ∈ Payments.paidServiceIds (P₁ ++ P₂) ∨ t._id = s._id) := by
    intro t
    simp only [Payments.paidServiceIds, List.map_append, List.map_cons, List.mem_append,
      List.mem_cons, hp, Option.some.injEq]
    tauto
  refine ⟨?_, ?_, ?_⟩
  · intro h
    rw [mem_unpaid, hmem] at h
    exact h.2.1 (Or.inr rfl)
  · intro t h
    rw [mem_unpaid, hmem] at h
    exact fun heq => h.2.1 (Or.inr heq)
  · unfold Payments.unpaid
    rw [List.filter_filter]
    apply List.filter_congr
    intro t _
    rw [Bool.eq_iff_iff]
    simp only [Bool.and_eq_true, Bool.not_eq_true', bne_iff_ne, ne_eq, decide_eq_true_eq,
      decide_not, includes_eq_false_iff, hmem, decide_eq_false_iff_not]
    tauto

/-- Witness of C2: `demoService` is unpaid while no payment references it,
and is no longer offered once `demoPayment` is recorded against it. -/
theorem unpaid_after_payment_witness :
    demoService ∈ (Payments.fetchData demoPaymentsState
        (.ok ⟨some ([demoOrphanPayment] ++ [])⟩)
        (.ok ⟨some [demoService, demoService2]⟩)).unpaidServices
      ∧ demoPayment.servicePackage.map (fun sp => sp._id) = some demoService._id
      ∧ demoService ∉ (Payments.fetchData demoPaymentsState
          (.ok ⟨some ([demoOrphanPayment] ++ demoPayment :: [])⟩)
          (.ok ⟨some [demoService, demoService2]⟩)).unpaidServices :=
  ⟨by decide, by decide,
    (unpaid_after_payment demoPaymentsState demoPaymentsState [demoService, demoService2]
      [demoOrphanPayment] [] demoPayment demoService (by decide) (by decide)).1⟩

/-- C3: the unpaid set stored by `Payments.fetchData` is a subsequence of the
fetched service records: same relative order, nothing duplicated, nothing
added. -/
theorem unpaid_sublist (st : Payments.State) (S : List ServiceRecord) (P : List Payment) :
    List.Sublist (Payments.fetchData st (.ok ⟨some P⟩) (.ok ⟨some S⟩)).unpaidServices S := by
  rw [fetchData_ok_unpaidServices]
  exact List.filter_sublist S

/-- C4: the derivation is idempotent: deriving the unpaid set again from its
own output, with the same payments, returns that output unchanged. -/
theorem unpaid_idempotent (st st2 : Payments.State) (S : List ServiceRecord)
    (P : List Payment) :
    (Payments.fetchData st2 (.ok ⟨some P⟩)
        (.ok ⟨some (Payments.fetchData st (.ok ⟨some P⟩) (.ok ⟨some S⟩)).unpaidServices⟩)).unpaidServices
      = (Payments.fetchData st (.ok ⟨some P⟩) (.ok ⟨some S⟩)).unpaidServices := by
  simp only [fetchData_ok_unpaidServices, orEmpty]
  unfold Payments.unpaid
  rw [List.filter_filter]
  apply List.filter_congr
  intro t _
  simp

/-- Counterexample to C5 as stated: with the rows `2 ^ 53` francs and 1 franc
the page shows `2 ^ 53`, one franc less than the sum; and with the rows 0.1
and 0.2 franc, held in units of `2 ^ (-55)` franc, it shows
0.30000000000000004, one unit more than the sum. -/
theorem totalDailyAmount_rounds :
    Reports.totalDailyAmount
        { demoReportsState with dailyReport := [demoRow 9007199254740992, demoRow 1] }
        = 9007199254740992
      ∧ (([demoRow 9007199254740992, demoRow 1].map (fun row =>
          match row.amountPaid with
          | some a => a
          | none => 0)).sum = 9007199254740993)
      ∧ Reports.totalDailyAmount
          { demoReportsState with
            dailyReport := [demoRow 3602879701896397, demoRow 7205759403792794] }
          = 10808639105689192
      ∧ (([demoRow 3602879701896397, demoRow 7205759403792794].map (fun row =>
          match row.amountPaid with
          | some a => a
          | none => 0)).sum = 10808639105689191) := by
  decide

/-- C5, amended: the total shown by the Reports page is the left-to-right
JavaScript sum of `amountPaid` over the rows it holds, a row without
`amountPaid` contributing 0; whenever the amounts are whole numbers of francs
(the franc being `2 ^ s` units) and their sum is below `2 ^ 53` francs, it
equals their sum. -/
theorem totalDailyAmount_eq_sum (st : Reports.State) (s : Nat)
    (hwhole : ∀ row ∈ st.dailyReport, ∀ a, row.amountPaid = some a → 2 ^ s ∣ a)
    (hbound : (st.dailyReport.map (fun row =>
        match row.amountPaid with
        | some a => a
        | none => 0)).sum < 2 ^ 53 * 2 ^ s) :
    Reports.totalDailyAmount st
        = jsSum (st.dailyReport.map (fun row =>
            match row.amountPaid with
            | some a => a
            | none => 0))
      ∧ Reports.totalDailyAmount st
          = (st.dailyReport.map (fun row =>
              match row.amountPaid with
              | some a => a
              | none => 0)).sum := by
  have hmap : st.dailyReport.map (fun row => orZero row.amountPaid)
      = st.dailyReport.map (fun row =>
          match row.amountPaid with
          | some a => a
          | none => 0) :=
    List.map_congr_left (fun row _ => orZero_eq row.amountPaid)
  have hjs : Reports.totalDailyAmount st
      = jsSum (st.dailyReport.map (fun row =>
          match row.amountPaid with
          | some a => a
          | none => 0)) := by
    unfold Reports.totalDailyAmount jsSum
    rw [foldl_jsAdd_map, hmap]
  refine ⟨hjs, ?_⟩
  rw [hjs]
  unfold jsSum
  rw [foldl_jsAdd_exact s _ 0 (Nat.dvd_zero _) ?_ (by simpa using hbound), Nat.zero_add]
  intro a ha
  rw [List.mem_map] at ha
  obtain ⟨row, hrow, rfl⟩ := ha
  cases hamount : row.amountPaid with
  | none => exact Nat.dvd_zero _
  | some v => exact hwhole row hrow v hamount

/-- Witness of C5, amended: rows of 10000 and 3000 francs and a row without
amount add up to 13000 francs. -/
theorem totalDailyAmount_eq_sum_witness :
    Reports.totalDailyAmount
        { demoReportsState with
          dailyReport := [demoRow 10000, { demoRow 0 with amountPaid := none }, demoRow 3000] }
      = 13000 :=
  ((totalDailyAmount_eq_sum
    { demoReportsState with
      dailyReport := [demoRow 10000, { demoRow 0 with amountPaid := none }, demoRow 3000] }
    0 (by simp) (by decide)).2).trans (by decide)

/-- Counterexample to C6 as stated: the page first loads the report of
2025-01-10, then the date 2025-01-11 is chosen and the request fails. Once
it has settled the page shows 2025-01-11 as selected date and still holds the
row of 2025-01-10, although the store has no payment on 2025-01-11. -/
theorem handleDateChange_failure_keeps_rows :
    (Reports.handleDateChange
        (Reports.handleDateChange demoReportsState
          (Reports.getDailyFrom [demoPayment]) "2025-01-10")
        (fun _ => .error demoServerError) "2025-01-11").selectedDate = "2025-01-11"
      ∧ (Reports.handleDateChange
          (Reports.handleDateChange demoReportsState
            (Reports.getDailyFrom [demoPayment]) "2025-01-10")
          (fun _ => .error demoServerError) "2025-01-11").dailyReport
          = [Reports.toRow demoPayment]
      ∧ (Reports.toRow demoPayment).paymentDate = some "2025-01-10"
      ∧ Reports.dailyReportBackend [demoPayment] "2025-01-11" = []
      ∧ ¬ (∀ row ∈ (Reports.handleDateChange
            (Reports.handleDateChange demoReportsState
              (Reports.getDailyFrom [demoPayment]) "2025-01-10")
            (fun _ => .error demoServerError) "2025-01-11").dailyReport,
          row.paymentDate = some "2025-01-11") := by
  decide

/-- C6, amended: for every date `d` chosen through `handleDateChange`, when
the request succeeds against a backend holding `store`, the rows held by the
page are exactly the rows of the payments of `store` whose date equals `d`, in
store order, whatever rows were held before; every row carries the date `d`
and the total is the JavaScript sum of their amounts. When the request fails, the rows
are left as they were and one error notification is emitted. -/
theorem handleDateChange_rows (st : Reports.State) (store : List Payment) (d : String)
    (e : JsError) :
    (Reports.handleDateChange st (Reports.getDailyFrom store) d).dailyReport
        = (store.filter (fun p => decide (p.paymentDate = d))).map Reports.toRow
      ∧ (∀ row ∈ (Reports.handleDateChange st (Reports.getDailyFrom store) d).dailyReport,
          row.paymentDate = some d)
      ∧ (∀ p ∈ store, p.paymentDate = d →
          Reports.toRow p ∈
            (Reports.handleDateChange st (Reports.getDailyFrom store) d).dailyReport)
      ∧ Reports.totalDailyAmount (Reports.handleDateChange st (Reports.getDailyFrom store) d)
          = jsSum ((store.filter (fun p => decide (p.paymentDate = d))).map
              (fun p => orZero p.amountPaid))
      ∧ (Reports.handleDateChange st (Reports.getDailyFrom store) d).selectedDate = d
      ∧ (Reports.handleDateChange st (fun _ => .error e) d).dailyReport = st.dailyReport
      ∧ (Reports.handleDateChange st (fun _ => .error e) d).toasts
          = st.toasts ++ [Toast.error "Failed to load daily report"] := by
  have hrows : (Reports.handleDateChange st (Reports.getDailyFrom store) d).dailyReport
      = (store.filter (fun p => decide (p.paymentDate = d))).map Reports.toRow := rfl
  refine ⟨hrows, ?_, ?_, ?_, rfl, rfl, rfl⟩
  · intro row hrow
    rw [hrows, List.mem_map] at hrow
    obtain ⟨p, hp, rfl⟩ := hrow
    have hd : p.paymentDate = d := by simpa using (List.mem_filter.mp hp).2
    simp [Reports.toRow, hd]
  · intro p hp hd
    rw [hrows, List.mem_map]
    exact ⟨p, List.mem_filter.mpr ⟨hp, by simpa using hd⟩, rfl⟩
  · unfold Reports.totalDailyAmount jsSum
    rw [hrows, foldl_jsAdd_map, List.map_map]
    rfl

/-- Witness of C6, amended: the report of 2025-01-10 over a store with one
payment on that day and one on the day before. -/
theorem handleDateChange_rows_witness :
    (Reports.handleDateChange demoReportsState
        (Reports.getDailyFrom [demoOrphanPayment, demoPayment]) "2025-01-10").dailyReport
      = [Reports.toRow demoPayment]
      ∧ Reports.totalDailyAmount (Reports.handleDateChange demoReportsState
          (Reports.getDailyFrom [demoOrphanPayment, demoPayment]) "2025-01-10") = 10000 := by
  have h := handleDateChange_rows demoReportsState [demoOrphanPayment, demoPayment]
    "2025-01-10" demoServerError
  refine ⟨h.1.trans (by decide), h.2.2.2.1.trans (by decide)⟩

/-- C7: when the daily-report response carries an empty or a missing data
list, `fetchDailyReport` ends with no rows and a total of 0, emits no
notification and logs no error. -/
theorem fetchDailyReport_no_payments (st : Reports.State)
    (getDaily : String → Except JsError (ApiResponse (List Reports.DailyRow)))
    (d : String) (response : ApiResponse (List Reports.DailyRow))
    (hok : getDaily d = .ok response)
    (hempty : response.data = none ∨ response.data = some []) :
    (Reports.fetchDailyReport st getDaily d).dailyReport = []
      ∧ Reports.totalDailyAmount (Reports.fetchDailyReport st getDaily d) = 0
      ∧ (Reports.fetchDailyReport st getDaily d).toasts = st.toasts
      ∧ (Reports.fetchDailyReport st getDaily d).console = st.console
      ∧ (Reports.fetchDailyReport st getDaily d).reportLoading = false := by
  have hdata : orEmpty response.data = [] := by
    rcases hempty with h | h <;> rw [h] <;> rfl
  have hrows : (Reports.fetchDailyReport st getDaily d).dailyReport = [] := by
    simp only [Reports.fetchDailyReport, hok, hdata]
  refine ⟨hrows, ?_, ?_, ?_, ?_⟩
  · unfold Reports.totalDailyAmount
    rw [hrows]
    rfl
  · simp only [Reports.fetchDailyReport, hok]
  · simp only [Reports.fetchDailyReport, hok]
  · simp only [Reports.fetchDailyReport, hok]

/-- Witness of C7: a page that holds the rows of 2025-01-10 asks for
2025-01-12, a date without payments, and the response has no data list. -/
theorem fetchDailyReport_no_payments_witness :
    ((fun _ => .ok ⟨none⟩) :
        String → Except JsError (ApiResponse (List Reports.DailyRow))) "2025-01-12"
        = .ok ⟨none⟩
      ∧ (Reports.fetchDailyReport
          { demoReportsState with dailyReport := [Reports.toRow demoPayment] }
          (fun _ => .ok ⟨none⟩) "2025-01-12").dailyReport = []
      ∧ Reports.totalDailyAmount (Reports.fetchDailyReport
          { demoReportsState with dailyReport := [Reports.toRow demoPayment] }
          (fun _ => .ok ⟨none⟩) "2025-01-12") = 0 :=
  ⟨rfl,
    (fetchDailyReport_no_payments
      { demoReportsState with dailyReport := [Reports.toRow demoPayment] }
      (fun _ => .ok ⟨none⟩) "2025-01-12" ⟨none⟩ rfl (Or.inl rfl)).1,
    (fetchDailyReport_no_payments
      { demoReportsState with dailyReport := [Reports.toRow demoPayment] }
      (fun _ => .ok ⟨none⟩) "2025-01-12" ⟨none⟩ rfl (Or.inl rfl)).2.1⟩

/-- C8: for every prior session state and credentials, when the login request
fails with error `e`, `login` returns the failure result whose message is the
server's message when there is a non-empty one and
`Login failed. Please try again.` otherwise; `user` and `isAuthenticated` are
unchanged; and storage gains nothing: every entry found in storage afterwards
was there before with the same value (in particular no token and no user is
written). Unless the status is 401, storage and location are untouched. -/
theorem login_failure (stringify : JObj → String) (env : Env) (st : AuthContext.State)
    (authLogin : AuthContext.Credentials → Except JsError (ApiResponse JObj))
    (credentials : AuthContext.Credentials) (e : JsError)
    (hfail : authLogin credentials = .error e) :
    (∀ m, serverMessage e = some m → m ≠ "" →
        (AuthContext.login stringify env st authLogin credentials).2.2
          = AuthContext.Result.failure m)
      ∧ (serverMessage e = none ∨ serverMessage e = some "" →
        (AuthContext.login stringify env st authLogin credentials).2.2
          = AuthContext.Result.failure "Login failed. Please try again.")
      ∧ (AuthContext.login stringify env st authLogin credentials).2.1 = st
      ∧ (st.isAuthenticated = false →
        (AuthContext.login stringify env st authLogin credentials).2.1.isAuthenticated = false)
      ∧ (∀ key value,
        getItem (AuthContext.login stringify env st authLogin credentials).1.storage key
            = some value →
          getItem env.storage key = some value)
      ∧ (e.response.map (fun r => r.status) ≠ some 401 →
        (AuthContext.login stringify env st authLogin credentials).1 = env) := by
  have hlogin : AuthContext.login stringify env st authLogin credentials
      = ((Api.request env (.error e : Except JsError (ApiResponse JObj))).1, st,
          AuthContext.Result.failure
            (orString (serverMessage e) "Login failed. Please try again.")) := by
    unfold AuthContext.login
    rw [hfail]
    have h2 := request_error_snd (α := JObj) env e
    rcases hreq : Api.request env (.error e : Except JsError (ApiResponse JObj)) with ⟨env1, r⟩
    rw [hreq] at h2
    simp only at h2
    subst h2
    rfl
  rw [hlogin]
  refine ⟨?_, ?_, rfl, fun h => h, ?_, ?_⟩
  · intro m hm hne
    simp [orString, hm, hne]
  · rintro (h | h) <;> simp [orString, h]
  · intro key value
    simp only [request_error_fst]
    by_cases h401 : e.response.map (fun r => r.status) = some 401
    · simp only [h401, if_true, getItem_teardown]
      by_cases hk : key = "user" ∨ key = "token"
      · simp [hk]
      · simp [hk]
    · simp only [h401, if_false]
      exact fun h => h
  · intro h401
    simp only [request_error_fst, h401, if_false]

/-- Witness of C8: a login with a wrong password, rejected with status 401
and a message, from a logged-out browser that holds one unrelated entry. -/
theorem login_failure_witness :
    ((fun _ => .error demoUnauthorized) :
        AuthContext.Credentials → Except JsError (ApiResponse JObj)) ⟨"alice", "wrong"⟩
        = .error demoUnauthorized
      ∧ (AuthContext.login demoStringify ⟨[("theme", "dark")], "/login"⟩ demoAuthState
          (fun _ => .error demoUnauthorized) ⟨"alice", "wrong"⟩).2.2
          = AuthContext.Result.failure "Invalid credentials"
      ∧ (AuthContext.login demoStringify ⟨[("theme", "dark")], "/login"⟩ demoAuthState
          (fun _ => .error demoUnauthorized) ⟨"alice", "wrong"⟩).2.1 = demoAuthState :=
  ⟨rfl,
    (login_failure demoStringify ⟨[("theme", "dark")], "/login"⟩ demoAuthState
      (fun _ => .error demoUnauthorized) ⟨"alice", "wrong"⟩ demoUnauthorized rfl).1
      "Invalid credentials" (by decide) (by decide),
    (login_failure demoStringify ⟨[("theme", "dark")], "/login"⟩ demoAuthState
      (fun _ => .error demoUnauthorized) ⟨"alice", "wrong"⟩ demoUnauthorized rfl).2.2.1⟩

/-- C9: for every failed response handled by the response interceptor: when
its status is 401, `token` and `user` are removed from storage (every other
entry reads as before) and the location is set to `/login`; when its status
is anything else, or there is no response, storage and location are
unchanged; in both cases the caller is rejected with the same error. -/
theorem responseRejected_effect (env : Env) (error : JsError) :
    (error.response.map (fun r => r.status) = some 401 →
        (Api.responseRejected env error).1.storage
            = removeItem (removeItem env.storage "token") "user"
          ∧ getItem (Api.responseRejected env error).1.storage "token" = none
          ∧ getItem (Api.responseRejected env error).1.storage "user" = none
          ∧ (∀ key, key ≠ "token" → key ≠ "user" →
              getItem (Api.responseRejected env error).1.storage key
                = getItem env.storage key)
          ∧ (Api.responseRejected env error).1.location = "/login")
      ∧ (error.response.map (fun r => r.status) ≠ some 401 →
        (Api.responseRejected env error).1 = env)
      ∧ (Api.responseRejected env error).2 = error
      ∧ (Api.request env (.error error : Except JsError (ApiResponse JObj))).2
          = .error error := by
  refine ⟨?_, ?_, ?_, request_error_snd env error⟩
  · intro h
    have hst : (Api.responseRejected env error).1
        = { storage := removeItem (removeItem env.storage "token") "user"
            location := "/login" } := by
      simp only [Api.responseRejected, h, if_true]
    rw [hst]
    refine ⟨rfl, ?_, ?_, ?_, rfl⟩
    · rw [getItem_teardown]; simp
    · rw [getItem_teardown]; simp
    · intro key h1 h2
      show getItem (removeItem (removeItem env.storage "token") "user") key = _
      rw [getItem_teardown]
      simp [h1, h2]
  · intro h
    simp only [Api.responseRejected, h, if_false]
  · unfold Api.responseRejected
    by_cases h : error.response.map (fun r => r.status) = some 401 <;> simp [h]

/-- Witness of C9: a 401 tears the session of `demoEnv` down and keeps the
unrelated entry; a 500 leaves `demoEnv` as it is. -/
theorem responseRejected_effect_witness :
    demoUnauthorized.response.map (fun r => r.status) = some 401
      ∧ (Api.responseRejected demoEnv demoUnauthorized).1.storage = [("theme", "dark")]
      ∧ (Api.responseRejected demoEnv demoUnauthorized).1.location = "/login"
      ∧ demoServerError.response.map (fun r => r.status) ≠ some 401
      ∧ (Api.responseRejected demoEnv demoServerError).1 = demoEnv :=
  ⟨by decide,
    ((responseRejected_effect demoEnv demoUnauthorized).1 (by decide)).1.trans (by decide),
    ((responseRejected_effect demoEnv demoUnauthorized).1 (by decide)).2.2.2.2,
    by decide,
    (responseRejected_effect demoEnv demoServerError).2.1 (by decide)⟩

/-- C10: for every browser environment and session state, after `logout` has
completed, `token` and `user` are absent from storage, `user` is null and
`isAuthenticated` is false, whether the logout request succeeded or
failed. -/
theorem logout_clears_session (env : Env) (st : AuthContext.State)
    (authLogout : Except JsError (ApiResponse JObj)) :
    getItem (AuthContext.logout env st authLogout).1.storage "token" = none
      ∧ getItem (AuthContext.logout env st authLogout).1.storage "user" = none
      ∧ (AuthContext.logout env st authLogout).2.user = none
      ∧ (AuthContext.logout env st authLogout).2.isAuthenticated = false := by
  have hteardown : ∀ storage : List (String × String),
      getItem (removeItem (removeItem storage "token") "user") "token" = none
        ∧ getItem (removeItem (removeItem storage "token") "user") "user" = none := by
    intro storage
    constructor <;> rw [getItem_teardown] <;> simp
  cases authLogout with
  | ok response =>
    exact ⟨(hteardown _).1, (hteardown _).2, rfl, rfl⟩
  | error e =>
    unfold AuthContext.logout
    rcases hreq : Api.request env (.error e : Except JsError (ApiResponse JObj)) with ⟨env1, r⟩
    have h2 := request_error_snd (α := JObj) env e
    rw [hreq] at h2
    simp only at h2
    subst h2
    exact ⟨(hteardown _).1, (hteardown _).2, rfl, rfl⟩

/-! ### Request interceptor, registration, bill and form handlers -/

section Lemmas

/-- Reading the assigned property gives the assigned value. -/
theorem getItem_setProp_same (obj : List (String × String)) (key value : String) :
    getItem (Api.setProp obj key value) key = some value := by
  induction obj with
  | nil => simp [Api.setProp, getItem]
  | cons kv t ih =>
    obtain ⟨k, v⟩ := kv
    by_cases h : k = key
    · simp [Api.setProp, h, getItem]
    · have ih2 := ih
      simp only [getItem] at ih2 ⊢
      simp [Api.setProp, h, List.find?_cons, ih2]

/-- Reading any other property is unaffected by the assignment. -/
theorem getItem_setProp_other (obj : List (String × String)) (key value other : String)
    (hne : other ≠ key) :
    getItem (Api.setProp obj key value) other = getItem obj other := by
  induction obj with
  | nil =>
    have h : ¬ key = other := fun h => hne h.symm
    simp [Api.setProp, getItem, h]
  | cons kv t ih =>
    obtain ⟨k, v⟩ := kv
    by_cases h : k = key
    · have h2 : ¬ key = other := fun h => hne h.symm
      subst h
      simp [Api.setProp, getItem, List.find?_cons, h2]
    · simp only [getItem] at ih ⊢
      by_cases h3 : k = other
      · subst h3
        simp [Api.setProp, h, List.find?_cons]
      · simp [Api.setProp, h, List.find?_cons, h3, ih]

end Lemmas

/-- C11: for every outgoing request config, when storage holds a (non-empty)
token the request interceptor returns the config with the `Authorization`
header set to `Bearer ` followed by that token, every other header and every
other field unchanged; when no token is stored the config is returned
unchanged, so no `Authorization` header is added. -/
theorem requestFulfilled_bearer (env : Env) (config : Api.Config) :
    (∀ token, getItem env.storage "token" = some token → token ≠ "" →
        getItem (Api.requestFulfilled env config).headers "Authorization"
            = some ("Bearer " ++ token)
          ∧ (∀ name, name ≠ "Authorization" →
              getItem (Api.requestFulfilled env config).headers name
                = getItem config.headers name)
          ∧ (Api.requestFulfilled env config).url = config.url
          ∧ (Api.requestFulfilled env config).method = config.method
          ∧ (Api.requestFulfilled env config).params = config.params
          ∧ (Api.requestFulfilled env config).data = config.data
          ∧ (Api.requestFulfilled env config).withCredentials = config.withCredentials)
      ∧ (getItem env.storage "token" = none → Api.requestFulfilled env config = config) := by
  constructor
  · intro token htok hne
    have hcfg : Api.requestFulfilled env config
        = { config with
            headers := Api.setProp config.headers "Authorization" ("Bearer " ++ token) } := by
      simp [Api.requestFulfilled, htok, truthy, hne]
    rw [hcfg]
    exact ⟨getItem_setProp_same _ _ _, fun name hname => getItem_setProp_other _ _ _ _ hname,
      rfl, rfl, rfl, rfl, rfl⟩
  · intro hnone
    simp [Api.requestFulfilled, hnone]

/-- Witness of C11: with the token `abc` in storage the payments request
leaves with `Bearer abc`; from a browser without a token it leaves as it
is. -/
theorem requestFulfilled_bearer_witness :
    getItem demoEnv.storage "token" = some "abc"
      ∧ getItem (Api.requestFulfilled demoEnv demoConfig).headers "Authorization"
          = some "Bearer abc"
      ∧ getItem (⟨[("theme", "dark")], "/login"⟩ : Env).storage "token" = none
      ∧ Api.requestFulfilled ⟨[("theme", "dark")], "/login"⟩ demoConfig = demoConfig :=
  ⟨by decide,
    ((requestFulfilled_bearer demoEnv demoConfig).1 "abc" (by decide) (by decide)).1,
    by decide,
    (requestFulfilled_bearer ⟨[("theme", "dark")], "/login"⟩ demoConfig).2 (by decide)⟩

/-- C12: for every registration form, `validateForm` accepts iff all four
fields are non-empty, the username has length at least 3, the email passes the
test of the email expression, the password has length at least 6 and the
password equals the confirmation (lengths as JavaScript counts them); and
`handleSubmit` calls `register` only when `validateForm` accepts: on a
rejected form nothing is sent, on an accepted form the form without
`confirmPassword` is sent once. -/
theorem validateForm_accepts_iff (st : Register.State)
    (register : JObj → AuthContext.Result) :
    ((Register.validateForm st).2 = true ↔
        (st.formData.username ≠ "" ∧ st.formData.email ≠ "" ∧ st.formData.password ≠ ""
            ∧ st.formData.confirmPassword ≠ "")
          ∧ 3 ≤ jsLength st.formData.username
          ∧ Register.emailRegex.test st.formData.email = true
          ∧ 6 ≤ jsLength st.formData.password
          ∧ st.formData.password = st.formData.confirmPassword)
      ∧ ((Register.validateForm st).2 = false → (Register.handleSubmit st register).2 = [])
      ∧ ((Register.validateForm st).2 = true →
          (Register.handleSubmit st register).2 = [Register.userData st.formData])
      ∧ (∀ sent ∈ (Register.handleSubmit st register).2, (Register.validateForm st).2 = true) := by
  have hsub_false : (Register.validateForm st).2 = false →
      (Register.handleSubmit st register).2 = [] := by
    intro h
    unfold Register.handleSubmit
    rcases hv : Register.validateForm st with ⟨st1, b⟩
    rw [hv] at h
    simp only at h
    subst h
    rfl
  have hsub_true : (Register.validateForm st).2 = true →
      (Register.handleSubmit st register).2 = [Register.userData st.formData] := by
    intro h
    unfold Register.handleSubmit
    rcases hv : Register.validateForm st with ⟨st1, b⟩
    rw [hv] at h
    simp only at h
    subst h
    simp only
    cases register (Register.userData st.formData) <;> rfl
  refine ⟨?_, hsub_false, hsub_true, ?_⟩
  · unfold Register.validateForm
    by_cases h1 : st.formData.username = "" ∨ st.formData.email = ""
        ∨ st.formData.password = "" ∨ st.formData.confirmPassword = ""
    · rw [if_pos h1]
      simp only [Bool.false_eq_true, false_iff]
      rintro ⟨⟨a, b, c, d⟩, -⟩
      rcases h1 with h | h | h | h
      · exact a h
      · exact b h
      · exact c h
      · exact d h
    · rw [if_neg h1]
      have h1' : st.formData.username ≠ "" ∧ st.formData.email ≠ ""
          ∧ st.formData.password ≠ "" ∧ st.formData.confirmPassword ≠ "" := by
        refine ⟨fun h => h1 (Or.inl h), fun h => h1 (Or.inr (Or.inl h)),
          fun h => h1 (Or.inr (Or.inr (Or.inl h))), fun h => h1 (Or.inr (Or.inr (Or.inr h)))⟩
      by_cases h2 : jsLength st.formData.username < 3
      · rw [if_pos h2]
        simp only [Bool.false_eq_true, false_iff]
        rintro ⟨-, h, -⟩
        omega
      · rw [if_neg h2]
        by_cases h3 : Register.emailRegex.test st.formData.email = true
        · simp only [h3, Bool.not_true, Bool.false_eq_true, if_false]
          by_cases h4 : jsLength st.formData.password < 6
          · rw [if_pos h4]
            simp only [Bool.false_eq_true, false_iff]
            rintro ⟨-, -, -, h, -⟩
            omega
          · rw [if_neg h4]
            by_cases h5 : st.formData.password = st.formData.confirmPassword
            · simp only [h5, ne_eq, not_true_eq_false, if_false, true_iff]
              rw [h5] at h1' h4
              exact ⟨h1', by omega, trivial, by omega, trivial⟩
            · simp only [ne_eq, h5, not_false_eq_true, if_true, Bool.false_eq_true,
                false_iff]
              rintro ⟨-, -, -, -, h⟩
              exact h
        · have h3' : Register.emailRegex.test st.formData.email = false := by
            simpa using h3
          simp only [h3', Bool.not_false, if_true, Bool.false_eq_true, false_iff]
          rintro ⟨-, -, h, -⟩
          exact absurd h (by simp)
  · intro sent hsent
    by_contra hne
    have hf : (Register.validateForm st).2 = false := by simpa using hne
    rw [hsub_false hf] at hsent
    exact absurd hsent (List.not_mem_nil _)

/-- Witness of C12: a complete form is accepted and sent without the
confirmation; the same form with a five-letter password is rejected and
nothing is sent. -/
theorem validateForm_accepts_iff_witness :
    (Register.validateForm demoRegisterState).2 = true
      ∧ (Register.handleSubmit demoRegisterState (fun _ => AuthContext.Result.failure "no")).2
          = [[("username", JVal.str "alice"), ("email", JVal.str "alice@example.com"),
              ("password", JVal.str "secret1")]]
      ∧ (Register.validateForm
          { demoRegisterState with
            formData := ⟨"alice", "alice@example.com", "secre", "secre"⟩ }).2 = false
      ∧ (Register.handleSubmit
          { demoRegisterState with
            formData := ⟨"alice", "alice@example.com", "secre", "secre"⟩ }
          (fun _ => AuthContext.Result.failure "no")).2 = [] :=
  ⟨by decide,
    (validateForm_accepts_iff demoRegisterState
      (fun _ => AuthContext.Result.failure "no")).2.2.1 (by decide),
    by decide,
    (validateForm_accepts_iff
      { demoRegisterState with formData := ⟨"alice", "alice@example.com", "secre", "secre"⟩ }
      (fun _ => AuthContext.Result.failure "no")).2.1 (by decide)⟩

/-- C13, the code at the failing input: a bill without payment for a package
of 10000 francs is shown as Pending, and the amount due handed to
`formatCurrency` at line 210 is `bill.payment?.amountDue`, which is missing
(the page prints `NaN RWF`), not the package price of 10000 francs that the
invoice shows as total amount. -/
theorem bill_pending_amount_not_price :
    demoBillUnpaid.payment = none
      ∧ demoBillUnpaid.package.bind (fun k => k.price) = some 10000
      ∧ Bill.paymentInformation demoBillUnpaid = Bill.PaymentView.pending none
      ∧ Bill.paymentInformation demoBillUnpaid
          ≠ Bill.PaymentView.pending (demoBillUnpaid.package.bind (fun k => k.price))
      ∧ Bill.render ⟨some demoBillUnpaid, false, [], []⟩
          = Bill.View.invoice demoBillUnpaid (some 10000) (Bill.PaymentView.pending none) := by
  decide

/-- The Paid branch of the payment information block: a bill whose payment
has status `Paid` is shown as paid, with that payment's number, amount paid,
method (first underscore turned into a space) and date. -/
theorem paymentInformation_paid (bill : Bill.BillData) (p : Bill.BillPayment)
    (hp : bill.payment = some p) (hs : p.status = some "Paid") :
    Bill.paymentInformation bill
      = Bill.PaymentView.paid p.paymentNumber p.amountPaid
          (p.paymentMethod.map (fun m => String.mk (Bill.replaceFirst '_' ' ' m.toList)))
          p.paymentDate := by
  simp [Bill.paymentInformation, Bill.isPaid, hp, hs]

/-- The paid demo bill shows its payment with the method `mobile money`. -/
theorem paymentInformation_paid_demo :
    Bill.paymentInformation demoBillPaid
      = Bill.PaymentView.paid (some "PAY-001") (some 10000) (some "mobile money")
          (some "2025-01-10") := by
  decide

/-- Counterexample to C14 as stated: the page holds the bill of `svc-1` and
then requests the bill of a service that does not exist. Once the failed
request has settled, `bill` is still the bill of `svc-1` and the page renders
that invoice, not the `Bill not found` block. -/
theorem fetchBill_failure_keeps_bill :
    (Bill.fetchBill (Bill.fetchBill demoBillState demoGetBill "svc-1")
        demoGetBill "svc-404").bill = some demoBillPaid
      ∧ (Bill.fetchBill (Bill.fetchBill demoBillState demoGetBill "svc-1")
          demoGetBill "svc-404").loading = false
      ∧ Bill.render (Bill.fetchBill (Bill.fetchBill demoBillState demoGetBill "svc-1")
          demoGetBill "svc-404") ≠ Bill.View.notFound := by
  decide

/-- C14, amended: for every service id whose bill request fails, once
`fetchBill` settles `loading` is false, one `Failed to load bill`
notification has been emitted and `bill` is what it was before the request;
so the page is in the `Bill not found` state when no bill was held before, as
on the first load, and keeps showing a bill that was held before. -/
theorem fetchBill_failure (st : Bill.State)
    (getBill : String → Except JsError (ApiResponse Bill.BillData))
    (servicePackageId : String) (e : JsError)
    (hfail : getBill servicePackageId = .error e) :
    (Bill.fetchBill st getBill servicePackageId).bill = st.bill
      ∧ (Bill.fetchBill st getBill servicePackageId).loading = false
      ∧ (Bill.fetchBill st getBill servicePackageId).toasts
          = st.toasts ++ [Toast.error "Failed to load bill"]
      ∧ (st.bill = none →
          Bill.render (Bill.fetchBill st getBill servicePackageId) = Bill.View.notFound)
      ∧ (∀ b, st.bill = some b →
          Bill.render (Bill.fetchBill st getBill servicePackageId)
            = Bill.View.invoice b (b.package.bind (fun k => k.price))
                (Bill.paymentInformation b)) := by
  have hst : Bill.fetchBill st getBill servicePackageId
      = { st with
          console := st.console ++ [⟨"Fetch bill error:", e⟩]
          toasts := st.toasts ++ [Toast.error "Failed to load bill"]
          loading := false } := by
    simp only [Bill.fetchBill, hfail]
  rw [hst]
  refine ⟨rfl, rfl, rfl, ?_, ?_⟩
  · intro h
    simp [Bill.render, h]
  · intro b h
    simp [Bill.render, h]

/-- Witness of C14, amended: the first load of the bill of a service that
does not exist ends in the `Bill not found` state. -/
theorem fetchBill_failure_witness :
    demoGetBill "svc-404" = .error ⟨some ⟨404, some ⟨some "Service not found"⟩⟩⟩
      ∧ demoBillState.bill = none
      ∧ Bill.render (Bill.fetchBill demoBillState demoGetBill "svc-404")
          = Bill.View.notFound :=
  ⟨by simp [demoGetBill], rfl,
    (fetchBill_failure demoBillState demoGetBill "svc-404"
      ⟨some ⟨404, some ⟨some "Service not found"⟩⟩⟩ (by simp [demoGetBill])).2.2.2.1 rfl⟩

/-! ### Screen loads and form submissions -/

section Lemmas

/-- On well-formed bodies the run of `fetchData` with null-body handling is
the run on the bodies. -/
theorem fetchDataAxios_wellformed (st : Payments.State)
    (pr : ApiResponse (List Payment)) (sr : ApiResponse (List ServiceRecord)) :
    Payments.fetchDataAxios st (.ok ⟨some pr⟩) (.ok ⟨some sr⟩)
      = Payments.fetchData st (.ok pr) (.ok sr) := by
  rfl

/-- Edits that leave the car and package selects alone keep the edited
record and the two ids of the form. -/
theorem foldl_userEdit_refs (edits : List (String × String)) (st : ServicePackages.State)
    (hedits : ∀ e ∈ edits, e.1 ≠ "carId" ∧ e.1 ≠ "packageId") :
    (edits.foldl ServicePackages.userEdit st).editingService = st.editingService
      ∧ (edits.foldl ServicePackages.userEdit st).formData.carId = st.formData.carId
      ∧ (edits.foldl ServicePackages.userEdit st).formData.packageId
          = st.formData.packageId := by
  induction edits generalizing st with
  | nil => exact ⟨rfl, rfl, rfl⟩
  | cons e t ih =>
    have he := hedits e (List.mem_cons_self e t)
    have ht : ∀ x ∈ t, x.1 ≠ "carId" ∧ x.1 ≠ "packageId" :=
      fun x hx => hedits x (List.mem_cons_of_mem e hx)
    have hstep : (ServicePackages.userEdit st e).editingService = st.editingService
        ∧ (ServicePackages.userEdit st e).formData.carId = st.formData.carId
        ∧ (ServicePackages.userEdit st e).formData.packageId = st.formData.packageId := by
      unfold ServicePackages.userEdit ServicePackages.handleChange
      by_cases hr : ServicePackages.controlRendered st e.1 = true
      · simp only [hr, if_true, he.1, he.2, if_false]
        by_cases h3 : e.1 = "serviceDate"
        · simp [h3]
        · by_cases h4 : e.1 = "status"
          · simp [h4]
          · simp [h3, h4]
      · simp [hr]
    rw [List.foldl_cons]
    obtain ⟨h1, h2, h3⟩ := ih (ServicePackages.userEdit st e) ht
    exact ⟨h1.trans hstep.1, h2.trans hstep.2.1, h3.trans hstep.2.2⟩

/-- While a car is being edited, no user edit changes the edited car or the
plate number of the form. -/
theorem foldl_userEdit_plate (edits : List (String × String)) (st : Cars.State) (car : Car)
    (hediting : st.editingCar = some car) :
    (edits.foldl Cars.userEdit st).editingCar = some car
      ∧ (edits.foldl Cars.userEdit st).formData.plateNumber = st.formData.plateNumber := by
  induction edits generalizing st with
  | nil => exact ⟨hediting, rfl⟩
  | cons e t ih =>
    have hstep : (Cars.userEdit st e).editingCar = some car
        ∧ (Cars.userEdit st e).formData.plateNumber = st.formData.plateNumber := by
      unfold Cars.userEdit Cars.controlDisabled Cars.handleChange
      by_cases h1 : e.1 = "plateNumber"
      · simp [h1, hediting]
      · by_cases h2 : e.1 = "carType"
        · simp [h2, hediting]
        · by_cases h3 : e.1 = "carSize"
          · simp [h3, hediting]
          · by_cases h4 : e.1 = "driverName"
            · simp [h4, hediting]
            · by_cases h5 : e.1 = "phoneNumber"
              · simp [h5, hediting]
              · simp [h1, h2, h3, h4, h5, hediting]
    rw [List.foldl_cons]
    obtain ⟨h1, h2⟩ := ih (Cars.userEdit st e) hstep.1
    exact ⟨h1, h2.trans hstep.2⟩

end Lemmas

/-- Counterexample to C15 as stated: both payments-page requests are
fulfilled, but the service list reply has a null body, so the load throws
after `setPayments`. The failure notification is emitted and the unpaid set is
untouched, yet the payments list has been updated. Likewise on the service
records page with a null body in the cars reply: the service list has been
updated, cars and packages have not. -/
theorem fetchData_throw_after_first_set :
    demoPaymentsState.payments = []
      ∧ (Payments.fetchDataAxios demoPaymentsState
          (.ok ⟨some ⟨some [demoPayment]⟩⟩) (.ok ⟨none⟩)).payments = [demoPayment]
      ∧ (Payments.fetchDataAxios demoPaymentsState
          (.ok ⟨some ⟨some [demoPayment]⟩⟩) (.ok ⟨none⟩)).toasts
          = [Toast.error "Failed to load data"]
      ∧ (ServicePackages.fetchData { demoServicesState with servicePackages := [] }
          (.ok ⟨some ⟨some [demoService]⟩⟩) (.ok ⟨none⟩) (.ok ⟨some ⟨some []⟩⟩)).servicePackages
          = [demoService]
      ∧ (ServicePackages.fetchData { demoServicesState with servicePackages := [] }
          (.ok ⟨some ⟨some [demoService]⟩⟩) (.ok ⟨none⟩) (.ok ⟨some ⟨some []⟩⟩)).toasts
          = [Toast.error "Failed to load data"] := by
  decide

/-- C15, amended: in `Payments.fetchData` and `ServicePackages.fetchData`, if
any of the parallel list requests fails, none of the screen's lists
(payments and unpaid services; service records, cars and packages) is
updated, one `Failed to load data` notification is emitted and loading ends
false. -/
theorem fetchData_request_failure
    (stP : Payments.State)
    (paymentsRes : Except JsError (AxiosResponse (List Payment)))
    (servicesRes : Except JsError (AxiosResponse (List ServiceRecord)))
    (hP : (∃ e, paymentsRes = .error e) ∨ (∃ e, servicesRes = .error e))
    (stS : ServicePackages.State)
    (recordsRes : Except JsError (AxiosResponse (List ServiceRecord)))
    (carsRes : Except JsError (AxiosResponse (List Car)))
    (packagesRes : Except JsError (AxiosResponse (List Package)))
    (hS : (∃ e, recordsRes = .error e) ∨ (∃ e, carsRes = .error e)
      ∨ (∃ e, packagesRes = .error e)) :
    ((Payments.fetchDataAxios stP paymentsRes servicesRes).payments = stP.payments
        ∧ (Payments.fetchDataAxios stP paymentsRes servicesRes).unpaidServices
            = stP.unpaidServices
        ∧ (Payments.fetchDataAxios stP paymentsRes servicesRes).toasts
            = stP.toasts ++ [Toast.error "Failed to load data"]
        ∧ (Payments.fetchDataAxios stP paymentsRes servicesRes).loading = false)
      ∧ ((ServicePackages.fetchData stS recordsRes carsRes packagesRes).servicePackages
            = stS.servicePackages
        ∧ (ServicePackages.fetchData stS recordsRes carsRes packagesRes).cars = stS.cars
        ∧ (ServicePackages.fetchData stS recordsRes carsRes packagesRes).packages
            = stS.packages
        ∧ (ServicePackages.fetchData stS recordsRes carsRes packagesRes).toasts
            = stS.toasts ++ [Toast.error "Failed to load data"]
        ∧ (ServicePackages.fetchData stS recordsRes carsRes packagesRes).loading = false) := by
  constructor
  · cases paymentsRes with
    | error e => exact ⟨rfl, rfl, rfl, rfl⟩
    | ok pr =>
      cases servicesRes with
      | error e => exact ⟨rfl, rfl, rfl, rfl⟩
      | ok sr =>
        rcases hP with ⟨e, h⟩ | ⟨e, h⟩ <;> cases h
  · cases recordsRes with
    | error e => exact ⟨rfl, rfl, rfl, rfl, rfl⟩
    | ok r1 =>
      cases carsRes with
      | error e => exact ⟨rfl, rfl, rfl, rfl, rfl⟩
      | ok r2 =>
        cases packagesRes with
        | error e => exact ⟨rfl, rfl, rfl, rfl, rfl⟩
        | ok r3 =>
          rcases hS with ⟨e, h⟩ | ⟨e, h⟩ | ⟨e, h⟩ <;> cases h

/-- Witness of C15, amended: the services request of the payments page and
the packages request of the service records page fail with a server error;
the lists on both pages stay as they were. -/
theorem fetchData_request_failure_witness :
    (Payments.fetchDataAxios { demoPaymentsState with payments := [demoOrphanPayment] }
        (.ok ⟨some ⟨some [demoPayment]⟩⟩) (.error demoServerError)).payments
        = [demoOrphanPayment]
      ∧ (ServicePackages.fetchData demoServicesState
          (.ok ⟨some ⟨some []⟩⟩) (.ok ⟨some ⟨some []⟩⟩) (.error demoServerError)).cars
          = [demoCar, demoCar2] :=
  ⟨(fetchData_request_failure { demoPaymentsState with payments := [demoOrphanPayment] }
      (.ok ⟨some ⟨some [demoPayment]⟩⟩) (.error demoServerError)
      (Or.inr ⟨demoServerError, rfl⟩)
      demoServicesState (.ok ⟨some ⟨some []⟩⟩) (.ok ⟨some ⟨some []⟩⟩)
      (.error demoServerError) (Or.inr (Or.inr ⟨demoServerError, rfl⟩))).1.1,
    (fetchData_request_failure { demoPaymentsState with payments := [demoOrphanPayment] }
      (.ok ⟨some ⟨some [demoPayment]⟩⟩) (.error demoServerError)
      (Or.inr ⟨demoServerError, rfl⟩)
      demoServicesState (.ok ⟨some ⟨some []⟩⟩) (.ok ⟨some ⟨some []⟩⟩)
      (.error demoServerError) (Or.inr (Or.inr ⟨demoServerError, rfl⟩))).2.2.1⟩

/-- C16: when the payment-creation request fails in `Payments.handleSubmit`,
the payments list, the unpaid set, the form data, the modal flag, the
selected service, the search term and the loading flag keep their values; the
only request issued is the creation itself (no refetch); `formLoading` ends
false and exactly one error notification is emitted, with the server's message
or `Failed to record payment`. -/
theorem handleSubmit_failure_state (parseFloat : String → Option Nat) (today : String)
    (st : Payments.State) (e : JsError)
    (paymentsRes : Except JsError (AxiosResponse (List Payment)))
    (servicesRes : Except JsError (AxiosResponse (List ServiceRecord))) :
    (Payments.handleSubmit parseFloat today st (.error e) paymentsRes servicesRes).1
        = { st with
            formLoading := false
            toasts := st.toasts ++
              [Toast.error (orString (serverMessage e) "Failed to record payment")]
            console := st.console ++ [⟨"Submit error:", e⟩] }
      ∧ (Payments.handleSubmit parseFloat today st (.error e) paymentsRes servicesRes).1.payments
          = st.payments
      ∧ (Payments.handleSubmit parseFloat today st (.error e) paymentsRes
          servicesRes).1.unpaidServices = st.unpaidServices
      ∧ (Payments.handleSubmit parseFloat today st (.error e) paymentsRes servicesRes).1.formData
          = st.formData
      ∧ (Payments.handleSubmit parseFloat today st (.error e) paymentsRes
          servicesRes).1.isModalOpen = st.isModalOpen
      ∧ (Payments.handleSubmit parseFloat today st (.error e) paymentsRes
          servicesRes).1.formLoading = false
      ∧ (Payments.handleSubmit parseFloat today st (.error e) paymentsRes servicesRes).2
          = [Payments.Request.create
              ⟨st.formData.servicePackageId, parseFloat st.formData.amountPaid,
                st.formData.paymentMethod, st.formData.paymentDate⟩]
      ∧ Payments.Request.getPayments ∉
          (Payments.handleSubmit parseFloat today st (.error e) paymentsRes servicesRes).2
      ∧ Payments.Request.getServicePackages ∉
          (Payments.handleSubmit parseFloat today st (.error e) paymentsRes servicesRes).2 := by
  refine ⟨rfl, rfl, rfl, rfl, rfl, rfl, rfl, ?_, ?_⟩ <;>
    simp [Payments.handleSubmit]

/-- Opening a record whose service date is not a valid date: `toISOString`
throws after `setEditingService`, so the record becomes the edited one while
the form and the closed modal stay as they were. -/
theorem openModal_invalid_date (isoDay : String → Option String) (today : String)
    (st : ServicePackages.State) (s : ServiceRecord)
    (hdate : isoDay s.serviceDate = none) :
    ServicePackages.openModal isoDay today st (some s)
      = { st with editingService := some s } := by
  simp [ServicePackages.openModal, hdate]

/-- Counterexample to C17 as stated: `demoService`, which references the car
`car-1`, is opened for edit; the user picks the other car in the car select,
which the edit modal offers, and submits. The update request carries
`car-2`. -/
theorem service_edit_changes_car :
    demoService.car.map (fun c => c._id) = some "car-1"
      ∧ (demoServicesState.cars.map (fun c => c._id)) = ["car-1", "car-2"]
      ∧ (ServicePackages.handleSubmit "2025-01-12"
          (ServicePackages.userEdit
            (ServicePackages.openModal demoIsoDay "2025-01-12" demoServicesState
              (some demoService))
            ("carId", "car-2"))
          (.error demoServerError) (.error demoServerError) (.error demoServerError)
          (.error demoServerError)).2
          = [ServicePackages.Request.update "svc-1" ⟨"car-2", "pkg-1", "2025-01-10", "pending"⟩] := by
  decide

/-- C17, amended: for every existing service record opened for edit whose
service date is a valid date (so that the edit modal opens) and whose car and
package references resolve, and every sequence of form edits that leaves the
car and package selects alone (service date and status edits), the update
request sent by `handleSubmit` goes to the record's id and carries the carId
and packageId that the record references. The edit modal also offers the car
and package selects, and the request carries whatever they hold at
submission. -/
theorem service_edit_keeps_refs (isoDay : String → Option String) (today : String)
    (st : ServicePackages.State) (s : ServiceRecord) (c : Car) (k : Package)
    (day : String) (edits : List (String × String))
    (writeRes : Except JsError (AxiosResponse ServiceRecord))
    (servicesRes : Except JsError (AxiosResponse (List ServiceRecord)))
    (carsRes : Except JsError (AxiosResponse (List Car)))
    (packagesRes : Except JsError (AxiosResponse (List Package)))
    (hdate : isoDay s.serviceDate = some day)
    (hcar : s.car = some c) (hpackage : s.package = some k)
    (hedits : ∀ e ∈ edits, e.1 ≠ "carId" ∧ e.1 ≠ "packageId") :
    (ServicePackages.openModal isoDay today st (some s)).isModalOpen = true
    ∧ ∃ data rest,
      (ServicePackages.handleSubmit today
          (edits.foldl ServicePackages.userEdit
            (ServicePackages.openModal isoDay today st (some s)))
          writeRes servicesRes carsRes packagesRes).2
          = ServicePackages.Request.update s._id data :: rest
        ∧ data.carId = c._id ∧ data.packageId = k._id
        ∧ ∀ r ∈ rest, r = ServicePackages.Request.getServicePackages
            ∨ r = ServicePackages.Request.getCars ∨ r = ServicePackages.Request.getPackages := by
  refine ⟨by simp [ServicePackages.openModal, hdate], ?_⟩
  obtain ⟨h1, h2, h3⟩ := foldl_userEdit_refs edits
    (ServicePackages.openModal isoDay today st (some s)) hedits
  have hopen1 :
      (ServicePackages.openModal isoDay today st (some s)).editingService = some s := by
    simp [ServicePackages.openModal, hdate]
  have hor : ∀ i : String, orString (some i) "" = i := by
    intro i
    unfold orString
    by_cases h : i = ""
    · simp [h]
    · simp [h]
  have hopen2 : (ServicePackages.openModal isoDay today st (some s)).formData.carId = c._id := by
    simp only [ServicePackages.openModal, hdate, hcar, Option.map_some']
    exact hor c._id
  have hopen3 :
      (ServicePackages.openModal isoDay today st (some s)).formData.packageId = k._id := by
    simp only [ServicePackages.openModal, hdate, hpackage, Option.map_some']
    exact hor k._id
  rw [hopen1] at h1
  rw [hopen2] at h2
  rw [hopen3] at h3
  cases writeRes with
  | error e =>
    refine ⟨_, [], ?_, h2, h3, ?_⟩
    · simp only [ServicePackages.handleSubmit, h1]
    · intro r hr
      exact absurd hr (List.not_mem_nil _)
  | ok w =>
    refine ⟨_, [ServicePackages.Request.getServicePackages, ServicePackages.Request.getCars,
      ServicePackages.Request.getPackages], ?_, h2, h3, ?_⟩
    · simp only [ServicePackages.handleSubmit, h1]
    · intro r hr
      simpa using hr

/-- Witness of C17, amended: `demoService` is opened for edit, its status
is set to `completed` and its date changed; the update request still carries
`car-1` and `pkg-1`. -/
theorem service_edit_keeps_refs_witness :
    demoService.car = some demoCar
      ∧ demoIsoDay demoService.serviceDate = some "2025-01-10"
      ∧ (ServicePackages.handleSubmit "2025-01-12"
          ([("status", "completed"), ("serviceDate", "2025-01-11")].foldl
            ServicePackages.userEdit
            (ServicePackages.openModal demoIsoDay "2025-01-12" demoServicesState
              (some demoService)))
          (.error demoServerError) (.error demoServerError) (.error demoServerError)
          (.error demoServerError)).2
          = [ServicePackages.Request.update "svc-1"
              ⟨"car-1", "pkg-1", "2025-01-11", "completed"⟩]
      ∧ (ServicePackages.openModal demoIsoDay "2025-01-12" demoServicesState
          (some demoService)).isModalOpen = true
      ∧ ∃ data rest,
          (ServicePackages.handleSubmit "2025-01-12"
            ([("status", "completed"), ("serviceDate", "2025-01-11")].foldl
              ServicePackages.userEdit
              (ServicePackages.openModal demoIsoDay "2025-01-12" demoServicesState
                (some demoService)))
            (.error demoServerError) (.error demoServerError) (.error demoServerError)
            (.error demoServerError)).2
            = ServicePackages.Request.update demoService._id data :: rest
          ∧ data.carId = demoCar._id
          ∧ data.packageId
              = (⟨"pkg-1", some "Premium Wash", some "Full wash", some 10000⟩ : Package)._id
          ∧ ∀ r ∈ rest, r = ServicePackages.Request.getServicePackages
              ∨ r = ServicePackages.Request.getCars
              ∨ r = ServicePackages.Request.getPackages :=
  ⟨by decide, by decide, by decide,
    service_edit_keeps_refs demoIsoDay "2025-01-12" demoServicesState demoService demoCar
      ⟨"pkg-1", some "Premium Wash", some "Full wash", some 10000⟩ "2025-01-10"
      [("status", "completed"), ("serviceDate", "2025-01-11")]
      (.error demoServerError) (.error demoServerError) (.error demoServerError)
      (.error demoServerError) (by decide) (by decide) (by decide) (by decide)⟩

/-- C18: for every car opened for edit and every sequence of user edits in
the modal (the plate-number input is disabled while editing, so it receives
none), the request sent by `Cars.handleSubmit` is an update of that car whose
body carries the car's existing plateNumber; any refetch follows it. -/
theorem car_edit_keeps_plate (st : Cars.State) (car : Car)
    (edits : List (String × String))
    (writeRes : Except JsError (AxiosResponse Car))
    (carsRes : Except JsError (AxiosResponse (List Car))) :
    ∃ data rest,
      (Cars.handleSubmit (edits.foldl Cars.userEdit (Cars.openModal st (some car)))
          writeRes carsRes).2 = Cars.Request.update car._id data :: rest
        ∧ data.plateNumber = car.plateNumber
        ∧ ∀ r ∈ rest, r = Cars.Request.getCars := by
  obtain ⟨h1, h2⟩ := foldl_userEdit_plate edits (Cars.openModal st (some car)) car rfl
  have hopen : (Cars.openModal st (some car)).formData.plateNumber = car.plateNumber := rfl
  rw [hopen] at h2
  cases writeRes with
  | error e =>
    refine ⟨_, [], ?_, h2, ?_⟩
    · simp only [Cars.handleSubmit, h1]
    · intro r hr
      exact absurd hr (List.not_mem_nil _)
  | ok w =>
    refine ⟨_, [Cars.Request.getCars], ?_, h2, ?_⟩
    · simp only [Cars.handleSubmit, h1]
    · intro r hr
      simpa using hr

/-- C19, the code at the failing input: when the summary request fails,
`fetchSummary` logs the error and emits no notification, whereas
`fetchDailyReport` on a failed request logs and emits
`Failed to load daily report`. Neither sends a second request. -/
theorem fetchSummary_failure_silent (st : Reports.State) (e : JsError) (d : String) :
    (Reports.fetchSummary st (.error e)).toasts = st.toasts
      ∧ (Reports.fetchSummary st (.error e)).console
          = st.console ++ [⟨"Fetch summary error:", e⟩]
      ∧ (Reports.fetchDailyReport st (fun _ => .error e) d).toasts
          = st.toasts ++ [Toast.error "Failed to load daily report"]
      ∧ (Reports.fetchDailyReport st (fun _ => .error e) d).console
          = st.console ++ [⟨"Fetch daily report error:", e⟩] :=
  ⟨rfl, rfl, rfl, rfl⟩

/-- Counterexample to C20 as stated: with a payment of `2 ^ 53` francs and a
payment of 1 franc the page shows `2 ^ 53` as Total Revenue, one franc less
than the sum; and with payments of 0.1 and 0.2 franc, held in units of
`2 ^ (-55)` franc, it shows 0.30000000000000004, one unit more than the
sum. -/
theorem totalRevenue_rounds :
    Payments.totalRevenue
        { demoPaymentsState with
          payments := [{ demoPayment with amountPaid := some 9007199254740992 },
            { demoPayment with amountPaid := some 1 }] }
        = 9007199254740992
      ∧ (([{ demoPayment with amountPaid := some 9007199254740992 },
            { demoPayment with amountPaid := some 1 }].map (fun p =>
          match p.amountPaid with
          | some a => a
          | none => 0)).sum = 9007199254740993)
      ∧ Payments.totalRevenue
          { demoPaymentsState with
            payments := [{ demoPayment with amountPaid := some 3602879701896397 },
              { demoPayment with amountPaid := some 7205759403792794 }] }
          = 10808639105689192
      ∧ (([{ demoPayment with amountPaid := some 3602879701896397 },
            { demoPayment with amountPaid := some 7205759403792794 }].map (fun p =>
          match p.amountPaid with
          | some a => a
          | none => 0)).sum = 10808639105689191) := by
  decide

/-- C20, amended: the Total Revenue of the Payments page is the left-to-right
JavaScript sum of `amountPaid` over all payments it holds, a missing amount
contributing 0, and does not depend on the search term; whenever the amounts
are whole numbers of francs (the franc being `2 ^ s` units) and their sum is
below `2 ^ 53` francs, it equals their sum. -/
theorem totalRevenue_eq_sum (st : Payments.State) (term : String) (s : Nat)
    (hwhole : ∀ p ∈ st.payments, ∀ a, p.amountPaid = some a → 2 ^ s ∣ a)
    (hbound : (st.payments.map (fun p =>
        match p.amountPaid with
        | some a => a
        | none => 0)).sum < 2 ^ 53 * 2 ^ s) :
    Payments.totalRevenue st
        = jsSum (st.payments.map (fun p =>
            match p.amountPaid with
            | some a => a
            | none => 0))
      ∧ Payments.totalRevenue st
          = (st.payments.map (fun p =>
              match p.amountPaid with
              | some a => a
              | none => 0)).sum
      ∧ Payments.totalRevenue { st with searchTerm := term } = Payments.totalRevenue st := by
  have hmap : st.payments.map (fun p => orZero p.amountPaid)
      = st.payments.map (fun p =>
          match p.amountPaid with
          | some a => a
          | none => 0) :=
    List.map_congr_left (fun p _ => orZero_eq p.amountPaid)
  have hjs : Payments.totalRevenue st
      = jsSum (st.payments.map (fun p =>
          match p.amountPaid with
          | some a => a
          | none => 0)) := by
    unfold Payments.totalRevenue jsSum
    rw [foldl_jsAdd_map, hmap]
  refine ⟨hjs, ?_, rfl⟩
  rw [hjs]
  unfold jsSum
  rw [foldl_jsAdd_exact s _ 0 (Nat.dvd_zero _) ?_ (by simpa using hbound), Nat.zero_add]
  intro a ha
  rw [List.mem_map] at ha
  obtain ⟨p, hp, rfl⟩ := ha
  cases hamount : p.amountPaid with
  | none => exact Nat.dvd_zero _
  | some v => exact hwhole p hp v hamount

/-- Witness of C20, amended: payments of 10000 and 3000 francs add up to
13000 francs, whatever is typed in the search box. -/
theorem totalRevenue_eq_sum_witness :
    Payments.totalRevenue
        { demoPaymentsState with payments := [demoPayment, demoOrphanPayment] } = 13000 :=
  ((totalRevenue_eq_sum
    { demoPaymentsState with payments := [demoPayment, demoOrphanPayment] }
    "rab" 0 (by simp) (by decide)).2.1).trans (by decide)

/-! ### Reports summary, search, dashboard and payment form -/

section Lemmas

/-- Adding an amount to the groups adds it to the sum of the group totals. -/
theorem sum_addRevenue (groups : List Reports.RevenueItem) (name : Option String)
    (amount : Nat) :
    ((Reports.addRevenue groups name amount).map (fun g => orZero g.totalRevenue)).sum
      = (groups.map (fun g => orZero g.totalRevenue)).sum + amount := by
  induction groups with
  | nil => simp [Reports.addRevenue, orZero_some]
  | cons g rest ih =>
    unfold Reports.addRevenue
    by_cases h : g._id = name
    · simp only [h, if_true, List.map_cons, List.sum_cons, orZero_some]
      omega
    · simp only [h, if_false, List.map_cons, List.sum_cons, ih]
      omega

/-- Grouping a list of payments adds the sum of their amounts to the sum of
the group totals. -/
theorem sum_foldl_addRevenue (payments : List Payment) (groups : List Reports.RevenueItem) :
    ((payments.foldl
        (fun gs p => Reports.addRevenue gs (Reports.packageNameOf p) (orZero p.amountPaid))
        groups).map (fun g => orZero g.totalRevenue)).sum
      = (groups.map (fun g => orZero g.totalRevenue)).sum
        + (payments.map (fun p => orZero p.amountPaid)).sum := by
  induction payments generalizing groups with
  | nil => simp
  | cons p rest ih =>
    rw [List.foldl_cons, ih, sum_addRevenue, List.map_cons, List.sum_cons]
    omega

/-- A callback that never throws filters like `List.filter`. -/
theorem filterThrowing_ok {α : Type} (callback : α → Except JsError Bool) (keep : α → Bool)
    (l : List α) (h : ∀ a ∈ l, callback a = .ok (keep a)) :
    filterThrowing callback l = .ok (l.filter keep) := by
  induction l with
  | nil => rfl
  | cons a rest ih =>
    have ha := h a (List.mem_cons_self a rest)
    have hrest := ih (fun x hx => h x (List.mem_cons_of_mem a hx))
    unfold filterThrowing
    rw [ha, hrest]
    by_cases hk : keep a = true
    · simp [hk, List.filter_cons]
    · have hk2 : keep a = false := by simpa using hk
      simp [hk2, List.filter_cons]

/-- Membership form of `jsIncludes`. -/
theorem jsIncludes_iff (s term : String) :
    jsIncludes s term = true ↔ term.toList <:+: s.toList := by
  simp [jsIncludes]

/-- Every string includes the empty string. -/
theorem jsIncludes_empty (s : String) : jsIncludes s "" = true := by
  rw [jsIncludes_iff]
  exact List.nil_infix

end Lemmas

/-- C21: for every summary report computed by the backend, the per-package
revenues in `revenueByPackage`, summed across all packages, equal the
summary's `totalRevenue`; and once the Reports page has loaded that summary,
the figures of its Revenue by Package cards add up to the figure of its Total
Revenue card. -/
theorem summary_package_revenue_sum (store : Reports.Store) (st : Reports.State) :
    ((orEmpty (Reports.summaryBackend store).revenueByPackage).map
        (fun g => orZero g.totalRevenue)).sum
        = orZero (Reports.summaryBackend store).totalRevenue
      ∧ ((Reports.shownPackageRevenues
            (Reports.fetchSummary st (.ok ⟨some (Reports.summaryBackend store)⟩))).map
          orZero).sum
          = Reports.shownTotalRevenue
              (Reports.fetchSummary st (.ok ⟨some (Reports.summaryBackend store)⟩)) := by
  have key : ((orEmpty (Reports.summaryBackend store).revenueByPackage).map
      (fun g => orZero g.totalRevenue)).sum
      = orZero (Reports.summaryBackend store).totalRevenue := by
    simp only [Reports.summaryBackend, orEmpty, orZero_some]
    rw [sum_foldl_addRevenue]
    simp
  refine ⟨key, ?_⟩
  have h1 : Reports.shownTotalRevenue
      (Reports.fetchSummary st (.ok ⟨some (Reports.summaryBackend store)⟩))
      = orZero (Reports.summaryBackend store).totalRevenue := rfl
  have h2 : (Reports.shownPackageRevenues
      (Reports.fetchSummary st (.ok ⟨some (Reports.summaryBackend store)⟩))).map orZero
      = (orEmpty (Reports.summaryBackend store).revenueByPackage).map
          (fun g => orZero g.totalRevenue) := by
    simp [Reports.shownPackageRevenues, Reports.fetchSummary, List.map_map, Function.comp_def]
  rw [h1, h2, key]

/-- C22: for every list of cars that carry a plate number, a driver name and
a car type, and every search term, `filteredCars` returns exactly the cars, in
their original order, whose plate number, driver name or car type contains the
search term as a substring when both are lower-cased; with the empty search
term it returns every car. -/
theorem filteredCars_exact (toLowerCase : String → String) (st : Cars.State)
    (hfields : ∀ car ∈ st.cars,
      car.plateNumber ≠ none ∧ car.driverName ≠ none ∧ car.carType ≠ none) :
    Cars.filteredCars toLowerCase st
        = .ok (Cars.specFilteredCars toLowerCase st.cars st.searchTerm)
      ∧ List.Sublist (Cars.specFilteredCars toLowerCase st.cars st.searchTerm) st.cars
      ∧ (∀ car, car ∈ Cars.specFilteredCars toLowerCase st.cars st.searchTerm ↔
          car ∈ st.cars ∧
            ((∃ v, car.plateNumber = some v
                ∧ (toLowerCase st.searchTerm).toList <:+: (toLowerCase v).toList)
              ∨ (∃ v, car.driverName = some v
                ∧ (toLowerCase st.searchTerm).toList <:+: (toLowerCase v).toList)
              ∨ (∃ v, car.carType = some v
                ∧ (toLowerCase st.searchTerm).toList <:+: (toLowerCase v).toList)))
      ∧ (toLowerCase "" = "" → st.searchTerm = "" →
          Cars.filteredCars toLowerCase st = .ok st.cars) := by
  have hcb : ∀ car ∈ st.cars,
      Cars.matchesSearch toLowerCase st.searchTerm car
        = .ok (decide ((∃ v ∈ car.plateNumber,
            (toLowerCase st.searchTerm).toList <:+: (toLowerCase v).toList)
          ∨ (∃ v ∈ car.driverName,
            (toLowerCase st.searchTerm).toList <:+: (toLowerCase v).toList)
          ∨ (∃ v ∈ car.carType,
            (toLowerCase st.searchTerm).toList <:+: (toLowerCase v).toList))) := by
    intro car hcar
    obtain ⟨h1, h2, h3⟩ := hfields car hcar
    obtain ⟨plate, hplate⟩ := Option.ne_none_iff_exists'.mp h1
    obtain ⟨driver, hdriver⟩ := Option.ne_none_iff_exists'.mp h2
    obtain ⟨kind, hkind⟩ := Option.ne_none_iff_exists'.mp h3
    unfold Cars.matchesSearch
    simp only [hplate, hdriver, hkind, Option.mem_def, Option.some.injEq, exists_eq_left']
    simp only [jsIncludes, decide_eq_true_eq, String.toList]
    by_cases ha : (toLowerCase st.searchTerm).data <:+: (toLowerCase plate).data
    · simp [ha]
    · by_cases hb : (toLowerCase st.searchTerm).data <:+: (toLowerCase driver).data
      · simp [ha, hb]
      · simp [ha, hb]
  have hmain : Cars.filteredCars toLowerCase st
      = .ok (Cars.specFilteredCars toLowerCase st.cars st.searchTerm) :=
    filterThrowing_ok _ _ _ hcb
  refine ⟨hmain, List.filter_sublist _, ?_, ?_⟩
  · intro car
    simp only [Cars.specFilteredCars, List.mem_filter, decide_eq_true_eq, Option.mem_def]
  · intro hlow hterm
    rw [hmain]
    congr 1
    unfold Cars.specFilteredCars
    rw [List.filter_eq_self]
    intro car hcar
    obtain ⟨h1, -, -⟩ := hfields car hcar
    obtain ⟨plate, hplate⟩ := Option.ne_none_iff_exists'.mp h1
    rw [hterm, hlow]
    simp only [decide_eq_true_eq]
    exact Or.inl ⟨plate, hplate, List.nil_infix⟩

/-- Witness of C22: searching `RAB` among the two demo cars finds the first
one only. -/
theorem filteredCars_exact_witness :
    (∀ car ∈ ({ demoCarsState with searchTerm := "RAB" } : Cars.State).cars,
        car.plateNumber ≠ none ∧ car.driverName ≠ none ∧ car.carType ≠ none)
      ∧ Cars.filteredCars demoToLowerCase { demoCarsState with searchTerm := "RAB" }
          = .ok [demoCar] :=
  ⟨by decide,
    (filteredCars_exact demoToLowerCase { demoCarsState with searchTerm := "RAB" }
      (by decide)).1.trans (by rfl)⟩

/-- C25, the code at the failing input: for a payments reply with six
payments the dashboard holds the first five, `pay-1` to `pay-5`, under the
source comment `Get recent payments (last 5)`; the last five of the list are
`pay-2` to `pay-6`. -/
theorem recentPayments_not_last_five :
    (Dashboard.fetchDashboardData demoDashboardState
        (.ok (some ⟨some [], some 0⟩)) (.ok (some ⟨some [], some 0⟩))
        (.ok (some ⟨some [], some 0⟩)) (.ok (some ⟨some demoSixPayments, some 6⟩))
        (.ok ⟨some ⟨none⟩⟩)).recentPayments.map (fun p => p._id)
        = ["pay-1", "pay-2", "pay-3", "pay-4", "pay-5"]
      ∧ (demoSixPayments.drop (demoSixPayments.length - 5)).map (fun p => p._id)
          = ["pay-2", "pay-3", "pay-4", "pay-5", "pay-6"]
      ∧ (Dashboard.fetchDashboardData demoDashboardState
          (.ok (some ⟨some [], some 0⟩)) (.ok (some ⟨some [], some 0⟩))
          (.ok (some ⟨some [], some 0⟩)) (.ok (some ⟨some demoSixPayments, some 6⟩))
          (.ok ⟨some ⟨none⟩⟩)).recentPayments
          ≠ demoSixPayments.drop (demoSixPayments.length - 5) := by
  decide

/-- What `fetchDashboardData` stores in `recentPayments` when every request
succeeds: `payments.slice(0, 5)` of line 54, which has at most 5 entries and
is the whole list when that has at most 5. -/
theorem recentPayments_slice (st : Dashboard.State)
    (cars : Dashboard.ListReply Car) (packages : Dashboard.ListReply Package)
    (services : Dashboard.ListReply ServiceRecord) (payments : List Payment)
    (count : Option Nat) (summary : ApiResponse Reports.Summary) :
    (Dashboard.fetchDashboardData st (.ok (some cars)) (.ok (some packages))
        (.ok (some services)) (.ok (some ⟨some payments, count⟩))
        (.ok ⟨some summary⟩)).recentPayments = payments.take 5
      ∧ (Dashboard.fetchDashboardData st (.ok (some cars)) (.ok (some packages))
          (.ok (some services)) (.ok (some ⟨some payments, count⟩))
          (.ok ⟨some summary⟩)).recentPayments.length ≤ 5
      ∧ (payments.length ≤ 5 →
          (Dashboard.fetchDashboardData st (.ok (some cars)) (.ok (some packages))
            (.ok (some services)) (.ok (some ⟨some payments, count⟩))
            (.ok ⟨some summary⟩)).recentPayments = payments) := by
  have h : (Dashboard.fetchDashboardData st (.ok (some cars)) (.ok (some packages))
      (.ok (some services)) (.ok (some ⟨some payments, count⟩))
      (.ok ⟨some summary⟩)).recentPayments = payments.take 5 := rfl
  rw [h]
  refine ⟨rfl, ?_, ?_⟩
  · rw [List.length_take]
    omega
  · intro hlen
    exact List.take_of_length_le hlen

/-- Counterexample to C27 as stated: the page holds one payment that has no
payment number and references no service record; with an empty search term
the filter of lines 126-130 drops it, so `filteredPayments` is empty, not the
full list, and the page shows `No payment records yet` while it holds a
payment. -/
theorem filteredPayments_drops_unsearchable :
    ({ demoPaymentsState with
        payments := [{ demoOrphanPayment with paymentNumber := none }] } :
        Payments.State).searchTerm = ""
      ∧ Payments.filteredPayments demoToLowerCase
          { demoPaymentsState with
            payments := [{ demoOrphanPayment with paymentNumber := none }] } = []
      ∧ Payments.filteredPayments demoToLowerCase
          { demoPaymentsState with
            payments := [{ demoOrphanPayment with paymentNumber := none }] }
          ≠ [{ demoOrphanPayment with paymentNumber := none }]
      ∧ Payments.emptyState demoToLowerCase
          { demoPaymentsState with
            payments := [{ demoOrphanPayment with paymentNumber := none }] }
          = some "No payment records yet" := by
  decide

/-- C27, amended: with an empty search term, `filteredPayments` keeps exactly
the payments that have a payment number, a car plate or a package name to
search in; so it equals the full list exactly when every payment held has one
of the three, and then the `No payment records yet` empty state appears only
when there are no payments. -/
theorem filteredPayments_empty_term (toLowerCase : String → String) (st : Payments.State)
    (hlow : toLowerCase "" = "") (hterm : st.searchTerm = "") :
    Payments.filteredPayments toLowerCase st
        = st.payments.filter (fun p =>
            p.paymentNumber.isSome
              || ((p.servicePackage.bind (fun s => s.car)).bind (fun c => c.plateNumber)).isSome
              || ((p.servicePackage.bind (fun s => s.package)).bind
                  (fun k => k.packageName)).isSome)
      ∧ (Payments.filteredPayments toLowerCase st = st.payments ↔
          ∀ p ∈ st.payments,
            (p.paymentNumber.isSome
              || ((p.servicePackage.bind (fun s => s.car)).bind
                  (fun c => c.plateNumber)).isSome
              || ((p.servicePackage.bind (fun s => s.package)).bind
                  (fun k => k.packageName)).isSome) = true)
      ∧ ((∀ p ∈ st.payments,
            (p.paymentNumber.isSome
              || ((p.servicePackage.bind (fun s => s.car)).bind
                  (fun c => c.plateNumber)).isSome
              || ((p.servicePackage.bind (fun s => s.package)).bind
                  (fun k => k.packageName)).isSome) = true) →
          Payments.filteredPayments toLowerCase st = st.payments
            ∧ (Payments.emptyState toLowerCase st = some "No payment records yet" ↔
                st.payments = [])
            ∧ (Payments.emptyState toLowerCase st ≠ none → st.payments = [])) := by
  have hhit : ∀ field : Option String,
      Payments.searchHit toLowerCase st.searchTerm field = field.isSome := by
    intro field
    cases field with
    | none => rfl
    | some v =>
      simp only [Payments.searchHit, hterm, hlow, Option.isSome_some]
      exact jsIncludes_empty _
  have hfilter : Payments.filteredPayments toLowerCase st
      = st.payments.filter (fun p =>
          p.paymentNumber.isSome
            || ((p.servicePackage.bind (fun s => s.car)).bind (fun c => c.plateNumber)).isSome
            || ((p.servicePackage.bind (fun s => s.package)).bind
                (fun k => k.packageName)).isSome) := by
    unfold Payments.filteredPayments
    simp only [hhit]
  have hiff : Payments.filteredPayments toLowerCase st = st.payments ↔
      ∀ p ∈ st.payments,
        (p.paymentNumber.isSome
          || ((p.servicePackage.bind (fun s => s.car)).bind
              (fun c => c.plateNumber)).isSome
          || ((p.servicePackage.bind (fun s => s.package)).bind
              (fun k => k.packageName)).isSome) = true := by
    rw [hfilter, List.filter_eq_self]
  refine ⟨hfilter, hiff, ?_⟩
  intro hfields
  have hall : Payments.filteredPayments toLowerCase st = st.payments := hiff.mpr hfields
  refine ⟨hall, ?_, ?_⟩
  · unfold Payments.emptyState
    rw [hall, hterm]
    by_cases hnil : st.payments = []
    · simp [hnil, truthy]
    · have hlen : st.payments.length ≠ 0 := fun h => hnil (List.length_eq_zero.mp h)
      simp [hnil, hlen]
  · unfold Payments.emptyState
    rw [hall]
    by_cases hnil : st.payments = []
    · exact fun _ => hnil
    · have hlen : st.payments.length ≠ 0 := fun h => hnil (List.length_eq_zero.mp h)
      simp [hlen]

/-- Witness of C27, amended: with two payments held, each with its payment
number, and nothing typed in the search box, both are listed and no empty
state is shown. -/
theorem filteredPayments_empty_term_witness :
    demoToLowerCase "" = ""
      ∧ (∀ p ∈ ({ demoPaymentsState with
            payments := [demoPayment, demoOrphanPayment] } : Payments.State).payments,
          (p.paymentNumber.isSome
            || ((p.servicePackage.bind (fun s => s.car)).bind
                (fun c => c.plateNumber)).isSome
            || ((p.servicePackage.bind (fun s => s.package)).bind
                (fun k => k.packageName)).isSome) = true)
      ∧ Payments.filteredPayments demoToLowerCase
          { demoPaymentsState with payments := [demoPayment, demoOrphanPayment] }
          = [demoPayment, demoOrphanPayment] :=
  ⟨by decide, by decide,
    ((filteredPayments_empty_term demoToLowerCase
      { demoPaymentsState with payments := [demoPayment, demoOrphanPayment] }
      (by decide) rfl).2.2 (by decide)).1⟩

/-! ### Form invariants -/

section Lemmas

/-- The load of the service records page leaves the form alone. -/
theorem fetchData_keeps_form (st : ServicePackages.State)
    (servicesRes : Except JsError (AxiosResponse (List ServiceRecord)))
    (carsRes : Except JsError (AxiosResponse (List Car)))
    (packagesRes : Except JsError (AxiosResponse (List Package))) :
    (ServicePackages.fetchData st servicesRes carsRes packagesRes).formData = st.formData
      ∧ (ServicePackages.fetchData st servicesRes carsRes packagesRes).editingService
          = st.editingService := by
  cases servicesRes with
  | error e => exact ⟨rfl, rfl⟩
  | ok r1 =>
    cases carsRes with
    | error e => exact ⟨rfl, rfl⟩
    | ok r2 =>
      cases packagesRes with
      | error e => exact ⟨rfl, rfl⟩
      | ok r3 =>
        rcases r1 with ⟨_ | b1⟩
        · exact ⟨rfl, rfl⟩
        · rcases r2 with ⟨_ | b2⟩
          · exact ⟨rfl, rfl⟩
          · rcases r3 with ⟨_ | b3⟩
            · exact ⟨rfl, rfl⟩
            · exact ⟨rfl, rfl⟩

/-- Whenever no record is being edited, the status cell of the form is
`pending`: this is kept by every event. -/
theorem step_keeps_pending (isoDay : String → Option String) (st : ServicePackages.State)
    (e : ServicePackages.Event)
    (hinv : st.editingService = none → st.formData.status = "pending") :
    (ServicePackages.step isoDay st e).1.editingService = none →
      (ServicePackages.step isoDay st e).1.formData.status = "pending" := by
  cases e with
  | openModal today service =>
    cases service with
    | none => exact fun _ => rfl
    | some s =>
      intro h
      exact absurd h (by
        cases hd : isoDay s.serviceDate <;>
          simp [ServicePackages.step, ServicePackages.openModal, hd])
  | closeModal today => exact fun _ => rfl
  | edit name value =>
    simp only [ServicePackages.step, ServicePackages.userEdit,
      ServicePackages.controlRendered, ServicePackages.handleChange]
    by_cases h4 : name = "status"
    · subst h4
      cases hed : st.editingService with
      | none => simpa [hed] using hinv hed
      | some s => simp [hed]
    · by_cases h1 : name = "carId"
      · simpa [h1, h4] using hinv
      · by_cases h2 : name = "packageId"
        · simpa [h1, h2, h4] using hinv
        · by_cases h3 : name = "serviceDate"
          · simpa [h1, h2, h3, h4] using hinv
          · simpa [h1, h2, h3, h4] using hinv
  | submit today writeRes servicesRes carsRes packagesRes =>
    cases writeRes with
    | error err => exact hinv
    | ok w =>
      intro _
      simp only [ServicePackages.step, ServicePackages.handleSubmit]
      rw [(fetchData_keeps_form _ servicesRes carsRes packagesRes).1]
      rfl

/-- A create request issued by an event carries the form of the state in
which no record is being edited. -/
theorem step_create_pending (isoDay : String → Option String) (st : ServicePackages.State)
    (e : ServicePackages.Event)
    (hinv : st.editingService = none → st.formData.status = "pending")
    (data : ServicePackages.FormData)
    (hmem : ServicePackages.Request.create data ∈ (ServicePackages.step isoDay st e).2) :
    data.status = "pending" := by
  cases e with
  | openModal today service => simp [ServicePackages.step] at hmem
  | closeModal today => simp [ServicePackages.step] at hmem
  | edit name value => simp [ServicePackages.step] at hmem
  | submit today writeRes servicesRes carsRes packagesRes =>
    cases hed : st.editingService with
    | some s =>
      cases writeRes <;> simp [ServicePackages.step, ServicePackages.handleSubmit, hed] at hmem
    | none =>
      have hst := hinv hed
      cases writeRes <;>
        simp [ServicePackages.step, ServicePackages.handleSubmit, hed] at hmem <;>
        (rw [hmem]; exact hst)

/-- From a state that satisfies the invariant, every create request of a run
carries status `pending`. -/
theorem run_create_pending (isoDay : String → Option String) (events : List ServicePackages.Event)
    (st : ServicePackages.State)
    (hinv : st.editingService = none → st.formData.status = "pending")
    (data : ServicePackages.FormData)
    (hmem : ServicePackages.Request.create data ∈ (ServicePackages.run isoDay st events).2) :
    data.status = "pending" := by
  induction events generalizing st with
  | nil => simp [ServicePackages.run] at hmem
  | cons e rest ih =>
    simp only [ServicePackages.run, List.mem_append] at hmem
    rcases hmem with h | h
    · exact step_create_pending isoDay st e hinv data h
    · exact ih _ (step_keeps_pending isoDay st e hinv) h

/-- Selecting an unpaid service with a positive package price pre-fills the
amount with the decimal digits of the price and selects the service; typing
in the amount input afterwards replaces the amount. -/
theorem handleChange_prefill_positive (st : Payments.State) (service : ServiceRecord)
    (n : Nat) (value : String)
    (hfind : st.unpaidServices.find? (fun s => decide (s._id = service._id)) = some service)
    (hid : service._id ≠ "")
    (hprice : service.package.bind (fun k => k.packagePrice) = some (n + 1)) :
    (Payments.handleChange st "servicePackageId" service._id).formData.amountPaid
        = toString (n + 1)
      ∧ (Payments.handleChange st "servicePackageId" service._id).formData.servicePackageId
          = service._id
      ∧ (Payments.handleChange st "servicePackageId" service._id).selectedService
          = some service
      ∧ (Payments.handleChange
          (Payments.handleChange st "servicePackageId" service._id)
          "amountPaid" value).formData.amountPaid = value := by
  have h : Payments.handleChange st "servicePackageId" service._id
      = { st with
          formData :=
            { Payments.setField st.formData "servicePackageId" service._id with
              servicePackageId := service._id, amountPaid := toString (n + 1) }
          selectedService := some service } := by
    simp [Payments.handleChange, hid, hfind, hprice]
  rw [h]
  refine ⟨rfl, rfl, rfl, ?_⟩
  simp [Payments.handleChange, Payments.setField]

end Lemmas

/-- C23: every create request for a service record sent by
`ServicePackages.handleSubmit` carries status `pending`, for every sequence of
modal open (new or edit), close, form-change and submit events since the page
was first rendered. -/
theorem create_request_pending (isoDay : String → Option String) (today : String)
    (events : List ServicePackages.Event) (data : ServicePackages.FormData)
    (hsent : ServicePackages.Request.create data
      ∈ (ServicePackages.run isoDay (ServicePackages.init today) events).2) :
    data.status = "pending" :=
  run_create_pending isoDay events (ServicePackages.init today) (fun _ => rfl) data hsent

/-- Witness of C23: a record is opened for edit and set to `paid`, the modal
is closed, a new record is entered and submitted; the create request carries
`pending`. -/
theorem create_request_pending_witness :
    ServicePackages.Request.create ⟨"car-2", "pkg-1", "2025-01-12", "pending"⟩
        ∈ (ServicePackages.run demoIsoDay (ServicePackages.init "2025-01-12")
            [ServicePackages.Event.openModal "2025-01-12" (some demoService),
              ServicePackages.Event.edit "status" "paid",
              ServicePackages.Event.closeModal "2025-01-12",
              ServicePackages.Event.openModal "2025-01-12" none,
              ServicePackages.Event.edit "status" "paid",
              ServicePackages.Event.edit "carId" "car-2",
              ServicePackages.Event.edit "packageId" "pkg-1",
              ServicePackages.Event.submit "2025-01-12" (.error demoServerError)
                (.error demoServerError) (.error demoServerError)
                (.error demoServerError)]).2
      ∧ (⟨"car-2", "pkg-1", "2025-01-12", "pending"⟩ : ServicePackages.FormData).status
          = "pending" :=
  ⟨by decide,
    create_request_pending demoIsoDay "2025-01-12"
      [ServicePackages.Event.openModal "2025-01-12" (some demoService),
        ServicePackages.Event.edit "status" "paid",
        ServicePackages.Event.closeModal "2025-01-12",
        ServicePackages.Event.openModal "2025-01-12" none,
        ServicePackages.Event.edit "status" "paid",
        ServicePackages.Event.edit "carId" "car-2",
        ServicePackages.Event.edit "packageId" "pkg-1",
        ServicePackages.Event.submit "2025-01-12" (.error demoServerError)
          (.error demoServerError) (.error demoServerError) (.error demoServerError)]
      ⟨"car-2", "pkg-1", "2025-01-12", "pending"⟩ (by decide)⟩

/-- C24, the code at the failing input: `demoFreeService` is in the unpaid
set and its package price is 0. Selecting it in a freshly opened form leaves
`amountPaid` empty, not `0`, and selects no service; selecting it after
`demoService` leaves the amount of `demoService`, 10000, in the form. -/
theorem handleChange_zero_price_no_prefill :
    demoFreeService ∈ demoLoadedPayments.unpaidServices
      ∧ demoFreeService.package.bind (fun k => k.packagePrice) = some 0
      ∧ (Payments.handleChange (Payments.openModal "2025-01-12" demoLoadedPayments)
          "servicePackageId" "svc-free").formData
          = ⟨"svc-free", "", "cash", "2025-01-12"⟩
      ∧ (Payments.handleChange (Payments.openModal "2025-01-12" demoLoadedPayments)
          "servicePackageId" "svc-free").selectedService = none
      ∧ (Payments.handleChange
          (Payments.handleChange (Payments.openModal "2025-01-12" demoLoadedPayments)
            "servicePackageId" "svc-1")
          "servicePackageId" "svc-free").formData
          = ⟨"svc-free", "10000", "cash", "2025-01-12"⟩ := by
  decide

/-- C26, the code at the failing input: the form is opened, `demoService` is
selected and then the empty option of the select is chosen. `selectedService`
is still `demoService` while `formData.servicePackageId` is empty, so the
details panel describes a service that is not the selected one. -/
theorem selectedService_stale_after_deselect :
    ([Payments.FormEvent.openModal "2025-01-12",
        Payments.FormEvent.change "servicePackageId" "svc-1",
        Payments.FormEvent.change "servicePackageId" ""].foldl
        Payments.formStep demoLoadedPayments).selectedService = some demoService
      ∧ ([Payments.FormEvent.openModal "2025-01-12",
          Payments.FormEvent.change "servicePackageId" "svc-1",
          Payments.FormEvent.change "servicePackageId" ""].foldl
          Payments.formStep demoLoadedPayments).formData.servicePackageId = ""
      ∧ demoService._id ≠ ""
      ∧ ([Payments.FormEvent.openModal "2025-01-12",
          Payments.FormEvent.change "servicePackageId" "svc-1",
          Payments.FormEvent.change "servicePackageId" "svc-free"].foldl
          Payments.formStep demoLoadedPayments).selectedService = some demoService
      ∧ ([Payments.FormEvent.openModal "2025-01-12",
          Payments.FormEvent.change "servicePackageId" "svc-1",
          Payments.FormEvent.change "servicePackageId" "svc-free"].foldl
          Payments.formStep demoLoadedPayments).formData.servicePackageId = "svc-free" := by
  decide

/-! ### Session holder: successful login and session check -/

section Lemmas

/-- Reading a key right after it was set. -/
theorem getItem_setItem_same (storage : List (String × String)) (key value : String) :
    getItem (setItem storage key value) key = some value := by
  simp [getItem, setItem]

/-- Reading another key after a key was set. -/
theorem getItem_setItem_other (storage : List (String × String)) (key value other : String)
    (hne : other ≠ key) :
    getItem (setItem storage key value) other = getItem storage other := by
  have h1 : getItem (setItem storage key value) other
      = getItem (removeItem storage key) other := by
    have hk : ¬ key = other := fun h => hne h.symm
    simp [getItem, setItem, List.find?_cons, hk]
  rw [h1, getItem_removeItem, if_neg hne]

/-- The rest of an object no longer has the property taken away and has
every other property as before. -/
theorem get_rest (obj : JObj) (k key : String) :
    (JObj.rest obj k).get key = if key = k then none else obj.get key := by
  unfold JObj.get JObj.rest
  induction obj with
  | nil => simp
  | cons kv t ih =>
    by_cases h1 : kv.1 = k
    · by_cases h2 : kv.1 = key
      · have h3 : key = k := h2 ▸ h1
        simp only [List.filter_cons, h1, decide_True, Bool.not_true, Bool.false_eq_true,
          if_false, h3, if_true] at ih ⊢
        exact ih
      · simp only [List.filter_cons, h1, decide_True, Bool.not_true, Bool.false_eq_true,
          if_false] at ih ⊢
        rw [ih]
        have h4 : ¬ k = key := h1 ▸ h2
        simp [List.find?_cons, h1, h4]
    · by_cases h2 : kv.1 = key
      · have h3 : ¬ key = k := h2 ▸ h1
        simp [List.filter_cons, h1, List.find?_cons, h2, h3]
      · simp only [List.filter_cons, h1, decide_False, Bool.not_false, if_true,
          List.find?_cons, h2] at ih ⊢
        exact ih

/-- Storage after a successful login or register: the token under `token`,
the serialized rest under `user`, every other key as before. -/
theorem getItem_session (storage : List (String × String)) (token user : String) :
    getItem (setItem (setItem storage "token" token) "user" user) "token" = some token
      ∧ getItem (setItem (setItem storage "token" token) "user" user) "user" = some user
      ∧ ∀ key, key ≠ "token" → key ≠ "user" →
          getItem (setItem (setItem storage "token" token) "user" user) key
            = getItem storage key := by
  refine ⟨?_, getItem_setItem_same _ _ _, ?_⟩
  · rw [getItem_setItem_other _ _ _ _ (by decide), getItem_setItem_same]
  · intro key h1 h2
    rw [getItem_setItem_other _ _ _ _ h2, getItem_setItem_other _ _ _ _ h1]

end Lemmas

/-- C28: after every successful login and every successful register, with
response data `d`: the `token` storage key holds the token of `d`, the `user`
storage key holds the serialization of `d` without its `token` property, and
every other key is as before; the user state and the returned data are `d`
without `token`, which has no `token` property and has every other property
of `d`; and `isAuthenticated` is true. -/
theorem login_register_success (stringify : JObj → String) (env : Env)
    (st : AuthContext.State)
    (authLogin : AuthContext.Credentials → Except JsError (ApiResponse JObj))
    (credentials : AuthContext.Credentials)
    (authRegister : JObj → Except JsError (ApiResponse JObj)) (form : JObj)
    (d : JObj)
    (hlogin : authLogin credentials = .ok ⟨some d⟩)
    (hregister : authRegister form = .ok ⟨some d⟩) :
    ((JObj.rest d "token").get "token" = none
        ∧ ∀ key, key ≠ "token" → (JObj.rest d "token").get key = d.get key)
      ∧ (getItem (AuthContext.login stringify env st authLogin credentials).1.storage "token"
            = some (storageString (d.get "token"))
        ∧ getItem (AuthContext.login stringify env st authLogin credentials).1.storage "user"
            = some (stringify (JObj.rest d "token"))
        ∧ (∀ key, key ≠ "token" → key ≠ "user" →
            getItem (AuthContext.login stringify env st authLogin credentials).1.storage key
              = getItem env.storage key)
        ∧ (AuthContext.login stringify env st authLogin credentials).2.1.user
            = some (JObj.rest d "token")
        ∧ (AuthContext.login stringify env st authLogin credentials).2.1.isAuthenticated = true
        ∧ (AuthContext.login stringify env st authLogin credentials).2.2
            = AuthContext.Result.success (JObj.rest d "token"))
      ∧ (getItem (AuthContext.register stringify env st authRegister form).1.storage "token"
            = some (storageString (d.get "token"))
        ∧ getItem (AuthContext.register stringify env st authRegister form).1.storage "user"
            = some (stringify (JObj.rest d "token"))
        ∧ (∀ key, key ≠ "token" → key ≠ "user" →
            getItem (AuthContext.register stringify env st authRegister form).1.storage key
              = getItem env.storage key)
        ∧ (AuthContext.register stringify env st authRegister form).2.1.user
            = some (JObj.rest d "token")
        ∧ (AuthContext.register stringify env st authRegister form).2.1.isAuthenticated = true
        ∧ (AuthContext.register stringify env st authRegister form).2.2
            = AuthContext.Result.success (JObj.rest d "token")) := by
  have hl : AuthContext.login stringify env st authLogin credentials
      = ({ env with
            storage := setItem (setItem env.storage "token" (storageString (d.get "token")))
              "user" (stringify (JObj.rest d "token")) },
          { st with user := some (JObj.rest d "token"), isAuthenticated := true },
          AuthContext.Result.success (JObj.rest d "token")) := by
    simp [AuthContext.login, hlogin, Api.request, Api.responseFulfilled]
  have hr : AuthContext.register stringify env st authRegister form
      = ({ env with
            storage := setItem (setItem env.storage "token" (storageString (d.get "token")))
              "user" (stringify (JObj.rest d "token")) },
          { st with user := some (JObj.rest d "token"), isAuthenticated := true },
          AuthContext.Result.success (JObj.rest d "token")) := by
    simp [AuthContext.register, hregister, Api.request, Api.responseFulfilled]
  obtain ⟨s1, s2, s3⟩ := getItem_session env.storage (storageString (d.get "token"))
    (stringify (JObj.rest d "token"))
  refine ⟨⟨?_, ?_⟩, ?_, ?_⟩
  · rw [get_rest]
    simp
  · intro key hkey
    rw [get_rest, if_neg hkey]
  · rw [hl]
    exact ⟨s1, s2, s3, rfl, rfl, rfl⟩
  · rw [hr]
    exact ⟨s1, s2, s3, rfl, rfl, rfl⟩

/-- Witness of C28: a login answered with a token, an id and a username from
a browser that holds one unrelated entry. -/
theorem login_register_success_witness :
    (AuthContext.login demoStringify ⟨[("theme", "dark")], "/login"⟩ demoAuthState
        (fun _ => .ok ⟨some [("_id", JVal.str "u1"), ("username", JVal.str "alice"),
          ("token", JVal.str "abc")]⟩)
        ⟨"alice", "secret1"⟩).2.1.user
        = some [("_id", JVal.str "u1"), ("username", JVal.str "alice")]
      ∧ getItem (AuthContext.login demoStringify ⟨[("theme", "dark")], "/login"⟩ demoAuthState
          (fun _ => .ok ⟨some [("_id", JVal.str "u1"), ("username", JVal.str "alice"),
            ("token", JVal.str "abc")]⟩)
          ⟨"alice", "secret1"⟩).1.storage "token" = some "abc" :=
  ⟨((login_register_success demoStringify ⟨[("theme", "dark")], "/login"⟩ demoAuthState
      (fun _ => .ok ⟨some [("_id", JVal.str "u1"), ("username", JVal.str "alice"),
        ("token", JVal.str "abc")]⟩)
      ⟨"alice", "secret1"⟩
      (fun _ => .ok ⟨some [("_id", JVal.str "u1"), ("username", JVal.str "alice"),
        ("token", JVal.str "abc")]⟩)
      [] [("_id", JVal.str "u1"), ("username", JVal.str "alice"), ("token", JVal.str "abc")]
      rfl rfl).2.1.2.2.2.1).trans (by decide),
    ((login_register_success demoStringify ⟨[("theme", "dark")], "/login"⟩ demoAuthState
      (fun _ => .ok ⟨some [("_id", JVal.str "u1"), ("username", JVal.str "alice"),
        ("token", JVal.str "abc")]⟩)
      ⟨"alice", "secret1"⟩
      (fun _ => .ok ⟨some [("_id", JVal.str "u1"), ("username", JVal.str "alice"),
        ("token", JVal.str "abc")]⟩)
      [] [("_id", JVal.str "u1"), ("username", JVal.str "alice"), ("token", JVal.str "abc")]
      rfl rfl).2.1.1).trans (by decide)⟩

/-- C29: `checkAuth` ends with `loading` false in every case. When `token`
and `user` are both in storage and the current-user request succeeds, it sets
the user from the response and `isAuthenticated` to true; it ends with
`isAuthenticated` true in no other way than that, or by leaving a true value
alone when an entry is missing. When both are in storage and the request
fails, both storage entries are removed and `user` is null and
`isAuthenticated` false. When either entry is missing (absent or empty), the
outcome of the request plays no part: storage, location and every state cell
but `loading` are unchanged. -/
theorem checkAuth_cases (env : Env) (st : AuthContext.State)
    (getMe : Except JsError (ApiResponse JObj)) :
    (AuthContext.checkAuth env st getMe).2.loading = false
      ∧ ((AuthContext.checkAuth env st getMe).2.isAuthenticated = true →
          (truthy (getItem env.storage "token") = true
              ∧ truthy (getItem env.storage "user") = true ∧ ∃ r, getMe = .ok r)
            ∨ ((truthy (getItem env.storage "token") = false
                ∨ truthy (getItem env.storage "user") = false)
              ∧ st.isAuthenticated = true))
      ∧ (∀ r, truthy (getItem env.storage "token") = true →
          truthy (getItem env.storage "user") = true → getMe = .ok r →
            (AuthContext.checkAuth env st getMe).2.isAuthenticated = true
              ∧ (AuthContext.checkAuth env st getMe).2.user = r.data
              ∧ (AuthContext.checkAuth env st getMe).1 = env)
      ∧ (∀ e, truthy (getItem env.storage "token") = true →
          truthy (getItem env.storage "user") = true → getMe = .error e →
            getItem (AuthContext.checkAuth env st getMe).1.storage "token" = none
              ∧ getItem (AuthContext.checkAuth env st getMe).1.storage "user" = none
              ∧ (AuthContext.checkAuth env st getMe).2.user = none
              ∧ (AuthContext.checkAuth env st getMe).2.isAuthenticated = false)
      ∧ (truthy (getItem env.storage "token") = false
          ∨ truthy (getItem env.storage "user") = false →
            AuthContext.checkAuth env st getMe = (env, { st with loading := false })) := by
  have hmissing : truthy (getItem env.storage "token") = false
      ∨ truthy (getItem env.storage "user") = false →
        AuthContext.checkAuth env st getMe = (env, { st with loading := false }) := by
    intro h
    have hcond : (truthy (getItem env.storage "token")
        && truthy (getItem env.storage "user")) = false := by
      rcases h with h | h <;> simp [h]
    simp [AuthContext.checkAuth, hcond]
  have hok : ∀ r, truthy (getItem env.storage "token") = true →
      truthy (getItem env.storage "user") = true → getMe = .ok r →
        AuthContext.checkAuth env st getMe
          = (env, { st with user := r.data, isAuthenticated := true, loading := false }) := by
    intro r h1 h2 hr
    simp [AuthContext.checkAuth, h1, h2, hr, Api.request, Api.responseFulfilled]
  have herr : ∀ e, truthy (getItem env.storage "token") = true →
      truthy (getItem env.storage "user") = true → getMe = .error e →
        AuthContext.checkAuth env st getMe
          = ({ (Api.request env (.error e : Except JsError (ApiResponse JObj))).1 with
                storage := removeItem (removeItem
                  (Api.request env (.error e : Except JsError (ApiResponse JObj))).1.storage
                  "token") "user" },
              { st with
                console := st.console ++ [⟨"Auth check failed:", e⟩]
                user := none
                isAuthenticated := false
                loading := false }) := by
    intro e h1 h2 he
    have hsnd : (Api.responseRejected env e).2 = e := by
      unfold Api.responseRejected
      split <;> rfl
    simp [AuthContext.checkAuth, h1, h2, he, Api.request, hsnd]
  by_cases hboth : truthy (getItem env.storage "token") = true
      ∧ truthy (getItem env.storage "user") = true
  · obtain ⟨h1, h2⟩ := hboth
    cases hg : getMe with
    | ok r =>
      have h := hok r h1 h2 hg
      rw [hg] at h
      refine ⟨by rw [h], fun _ => Or.inl ⟨h1, h2, r, rfl⟩, ?_, ?_, ?_⟩
      · intro r2 _ _ hr2
        cases hr2
        rw [h]
        exact ⟨rfl, rfl, rfl⟩
      · intro e _ _ he
        cases he
      · intro hm
        rcases hm with hm | hm
        · rw [h1] at hm
          cases hm
        · rw [h2] at hm
          cases hm
    | error e =>
      have h := herr e h1 h2 hg
      rw [hg] at h
      refine ⟨by rw [h], ?_, ?_, ?_, ?_⟩
      · intro hauth
        rw [h] at hauth
        cases hauth
      · intro r _ _ hr
        cases hr
      · intro e2 _ _ he2
        cases he2
        rw [h]
        refine ⟨?_, ?_, rfl, rfl⟩
        · show getItem (removeItem (removeItem _ "token") "user") "token" = none
          rw [getItem_teardown]
          simp
        · show getItem (removeItem (removeItem _ "token") "user") "user" = none
          rw [getItem_teardown]
          simp
      · intro hm
        rcases hm with hm | hm
        · rw [h1] at hm
          cases hm
        · rw [h2] at hm
          cases hm
  · have hm : truthy (getItem env.storage "token") = false
        ∨ truthy (getItem env.storage "user") = false := by
      by_cases h1 : truthy (getItem env.storage "token") = true
      · right
        by_cases h2 : truthy (getItem env.storage "user") = true
        · exact absurd ⟨h1, h2⟩ hboth
        · simpa using h2
      · left
        simpa using h1
    have h := hmissing hm
    refine ⟨by rw [h], ?_, ?_, ?_, hmissing⟩
    · intro hauth
      rw [h] at hauth
      exact Or.inr ⟨hm, hauth⟩
    · intro r h1 h2 _
      exact absurd ⟨h1, h2⟩ hboth
    · intro e h1 h2 _
      exact absurd ⟨h1, h2⟩ hboth

/-- Witness of C29: with a session in storage and a rejected current-user
request the session is torn down; from a browser without a token nothing but
`loading` changes. -/
theorem checkAuth_cases_witness :
    truthy (getItem demoEnv.storage "token") = true
      ∧ truthy (getItem demoEnv.storage "user") = true
      ∧ getItem (AuthContext.checkAuth demoEnv { demoAuthState with loading := true }
          (.error demoServerError)).1.storage "token" = none
      ∧ truthy (getItem (⟨[("theme", "dark")], "/login"⟩ : Env).storage "token") = false
      ∧ AuthContext.checkAuth ⟨[("theme", "dark")], "/login"⟩
          { demoAuthState with loading := true } (.error demoServerError)
          = (⟨[("theme", "dark")], "/login"⟩, demoAuthState) :=
  ⟨by decide, by decide,
    ((checkAuth_cases demoEnv { demoAuthState with loading := true }
      (.error demoServerError)).2.2.2.1 demoServerError (by decide) (by decide) rfl).1,
    by decide,
    (checkAuth_cases ⟨[("theme", "dark")], "/login"⟩ { demoAuthState with loading := true }
      (.error demoServerError)).2.2.2.2 (Or.inl (by decide))⟩

/-! ### The email expression -/

section Lemmas

/-- The empty language has no match. -/
theorem matches_nothing (w : List Char) : ¬ Regex.Matches Regex.nothing w := by
  intro h
  cases h

/-- The empty expression matches the empty string only. -/
theorem matches_eps (w : List Char) : Regex.Matches Regex.eps w ↔ w = [] := by
  constructor
  · intro h
    cases h
    rfl
  · rintro rfl
    exact Regex.Matches.eps

/-- A class matches the one-character strings of its characters. -/
theorem matches_cls (p : Char → Bool) (w : List Char) :
    Regex.Matches (Regex.cls p) w ↔ ∃ c, w = [c] ∧ p c = true := by
  constructor
  · intro h
    cases h with
    | cls _ c hc => exact ⟨c, rfl, hc⟩
  · rintro ⟨c, rfl, hc⟩
    exact Regex.Matches.cls p c hc

/-- A sequence matches the concatenations of matches of its parts. -/
theorem matches_seq (r s : Regex) (w : List Char) :
    Regex.Matches (Regex.seq r s) w ↔ ∃ u v, w = u ++ v ∧ Regex.Matches r u ∧ Regex.Matches s v := by
  constructor
  · intro h
    cases h with
    | seq _ _ u v hu hv => exact ⟨u, v, rfl, hu, hv⟩
  · rintro ⟨u, v, rfl, hu, hv⟩
    exact Regex.Matches.seq r s u v hu hv

/-- An alternative matches what either side matches. -/
theorem matches_alt (r s : Regex) (w : List Char) :
    Regex.Matches (Regex.alt r s) w ↔ Regex.Matches r w ∨ Regex.Matches s w := by
  constructor
  · intro h
    cases h with
    | altLeft _ _ _ hu => exact Or.inl hu
    | altRight _ _ _ hu => exact Or.inr hu
  · rintro (h | h)
    · exact Regex.Matches.altLeft r s w h
    · exact Regex.Matches.altRight r s w h

/-- A non-empty match of a Regex.star starts with a non-empty match of the body. -/
theorem matches_star_cons (r : Regex) (c : Char) (w : List Char)
    (h : Regex.Matches (Regex.star r) (c :: w)) :
    ∃ u v, w = u ++ v ∧ Regex.Matches r (c :: u) ∧ Regex.Matches (Regex.star r) v := by
  generalize hR : Regex.star r = R at h
  generalize hw : c :: w = x at h
  induction h generalizing w with
  | eps => cases hR
  | cls p d hd => cases hR
  | seq r1 s1 u v hu hv _ _ => cases hR
  | altLeft r1 s1 u hu _ => cases hR
  | altRight r1 s1 u hu _ => cases hR
  | starNil r1 => cases hw
  | starCons r1 u v hu hv _ ihv =>
    cases hR
    cases u with
    | nil => exact ihv w rfl hw
    | cons d u2 =>
      simp only [List.cons_append, List.cons.injEq] at hw
      obtain ⟨rfl, rfl⟩ := hw
      exact ⟨u2, v, rfl, hu, hv⟩

/-- The nullable test decides the match of the empty string. -/
theorem nullable_iff (r : Regex) : Regex.nullable r = true ↔ Regex.Matches r [] := by
  induction r with
  | nothing => simp [Regex.nullable, matches_nothing]
  | eps => simp [Regex.nullable, matches_eps]
  | cls p => simp [Regex.nullable, matches_cls]
  | seq r s ihr ihs =>
    simp only [Regex.nullable, Bool.and_eq_true, ihr, ihs, matches_seq]
    constructor
    · rintro ⟨h1, h2⟩
      exact ⟨[], [], rfl, h1, h2⟩
    · rintro ⟨u, v, huv, h1, h2⟩
      have hu : u = [] := (List.append_eq_nil.mp huv.symm).1
      have hv : v = [] := (List.append_eq_nil.mp huv.symm).2
      subst hu hv
      exact ⟨h1, h2⟩
  | alt r s ihr ihs => simp only [Regex.nullable, Bool.or_eq_true, ihr, ihs, matches_alt]
  | star r _ => simp [Regex.nullable, Regex.Matches.starNil]

/-- The derivative by `c` matches `w` exactly when the expression matches
`c :: w`. -/
theorem matches_deriv (r : Regex) (c : Char) (w : List Char) :
    Regex.Matches (Regex.deriv r c) w ↔ Regex.Matches r (c :: w) := by
  induction r generalizing w with
  | nothing => simp [Regex.deriv, matches_nothing]
  | eps => simp [Regex.deriv, matches_nothing, matches_eps]
  | cls p =>
    by_cases hp : p c = true
    · simp only [Regex.deriv, hp, if_true, matches_eps, matches_cls]
      constructor
      · rintro rfl
        exact ⟨c, rfl, hp⟩
      · rintro ⟨d, hd, -⟩
        simp only [List.cons.injEq] at hd
        exact hd.2
    · simp only [Regex.deriv, hp, Bool.false_eq_true, if_false, matches_nothing, matches_cls,
        false_iff]
      rintro ⟨d, hd, hpd⟩
      simp only [List.cons.injEq] at hd
      rw [← hd.1] at hpd
      exact hp hpd
  | seq r s ihr ihs =>
    have key : Regex.Matches (Regex.seq r s) (c :: w) ↔
        (∃ u v, w = u ++ v ∧ Regex.Matches r (c :: u) ∧ Regex.Matches s v)
          ∨ (Regex.Matches r [] ∧ Regex.Matches s (c :: w)) := by
      rw [matches_seq]
      constructor
      · rintro ⟨u, v, huv, hu, hv⟩
        cases u with
        | nil =>
          simp only [List.nil_append] at huv
          subst huv
          exact Or.inr ⟨hu, hv⟩
        | cons d u2 =>
          simp only [List.cons_append, List.cons.injEq] at huv
          obtain ⟨rfl, rfl⟩ := huv
          exact Or.inl ⟨u2, v, rfl, hu, hv⟩
      · rintro (⟨u, v, rfl, hu, hv⟩ | ⟨hu, hv⟩)
        · exact ⟨c :: u, v, rfl, hu, hv⟩
        · exact ⟨[], c :: w, rfl, hu, hv⟩
    rw [key]
    by_cases hn : Regex.nullable r = true
    · simp only [Regex.deriv, hn, if_true, matches_alt, matches_seq, ihr, ihs]
      have hnil := (nullable_iff r).mp hn
      constructor
      · rintro (h | h)
        · exact Or.inl h
        · exact Or.inr ⟨hnil, h⟩
      · rintro (h | ⟨-, h⟩)
        · exact Or.inl h
        · exact Or.inr h
    · simp only [Regex.deriv, hn, Bool.false_eq_true, if_false, matches_seq, ihr]
      constructor
      · exact fun h => Or.inl h
      · rintro (h | ⟨h, -⟩)
        · exact h
        · exact absurd ((nullable_iff r).mpr h) hn
  | alt r s ihr ihs => simp only [Regex.deriv, matches_alt, ihr, ihs]
  | star r ih =>
    simp only [Regex.deriv, matches_seq, ih]
    constructor
    · rintro ⟨u, v, rfl, hu, hv⟩
      exact Regex.Matches.starCons r (c :: u) v hu hv
    · exact matches_star_cons r c w

/-- The derivative matcher decides the denotation. -/
theorem fullMatch_iff (r : Regex) (w : List Char) : Regex.fullMatch r w = true ↔ Regex.Matches r w := by
  induction w generalizing r with
  | nil => exact nullable_iff r
  | cons c t ih =>
    have h : Regex.fullMatch r (c :: t) = Regex.fullMatch (Regex.deriv r c) t := rfl
    rw [h, ih, matches_deriv]


/-- A star of a class matches the strings all of whose characters are in the
class. -/
theorem matches_star_cls (p : Char → Bool) (w : List Char) :
    Regex.Matches (Regex.star (Regex.cls p)) w ↔ ∀ c ∈ w, p c = true := by
  constructor
  · intro h
    induction w with
    | nil => exact fun c hc => absurd hc (List.not_mem_nil c)
    | cons d t ih =>
      obtain ⟨u, v, rfl, hu, hv⟩ := matches_star_cons _ d t h
      obtain ⟨e, he, hpe⟩ := (matches_cls p (d :: u)).mp hu
      simp only [List.cons.injEq] at he
      obtain ⟨rfl, rfl⟩ := he
      intro c hc
      rcases List.mem_cons.mp hc with rfl | hc
      · exact hpe
      · exact ih hv c (by simpa using hc)
  · intro h
    induction w with
    | nil => exact Regex.Matches.starNil _
    | cons d t ih =>
      have h1 : Regex.Matches (Regex.cls p) [d] :=
        Regex.Matches.cls p d (h d (List.mem_cons_self d t))
      have h2 := ih (fun c hc => h c (List.mem_cons_of_mem d hc))
      exact Regex.Matches.starCons _ [d] t h1 h2

/-- A plus of a class matches the non-empty strings all of whose characters
are in the class. -/
theorem matches_plus_cls (p : Char → Bool) (w : List Char) :
    Regex.Matches (Regex.plus (Regex.cls p)) w ↔ w ≠ [] ∧ ∀ c ∈ w, p c = true := by
  unfold Regex.plus
  rw [matches_seq]
  constructor
  · rintro ⟨u, v, rfl, hu, hv⟩
    obtain ⟨d, rfl, hd⟩ := (matches_cls p u).mp hu
    refine ⟨by simp, ?_⟩
    intro c hc
    rcases List.mem_cons.mp hc with rfl | hc
    · exact hd
    · exact (matches_star_cls p v).mp hv c hc
  · rintro ⟨hne, h⟩
    cases w with
    | nil => exact absurd rfl hne
    | cons d t =>
      exact ⟨[d], t, rfl, Regex.Matches.cls p d (h d (List.mem_cons_self d t)),
        (matches_star_cls p t).mpr (fun c hc => h c (List.mem_cons_of_mem d hc))⟩

/-- A literal matches the one-character string. -/
theorem matches_chr (c : Char) (w : List Char) : Regex.Matches (Regex.chr c) w ↔ w = [c] := by
  unfold Regex.chr
  rw [matches_cls]
  constructor
  · rintro ⟨d, rfl, hd⟩
    simp only [decide_eq_true_eq] at hd
    rw [hd]
  · rintro rfl
    exact ⟨c, rfl, by simp⟩

/-- The strings matched by the email expression. -/
theorem matches_emailRegex (w : List Char) :
    Regex.Matches Register.emailRegex w ↔
      ∃ a b c, w = a ++ '@' :: (b ++ '.' :: c) ∧ a ≠ [] ∧ b ≠ [] ∧ c ≠ []
        ∧ (∀ x ∈ a, Register.notSpaceNorAt x = true)
        ∧ (∀ x ∈ b, Register.notSpaceNorAt x = true)
        ∧ (∀ x ∈ c, Register.notSpaceNorAt x = true) := by
  unfold Register.emailRegex
  simp only [matches_seq, matches_plus_cls, matches_chr]
  constructor
  · rintro ⟨a, r1, rfl, ⟨ha, hpa⟩, at1, r2, rfl, rfl, b, r3, rfl, ⟨hb, hpb⟩, dot, c, rfl, rfl,
      hc, hpc⟩
    exact ⟨a, b, c, by simp, ha, hb, hc, hpa, hpb, hpc⟩
  · rintro ⟨a, b, c, rfl, ha, hb, hc, hpa, hpb, hpc⟩
    exact ⟨a, '@' :: (b ++ '.' :: c), rfl, ⟨ha, hpa⟩, ['@'], b ++ '.' :: c, rfl, rfl,
      b, '.' :: c, rfl, ⟨hb, hpb⟩, ['.'], c, rfl, rfl, hc, hpc⟩

/-- The class `[^\s@]`: neither whitespace nor `@`. -/
theorem notSpaceNorAt_iff (x : Char) :
    Register.notSpaceNorAt x = true ↔ isJsSpace x = false ∧ x ≠ '@' := by
  simp [Register.notSpaceNorAt]

end Lemmas

/-- C30: the email check of `Register.validateForm` accepts a string iff it
contains no whitespace (the class `\s`), contains exactly one `@` with a
non-empty part before it, and the part after the `@` contains a `.` that is
neither its first nor its last character. -/
theorem emailRegex_test_iff (s : String) :
    Register.emailRegex.test s = true ↔
      (∀ c ∈ s.toList, isJsSpace c = false)
        ∧ s.toList.count '@' = 1
        ∧ ∃ before after, s.toList = before ++ '@' :: after ∧ before ≠ []
            ∧ ∃ i, 0 < i ∧ i + 1 < after.length ∧ after[i]? = some '.' := by
  unfold Regex.test
  rw [fullMatch_iff, matches_emailRegex]
  constructor
  · rintro ⟨a, b, c, hw, ha, hb, hc, hpa, hpb, hpc⟩
    have hat : ∀ l : List Char, (∀ x ∈ l, Register.notSpaceNorAt x = true) →
        l.count '@' = 0 := by
      intro l hl
      rw [List.count_eq_zero]
      intro hmem
      exact ((notSpaceNorAt_iff _).mp (hl _ hmem)).2 rfl
    refine ⟨?_, ?_, a, b ++ '.' :: c, hw, ha, b.length, ?_, ?_, ?_⟩
    · intro x hx
      rw [hw] at hx
      simp only [List.mem_append, List.mem_cons] at hx
      rcases hx with hx | rfl | hx | rfl | hx
      · exact ((notSpaceNorAt_iff _).mp (hpa x hx)).1
      · decide
      · exact ((notSpaceNorAt_iff _).mp (hpb x hx)).1
      · decide
      · exact ((notSpaceNorAt_iff _).mp (hpc x hx)).1
    · rw [hw]
      simp only [List.count_append, List.count_cons, hat a hpa, hat b hpb, hat c hpc]
      decide
    · exact List.length_pos.mpr hb
    · have := List.length_pos.mpr hc
      simp only [List.length_append, List.length_cons]
      omega
    · rw [List.getElem?_append_right (le_refl _)]
      simp
  · rintro ⟨hsp, hcount, before, after, hw, hbefore, i, hi0, hi1, hdot⟩
    have hcnt : before.count '@' = 0 ∧ after.count '@' = 0 := by
      rw [hw] at hcount
      simp only [List.count_append, List.count_cons, beq_self_eq_true, if_true] at hcount
      omega
    have hok : ∀ x ∈ s.toList, x ≠ '@' → Register.notSpaceNorAt x = true :=
      fun x hx hne => (notSpaceNorAt_iff x).mpr ⟨hsp x hx, hne⟩
    have hbefore_ok : ∀ x ∈ before, Register.notSpaceNorAt x = true := by
      intro x hx
      refine hok x (by rw [hw]; simp [hx]) ?_
      rintro rfl
      exact (List.count_eq_zero.mp hcnt.1) hx
    have hafter_ok : ∀ x ∈ after, Register.notSpaceNorAt x = true := by
      intro x hx
      refine hok x (by rw [hw]; simp [hx]) ?_
      rintro rfl
      exact (List.count_eq_zero.mp hcnt.2) hx
    have hilt : i < after.length := by omega
    have hsplit : after = after.take i ++ '.' :: after.drop (i + 1) := by
      have hget : after[i] = '.' := by
        have := List.getElem?_eq_getElem hilt
        rw [this] at hdot
        exact Option.some.inj hdot
      conv_lhs => rw [← List.take_append_drop i after]
      congr 1
      rw [List.drop_eq_getElem_cons hilt, hget]
    refine ⟨before, after.take i, after.drop (i + 1), ?_, hbefore, ?_, ?_, hbefore_ok, ?_, ?_⟩
    · rw [hw, ← hsplit]
    · intro h
      have := congrArg List.length h
      simp only [List.length_take, List.length_nil] at this
      omega
    · intro h
      have := congrArg List.length h
      simp only [List.length_drop, List.length_nil] at this
      omega
    · exact fun x hx => hafter_ok x (List.mem_of_mem_take hx)
    · exact fun x hx => hafter_ok x (List.mem_of_mem_drop hx)

end CarWash
